import Mathlib

/-!
# netbox-ssot: inventory, sources, network helpers and the Diff engine

A shallow embedding of

* `internal/netbox/inventory/inventory.go` (`NewNetboxInventory`,
  `NetboxInventory.Init`, `checkVersion`, `NetboxInventory.DeleteOrphans`,
  `softDelete`),
* `internal/source/common/utils.go` (the `Match*` helpers),
* `internal/utils/networking.go` (`MaskToBits`,
  `RemoveZoneIndexFromIPAddress`, `SubnetContainsIPAddress`,
  `IsPermittedIPAddress`, `GetPrefixAndMaskFromIPAddress`),
* `internal/source/dnac/dnac_sync.go` (`syncSites`, `syncVlans`,
  `syncDevice`, `syncDeviceInterface`, `addIPAddressToInterface` and their
  helpers),
* `internal/source/source.go` (`NewSource`),
* `utils.Slugify` and `utils.JsonDiffMapExceptId`, which `pkg/utils`
  declares outside the sources at hand and which are modelled from the spec
  and from `utils_test.go`,

together with properties of these functions.

Conventions.  A Go pointer that may be `nil` is an `Option`; a Go `error`
is an `Option String` (`none` is `nil`); a Go map is an association list
whose order is the iteration order of the run under consideration, so a
statement quantified over all such lists covers every iteration order.
Calls on collaborators (the Remote client, the inventory `Get*`/`Add*`
operations) are recorded in a trace.  Logger calls do not influence control
flow; where they are recorded, they are a list of lines.
-/

namespace NetboxSsot

/-! ## Hydration: `NetboxInventory.Init` -/

/-- The init functions that `NetboxInventory.Init` puts in `initFunctions`. -/
inductive InitStep where
  | initCustomFields
  | initSsotCustomFields
  | initTags
  | initContactGroups
  | initContactRoles
  | initAdminContactRole
  | initContacts
  | initContactAssignments
  | initTenants
  | initSites
  | initDefaultSite
  | initManufacturers
  | initPlatforms
  | initDevices
  | initVirtualDeviceContexts
  | initInterfaces
  | initIPAddresses
  | initVlanGroups
  | initDefaultVlanGroup
  | initPrefixes
  | initVlans
  | initDeviceRoles
  | initDeviceTypes
  | initClusterGroups
  | initClusterTypes
  | initClusters
  | initVMs
  | initVMInterfaces
  | initWirelessLANs
  | initWirelessLANGroups
  deriving DecidableEq, Repr

open InitStep in
/-- The slice literal `initFunctions` of `Init` (inventory.go, lines 207-238),
in source order. -/
def initFunctions : List InitStep :=
  [ initCustomFields, initSsotCustomFields, initTags, initContactGroups,
    initContactRoles, initAdminContactRole, initContacts, initContactAssignments,
    initTenants, initSites, initDefaultSite, initManufacturers, initPlatforms,
    initDevices, initVirtualDeviceContexts, initInterfaces, initIPAddresses,
    initVlanGroups, initDefaultVlanGroup, initPrefixes, initVlans, initDeviceRoles,
    initDeviceTypes, initClusterGroups, initClusterTypes, initClusters, initVMs,
    initVMInterfaces, initWirelessLANs, initWirelessLANGroups ]

/-- What `Init` depends on from outside: the outcome of building the client,
of the version check, and of each init function.  The outcome of an init
function may depend on the init functions that ran before it.
`ExtractFunctionName` is `utils.ExtractFunctionName`. -/
structure InitEnv where
  NewNetboxClient : Option String
  checkVersion : Option String
  initFunc : List InitStep → InitStep → Option String
  ExtractFunctionName : InitStep → String

/-- The `for _, initFunc := range initFunctions` loop of `Init`: `done` holds
the init functions already run, oldest first.  Returns the init functions run
in order and the error returned. -/
def runInitFunctions (env : InitEnv) : List InitStep → List InitStep → List InitStep × Option String
  | done, [] => (done, none)
  | done, f :: rest =>
    match env.initFunc done f with
    | some err => (done ++ [f], some (err ++ ": " ++ env.ExtractFunctionName f))
    | none => runInitFunctions env (done ++ [f]) rest

/-- `NetboxInventory.Init`: the init functions run, in order, and the error
returned. -/
def Init (env : InitEnv) : List InitStep × Option String :=
  match env.NewNetboxClient with
  | some err => ([], some ("create new netbox client: " ++ err))
  | none =>
    match env.checkVersion with
    | some err => ([], some err)
    | none => runInitFunctions env [] initFunctions

/-- `a` is run before `b` in the run `l`: both were run and the first run of
`a` precedes the first run of `b`. -/
def runsBefore (a b : InitStep) (l : List InitStep) : Prop :=
  a ∈ l ∧ b ∈ l ∧ l.indexOf a < l.indexOf b

instance (a b : InitStep) (l : List InitStep) : Decidable (runsBefore a b l) := by
  unfold runsBefore; infer_instance

/-- An environment in which every step of `Init` succeeds. -/
def okInitEnv : InitEnv :=
  { NewNetboxClient := none, checkVersion := none, initFunc := fun _ _ => none,
    ExtractFunctionName := fun _ => "" }

/-- An environment in which the client is built and the version check passes,
but `initTags` fails with the error `503`. -/
def tagsFailInitEnv : InitEnv :=
  { NewNetboxClient := none, checkVersion := none,
    initFunc := fun _ f => if f = .initTags then some "503" else none,
    ExtractFunctionName := fun f => if f = .initTags then "initTags" else "init" }


/-! ## Entity envelope -/

/-- Modelled from the spec: `objects.Tag`, whose declaration is not part of
the sources at hand; the fields are those the tests construct. -/
structure Tag where
  ID : Int
  Name : String
  Slug : String
  Color : String
  Description : String
  deriving DecidableEq, Repr

/-- Modelled from the spec: the common envelope `objects.NetboxObject`
embedded in every entity (id, tags, description, custom fields); its
declaration is not part of the sources at hand. -/
structure NetboxObject where
  ID : Int
  Tags : List Tag
  Description : String
  CustomFields : List (String × String)
  deriving DecidableEq, Repr

/-- Modelled from the spec: `NetboxObject.HasTag`, membership in the ordered
tag set of the envelope. -/
def NetboxObject.HasTag (o : NetboxObject) (tag : Tag) : Bool :=
  o.Tags.contains tag

/-- Modelled from the spec: `NetboxObject.AddTag`, which puts the tag at the
end of the ordered tag set unless it is already there. -/
def NetboxObject.AddTag (o : NetboxObject) (tag : Tag) : NetboxObject :=
  if o.HasTag tag then o else { o with Tags := o.Tags ++ [tag] }

/-! ## Orphan manager and `DeleteOrphans` -/

/-- The dynamic type of an `objects.OrphanItem`: the twenty types named by a
`case` of the type switch in `softDelete`, followed by the four further types
that `objects/tenancy.go` declares as implementing `OrphanItem`. -/
inductive OrphanKind where
  | VlanGroup
  | Prefix
  | Vlan
  | IPAddress
  | VirtualDeviceContext
  | Interface
  | VMInterface
  | VM
  | Device
  | Platform
  | DeviceType
  | Manufacturer
  | DeviceRole
  | ClusterType
  | Cluster
  | ClusterGroup
  | ContactAssignment
  | Contact
  | WirelessLAN
  | WirelessLANGroup
  | TenantGroup
  | Tenant
  | ContactGroup
  | ContactRole
  deriving DecidableEq, Repr

/-- An `objects.OrphanItem`: a pointer to an entity, given by its dynamic type
and its envelope (`GetNetboxObject`).  Every entry of the orphan set points to
an object of its own. -/
structure OrphanItem where
  kind : OrphanKind
  obj : NetboxObject
  deriving DecidableEq, Repr

/-- `OrphanItem.GetID`: every implementation returns the `ID` of the envelope. -/
def OrphanItem.GetID (item : OrphanItem) : Int := item.obj.ID

/-- A call on the Remote client.  `Patch kind id tags` is
`service.Patch[kind](ctx, api, id, diffMap)`, where `diffMap` is the `tags`
entry of the JSON map of the object and is recorded by the tag list it is
computed from. -/
inductive RemoteCall where
  | Delete (path : String) (id : Int)
  | Patch (kind : OrphanKind) (id : Int) (tags : List Tag)
  deriving DecidableEq, Repr

/-- The Remote client as seen by `DeleteOrphans`: the error returned by a
call (`none` for success), which may depend on the calls made before it. -/
structure Remote where
  DeleteObject : List RemoteCall → String → Int → Option String
  Patch : List RemoteCall → OrphanKind → Int → List Tag → Option String

/-- The log lines of `DeleteOrphans` and `softDelete`, in source order of
their call sites. -/
inductive LogEntry where
  | performing (hard : Bool) (path : String)
  | idsToBeDeleted (hard : Bool) (path : String) (ids : List Int)
  | deleteObjects (err : String)
  | unsupportedType (kind : OrphanKind)
  | failedUpdating (item : OrphanItem) (err : String)
  | alreadyMarked (item : OrphanItem)
  deriving DecidableEq, Repr

/-- The fields of `OrphanManager` that `DeleteOrphans` reads.  `Items path` is
the map `Items[path]` as a list of its entries, in the order in which the
`range` loop visits them; a path that is no key of `Items` has no entries.
The declaration of `OrphanManager` is not part of the sources at hand, so
`OrphanObjectPriority` is any list of API paths. -/
structure OrphanManager where
  OrphanObjectPriority : List String
  Items : String → List (Int × OrphanItem)
  Tag : Tag

/-- The fields of `parser.NetboxConfig` that govern orphan removal. -/
structure NetboxConfig where
  RemoveOrphans : Bool
  RemoveOrphansAfterDays : Int
  deriving DecidableEq, Repr

/-- The fields of `NetboxInventory` that `DeleteOrphans` can reach. -/
structure OrphanInventory where
  NetboxConfig : NetboxConfig
  OrphanManager : OrphanManager

/-- The effects of a run so far: Remote calls and log lines, oldest first. -/
structure Effects where
  calls : List RemoteCall
  log : List LogEntry
  deriving DecidableEq, Repr

/-- The type switch of `softDelete`: `true` for the types that have a `case`
(which issues `service.Patch`), `false` for those that reach `default`. -/
def patchCase : OrphanKind → Bool
  | .VlanGroup => true
  | .Prefix => true
  | .Vlan => true
  | .IPAddress => true
  | .VirtualDeviceContext => true
  | .Interface => true
  | .VMInterface => true
  | .VM => true
  | .Device => true
  | .Platform => true
  | .DeviceType => true
  | .Manufacturer => true
  | .DeviceRole => true
  | .ClusterType => true
  | .Cluster => true
  | .ClusterGroup => true
  | .ContactAssignment => true
  | .Contact => true
  | .WirelessLAN => true
  | .WirelessLANGroup => true
  | _ => false

/-- `softDelete` (inventory.go, lines 300-358): returns the effects and the
object the item points to after the call. -/
def softDelete (remote : Remote) (nbi : OrphanInventory) (eff : Effects)
    (orphanItem : OrphanItem) : Effects × OrphanItem :=
  if !orphanItem.obj.HasTag nbi.OrphanManager.Tag then
    let obj := orphanItem.obj.AddTag nbi.OrphanManager.Tag
    let item := { orphanItem with obj := obj }
    let diffMap := obj.Tags
    if patchCase orphanItem.kind then
      let err := remote.Patch eff.calls orphanItem.kind item.GetID diffMap
      let eff := { eff with calls := eff.calls ++ [RemoteCall.Patch orphanItem.kind item.GetID diffMap] }
      match err with
      | some e => ({ eff with log := eff.log ++ [LogEntry.failedUpdating item e] }, item)
      | none => (eff, item)
    else
      ({ eff with log := eff.log ++ [LogEntry.unsupportedType orphanItem.kind] }, item)
  else
    ({ eff with log := eff.log ++ [LogEntry.alreadyMarked orphanItem] }, orphanItem)

/-- The loop `for id, orphanItem := range id2orphanItem` of `DeleteOrphans`:
returns the effects and the entries with the objects they point to after the
loop. -/
def deleteItems (remote : Remote) (nbi : OrphanInventory) (hard : Bool) (objectAPIPath : String) :
    Effects → List (Int × OrphanItem) → Effects × List (Int × OrphanItem)
  | eff, [] => (eff, [])
  | eff, (id, orphanItem) :: rest =>
    if hard then
      let err := remote.DeleteObject eff.calls objectAPIPath id
      let eff := { eff with calls := eff.calls ++ [RemoteCall.Delete objectAPIPath id] }
      let eff :=
        match err with
        | some e => { eff with log := eff.log ++ [LogEntry.deleteObjects e] }
        | none => eff
      let r := deleteItems remote nbi hard objectAPIPath eff rest
      (r.1, (id, orphanItem) :: r.2)
    else
      let s := softDelete remote nbi eff orphanItem
      let r := deleteItems remote nbi hard objectAPIPath s.1 rest
      (r.1, (id, s.2) :: r.2)

/-- The loop `for i := 0; i < len(OrphanObjectPriority); i++` of
`DeleteOrphans` over the paths still to handle: returns the effects and the
orphan set after the loop. -/
def deletePaths (remote : Remote) (nbi : OrphanInventory) (hard : Bool) :
    Effects → (String → List (Int × OrphanItem)) → List String →
    Effects × (String → List (Int × OrphanItem))
  | eff, items, [] => (eff, items)
  | eff, items, objectAPIPath :: rest =>
    let id2orphanItem := items objectAPIPath
    if id2orphanItem.length = 0 then
      deletePaths remote nbi hard eff items rest
    else
      let eff := { eff with log := eff.log ++
        [LogEntry.performing hard objectAPIPath,
         LogEntry.idsToBeDeleted hard objectAPIPath (id2orphanItem.map Prod.fst)] }
      let r := deleteItems remote nbi hard objectAPIPath eff id2orphanItem
      deletePaths remote nbi hard r.1 (Function.update items objectAPIPath r.2) rest

/-- What a call of `DeleteOrphans` returns and does. -/
structure DeleteOrphansResult where
  err : Option String
  calls : List RemoteCall
  log : List LogEntry
  Items : String → List (Int × OrphanItem)

/-- `NetboxInventory.DeleteOrphans` (inventory.go, lines 268-298). -/
def DeleteOrphans (remote : Remote) (nbi : OrphanInventory) (hard : Bool) : DeleteOrphansResult :=
  let r := deletePaths remote nbi hard { calls := [], log := [] } nbi.OrphanManager.Items
    nbi.OrphanManager.OrphanObjectPriority
  { err := none, calls := r.1.calls, log := r.1.log, Items := r.2 }

/-! ## Entities handled by the relation matchers -/

/-- Modelled from the spec: `objects.Choice`, the value/label pair of an
enumerated field; its declaration is not part of the sources at hand. -/
structure Choice where
  Value : String := ""
  Label : String := ""
  deriving DecidableEq, Repr

/-- The zero value of `objects.NetboxObject`. -/
def NetboxObject.zero : NetboxObject :=
  { ID := 0, Tags := [], Description := "", CustomFields := [] }

/-- `objects.TenantGroup` (tenancy.go).  Fields left out of a literal take
their zero value, as in a Go composite literal. -/
structure TenantGroup where
  NetboxObject : NetboxObject := NetboxObject.zero
  Name : String := ""
  Slug : String := ""
  deriving DecidableEq, Repr

/-- `objects.Tenant` (tenancy.go). -/
structure Tenant where
  NetboxObject : NetboxObject := NetboxObject.zero
  Name : String := ""
  Slug : String := ""
  Group : Option TenantGroup := none
  deriving DecidableEq, Repr

/-- `objects.Site` (dcim.go); the two `float64` coordinates are rationals. -/
structure Site where
  NetboxObject : NetboxObject := NetboxObject.zero
  Name : String := ""
  Slug : String := ""
  Status : Option Choice := none
  Tenant : Option Tenant := none
  PhysicalAddress : String := ""
  Latitude : Rat := 0
  Longitude : Rat := 0
  deriving DecidableEq, Repr

/-- `objects.DeviceRole` (dcim.go). -/
structure DeviceRole where
  NetboxObject : NetboxObject := NetboxObject.zero
  Name : String := ""
  Slug : String := ""
  Color : String := ""
  VMRole : Bool := false
  deriving DecidableEq, Repr

/-- `objects.VlanGroup`: the fields declared in ipam.go together with
`MinVid` and `MaxVid`, which the literal in `MatchVlanToGroup` sets. -/
structure VlanGroup where
  NetboxObject : NetboxObject := NetboxObject.zero
  Name : String := ""
  Slug : String := ""
  VidRanges : List (Int × Int) := []
  MinVid : Int := 0
  MaxVid : Int := 0
  ScopeType : String := ""
  ScopeID : Int := 0
  deriving DecidableEq, Repr

/-! ## Relation tables -/

deriving instance DecidableEq for Except

/-- A relation table as the `Match*` helpers receive it: `none` is the `nil`
map, `some l` a map whose entries (pattern, value) are listed in the order in
which a `range` loop over it visits them. -/
abbrev Relations := Option (List (String × String))

/-- Modelled from the spec: `utils.MatchStringToValue`, which is not part of
the sources at hand.  It returns the value of the first pattern that matches
the input, in the order in which the table is visited, the empty string when
no pattern matches, and the error of the regular-expression engine when a
pattern it tries does not compile.  `MatchString pattern input` is
`regexp.MatchString`. -/
def MatchStringToValue (MatchString : String → String → Except String Bool) (input : String) :
    List (String × String) → Except String String
  | [] => .ok ""
  | (regex, value) :: rest =>
    match MatchString regex input with
    | .error err => .error err
    | .ok true => .ok value
    | .ok false => MatchStringToValue MatchString input rest

/-! ## The inventory as seen by the relation matchers -/

/-- A call of a `Match*` helper on the inventory. -/
inductive InvCall where
  | GetTenant (name : String)
  | AddTenant (draft : Tenant)
  | GetSite (name : String)
  | AddSite (draft : Site)
  | AddDeviceRole (draft : DeviceRole)
  | GetVlanGroup (name : String)
  | AddVlanGroup (draft : VlanGroup)
  deriving DecidableEq, Repr

/-- What the `Match*` helpers use from outside `common/utils.go`, none of it
part of the sources at hand: the `Get*`/`Add*` operations of
`NetboxInventory` over an inventory state `σ` (a `Get*` returns the pointer
and the `ok` flag, an `Add*` the pointer or the error, and the new state),
`regexp.MatchString`, `utils.Slugify` and the constants of package
`constants`. -/
structure MatchEnv (σ : Type) where
  GetTenant : σ → String → Option Tenant × Bool
  AddTenant : σ → Tenant → Except String (Option Tenant) × σ
  GetSite : σ → String → Option Site × Bool
  AddSite : σ → Site → Except String (Option Site) × σ
  AddDeviceRole : σ → DeviceRole → Except String (Option DeviceRole) × σ
  GetVlanGroup : σ → String → Option VlanGroup × Bool
  AddVlanGroup : σ → VlanGroup → Except String (Option VlanGroup) × σ
  MatchString : String → String → Except String Bool
  Slugify : String → String
  DefaultSite : String
  DefaultVlanGroupName : String
  DefaultVID : Int
  MaxVID : Int
  ContentTypeDcimSite : String

/-- What a `Match*` helper returns (`value`, `err`) and does: the inventory
state it leaves and the inventory calls it made, oldest first. -/
structure MatchResult (σ α : Type) where
  value : Option α
  err : Option String
  nbi : σ
  calls : List InvCall

/-- `MatchClusterToTenant` (common/utils.go, lines 16-39). -/
def MatchClusterToTenant {σ : Type} (env : MatchEnv σ) (nbi : σ) (clusterName : String)
    (clusterTenantRelations : Relations) : MatchResult σ Tenant :=
  match clusterTenantRelations with
  | none => ⟨none, none, nbi, []⟩
  | some relations =>
    match MatchStringToValue env.MatchString clusterName relations with
    | .error err => ⟨none, some ("matching cluster to tenant: " ++ err), nbi, []⟩
    | .ok tenantName =>
      if tenantName ≠ "" then
        match env.GetTenant nbi tenantName with
        | (tenant, true) => ⟨tenant, none, nbi, [.GetTenant tenantName]⟩
        | (_, false) =>
          let draft : Tenant := { Name := tenantName, Slug := env.Slugify tenantName }
          match env.AddTenant nbi draft with
          | (.error err, nbi1) =>
            ⟨none, some ("add new tenant: " ++ err), nbi1, [.GetTenant tenantName, .AddTenant draft]⟩
          | (.ok tenant, nbi1) =>
            ⟨tenant, none, nbi1, [.GetTenant tenantName, .AddTenant draft]⟩
      else ⟨none, none, nbi, []⟩

/-- `MatchClusterToSite` (common/utils.go, lines 44-67). -/
def MatchClusterToSite {σ : Type} (env : MatchEnv σ) (nbi : σ) (clusterName : String)
    (clusterSiteRelations : Relations) : MatchResult σ Site :=
  match clusterSiteRelations with
  | none => ⟨none, none, nbi, []⟩
  | some relations =>
    match MatchStringToValue env.MatchString clusterName relations with
    | .error err => ⟨none, some ("matching cluster to tenant: " ++ err), nbi, []⟩
    | .ok siteName =>
      if siteName ≠ "" then
        match env.GetSite nbi siteName with
        | (site, true) => ⟨site, none, nbi, [.GetSite siteName]⟩
        | (_, false) =>
          let draft : Site := { Name := siteName, Slug := env.Slugify siteName }
          match env.AddSite nbi draft with
          | (.error err, nbi1) =>
            ⟨none, some ("add new site: " ++ err), nbi1, [.GetSite siteName, .AddSite draft]⟩
          | (.ok newSite, nbi1) =>
            ⟨newSite, none, nbi1, [.GetSite siteName, .AddSite draft]⟩
      else ⟨none, none, nbi, []⟩

/-- `MatchVlanToGroup` (common/utils.go, lines 72-116).  The text of the error
for a failed `AddVlanGroup` leaves out the printed group. -/
def MatchVlanToGroup {σ : Type} (env : MatchEnv σ) (nbi : σ) (vlanName : String)
    (vlanGroupRelations : Relations) (vlanGroupSiteRelations : Relations) :
    MatchResult σ VlanGroup :=
  match vlanGroupRelations with
  | none => ⟨(env.GetVlanGroup nbi env.DefaultVlanGroupName).1, none, nbi,
      [.GetVlanGroup env.DefaultVlanGroupName]⟩
  | some relations =>
    match MatchStringToValue env.MatchString vlanName relations with
    | .error err => ⟨none, some ("matching vlan to group: " ++ err), nbi, []⟩
    | .ok vlanGroupName =>
      -- the block `if vlanGroupSiteRelations != nil`: the site of the group
      -- (or the error), the state and the calls after it
      let siteStep : Except String (Option Site) × σ × List InvCall :=
        match vlanGroupSiteRelations with
        | none => (.ok none, nbi, [])
        | some siteRelations =>
          match MatchStringToValue env.MatchString vlanName siteRelations with
          | .error err => (.error ("matching vlan to site: " ++ err), nbi, [])
          | .ok siteName =>
            if siteName ≠ "" then
              let draft : Site := { Name := siteName, Slug := env.Slugify siteName }
              match env.AddSite nbi draft with
              | (.error err, nbi1) => (.error ("add site: " ++ err), nbi1, [.AddSite draft])
              | (.ok site, nbi1) => (.ok site, nbi1, [.AddSite draft])
            else (.ok none, nbi, [])
      match siteStep with
      | (.error err, nbi1, calls) => ⟨none, some err, nbi1, calls⟩
      | (.ok vlanGroupSite, nbi1, calls) =>
        if vlanGroupName ≠ "" then
          let draft : VlanGroup :=
            { Name := vlanGroupName, Slug := env.Slugify vlanGroupName,
              MinVid := env.DefaultVID, MaxVid := env.MaxVID }
          let draft : VlanGroup :=
            match vlanGroupSite with
            | some site =>
              { draft with ScopeType := env.ContentTypeDcimSite, ScopeID := site.NetboxObject.ID }
            | none => draft
          match env.AddVlanGroup nbi1 draft with
          | (.error err, nbi2) =>
            ⟨none, some ("add vlan group: " ++ err), nbi2, calls ++ [.AddVlanGroup draft]⟩
          | (.ok vlanGroup, nbi2) => ⟨vlanGroup, none, nbi2, calls ++ [.AddVlanGroup draft]⟩
        else
          -- `return vlanGroup, nil` with the outer `var vlanGroup *objects.VlanGroup`
          ⟨none, none, nbi1, calls⟩

/-- `MatchVlanToTenant` (common/utils.go, lines 121-145). -/
def MatchVlanToTenant {σ : Type} (env : MatchEnv σ) (nbi : σ) (vlanName : String)
    (vlanTenantRelations : Relations) : MatchResult σ Tenant :=
  match vlanTenantRelations with
  | none => ⟨none, none, nbi, []⟩
  | some relations =>
    match MatchStringToValue env.MatchString vlanName relations with
    | .error err => ⟨none, some ("matching vlan to tenant: " ++ err), nbi, []⟩
    | .ok tenantName =>
      if tenantName ≠ "" then
        match env.GetTenant nbi tenantName with
        | (tenant, true) => ⟨tenant, none, nbi, [.GetTenant tenantName]⟩
        | (_, false) =>
          let draft : Tenant := { Name := tenantName, Slug := env.Slugify tenantName }
          match env.AddTenant nbi draft with
          | (.error err, nbi1) =>
            ⟨none, some ("add new tenant: " ++ err), nbi1, [.GetTenant tenantName, .AddTenant draft]⟩
          | (.ok tenant, nbi1) =>
            ⟨tenant, none, nbi1, [.GetTenant tenantName, .AddTenant draft]⟩
      else ⟨none, none, nbi, []⟩

/-- `MatchHostToSite` (common/utils.go, lines 150-174). -/
def MatchHostToSite {σ : Type} (env : MatchEnv σ) (nbi : σ) (hostName : String)
    (hostSiteRelations : Relations) : MatchResult σ Site :=
  match hostSiteRelations with
  | none => ⟨none, none, nbi, []⟩
  | some relations =>
    match MatchStringToValue env.MatchString hostName relations with
    | .error err => ⟨none, some ("matching host to site: " ++ err), nbi, []⟩
    | .ok siteName =>
      if siteName ≠ "" then
        match env.GetSite nbi siteName with
        | (site, true) => ⟨site, none, nbi, [.GetSite siteName]⟩
        | (_, false) =>
          let draft : Site := { Name := siteName, Slug := env.Slugify siteName }
          match env.AddSite nbi draft with
          | (.error err, nbi1) =>
            ⟨none, some ("add new site: " ++ err), nbi1, [.GetSite siteName, .AddSite draft]⟩
          | (.ok newSite, nbi1) =>
            ⟨newSite, none, nbi1, [.GetSite siteName, .AddSite draft]⟩
      else ⟨(env.GetSite nbi env.DefaultSite).1, none, nbi, [.GetSite env.DefaultSite]⟩

/-- `MatchHostToTenant` (common/utils.go, lines 179-202). -/
def MatchHostToTenant {σ : Type} (env : MatchEnv σ) (nbi : σ) (hostName : String)
    (hostTenantRelations : Relations) : MatchResult σ Tenant :=
  match hostTenantRelations with
  | none => ⟨none, none, nbi, []⟩
  | some relations =>
    match MatchStringToValue env.MatchString hostName relations with
    | .error err => ⟨none, some ("matching host to tenant: " ++ err), nbi, []⟩
    | .ok tenantName =>
      if tenantName ≠ "" then
        match env.GetTenant nbi tenantName with
        | (tenant, true) => ⟨tenant, none, nbi, [.GetTenant tenantName]⟩
        | (_, false) =>
          let draft : Tenant := { Name := tenantName, Slug := env.Slugify tenantName }
          match env.AddTenant nbi draft with
          | (.error err, nbi1) =>
            ⟨none, some ("add new tenant: " ++ err), nbi1, [.GetTenant tenantName, .AddTenant draft]⟩
          | (.ok tenant, nbi1) =>
            ⟨tenant, none, nbi1, [.GetTenant tenantName, .AddTenant draft]⟩
      else ⟨none, none, nbi, []⟩

/-- `MatchHostToRole` (common/utils.go, lines 207-226). -/
def MatchHostToRole {σ : Type} (env : MatchEnv σ) (nbi : σ) (hostName : String)
    (hostRoleRelations : Relations) : MatchResult σ DeviceRole :=
  match hostRoleRelations with
  | none => ⟨none, none, nbi, []⟩
  | some relations =>
    match MatchStringToValue env.MatchString hostName relations with
    | .error err => ⟨none, some ("matching host to role: " ++ err), nbi, []⟩
    | .ok roleName =>
      if roleName ≠ "" then
        let draft : DeviceRole := { Name := roleName, Slug := env.Slugify roleName }
        match env.AddDeviceRole nbi draft with
        | (.error err, nbi1) =>
          ⟨none, some ("add new host role: " ++ err), nbi1, [.AddDeviceRole draft]⟩
        | (.ok role, nbi1) => ⟨role, none, nbi1, [.AddDeviceRole draft]⟩
      else ⟨none, none, nbi, []⟩

/-- `MatchVMToTenant` (common/utils.go, lines 231-254). -/
def MatchVMToTenant {σ : Type} (env : MatchEnv σ) (nbi : σ) (vmName : String)
    (vmTenantRelations : Relations) : MatchResult σ Tenant :=
  match vmTenantRelations with
  | none => ⟨none, none, nbi, []⟩
  | some relations =>
    match MatchStringToValue env.MatchString vmName relations with
    | .error err => ⟨none, some ("matching vm to tenant: " ++ err), nbi, []⟩
    | .ok tenantName =>
      if tenantName ≠ "" then
        match env.GetTenant nbi tenantName with
        | (tenant, true) => ⟨tenant, none, nbi, [.GetTenant tenantName]⟩
        | (_, false) =>
          let draft : Tenant := { Name := tenantName, Slug := env.Slugify tenantName }
          match env.AddTenant nbi draft with
          | (.error err, nbi1) =>
            ⟨none, some ("add new tenant: " ++ err), nbi1, [.GetTenant tenantName, .AddTenant draft]⟩
          | (.ok tenant, nbi1) =>
            ⟨tenant, none, nbi1, [.GetTenant tenantName, .AddTenant draft]⟩
      else ⟨none, none, nbi, []⟩

/-- `MatchVMToRole` (common/utils.go, lines 259-278). -/
def MatchVMToRole {σ : Type} (env : MatchEnv σ) (nbi : σ) (vmName : String)
    (vmRoleRelations : Relations) : MatchResult σ DeviceRole :=
  match vmRoleRelations with
  | none => ⟨none, none, nbi, []⟩
  | some relations =>
    match MatchStringToValue env.MatchString vmName relations with
    | .error err => ⟨none, some ("matching vm to role: " ++ err), nbi, []⟩
    | .ok roleName =>
      if roleName ≠ "" then
        let draft : DeviceRole := { Name := roleName, Slug := env.Slugify roleName }
        match env.AddDeviceRole nbi draft with
        | (.error err, nbi1) =>
          ⟨none, some ("add new vm role: " ++ err), nbi1, [.AddDeviceRole draft]⟩
        | (.ok role, nbi1) => ⟨role, none, nbi1, [.AddDeviceRole draft]⟩
      else ⟨none, none, nbi, []⟩

/-! ## From the configuration to the relation tables -/

/-- Splits a relation at its first `=`. -/
def splitRelation : List Char → List Char × List Char
  | [] => ([], [])
  | c :: cs =>
    if c = '=' then ([], cs)
    else
      let r := splitRelation cs
      (c :: r.1, r.2)

/-- `strings.TrimSpace` on a list of characters. -/
def trimSpace (l : List Char) : List Char :=
  ((l.dropWhile Char.isWhitespace).reverse.dropWhile Char.isWhitespace).reverse

/-- The assignment `m[k] = v` on a map given by the list of its entries. -/
def mapInsert (k v : String) : List (String × String) → List (String × String)
  | [] => [(k, v)]
  | (k1, v1) :: rest => if k1 = k then (k, v) :: rest else (k1, v1) :: mapInsert k v rest

/-- Modelled from the spec: `utils.ConvertStringsToRegexPairs`, which is not
part of the sources at hand.  It turns the relations of the configuration,
each of the form `regex = value`, into the `map[string]string` that
`VmwareSource.Init` stores; the map is given by the list of its entries.  A
Go map has no order of its own: every permutation of the list returned is an
order in which a `range` loop may visit the map. -/
def ConvertStringsToRegexPairs (input : List String) : List (String × String) :=
  input.foldl
    (fun m s =>
      let r := splitRelation s.toList
      mapInsert (String.mk (trimSpace r.1)) (String.mk (trimSpace r.2)) m)
    []

/-- The relation matcher as the specification words it: the value of the
first pattern, in the order in which the configuration declares the
relations, that matches the input. -/
def firstMatchInDeclarationOrder (MatchString : String → String → Except String Bool)
    (input : String) (declared : List String) : Except String String :=
  MatchStringToValue MatchString input
    (declared.map fun s =>
      let r := splitRelation s.toList
      (String.mk (trimSpace r.1), String.mk (trimSpace r.2)))

/-! ## A regular-expression engine for the documented patterns

`regexp.MatchString` belongs to the Go standard library.  The general
statements below take it as a parameter; the engine defined here covers the
patterns of the documented relations (literal characters, `.`, and `*` after
either) and serves to evaluate the helpers on concrete relations. -/

/-- One character of the input: a literal or `.`. -/
inductive ReAtom where
  | lit (c : Char)
  | any
  deriving DecidableEq, Repr

/-- An atom, possibly followed by `*`. -/
structure ReItem where
  atom : ReAtom
  star : Bool
  deriving DecidableEq, Repr

/-- The characters with a meaning of their own in a pattern, apart from `.`
and `*`. -/
def reMeta (c : Char) : Bool :=
  [Char.ofNat 92, '+', '?', '(', ')', '[', ']', Char.ofNat 123, Char.ofNat 125, '|', '^', '$'].contains c

/-- Reads a pattern of the fragment, `pending` being the atom read last, which
a following `*` would apply to; `none` outside the fragment. -/
def parseReFrom : Option ReAtom → List Char → Option (List ReItem)
  | pending, [] => some (pending.toList.map fun a => ⟨a, false⟩)
  | pending, c :: cs =>
    if c = '*' then
      match pending with
      | none => none
      | some a => (parseReFrom none cs).map fun items => ⟨a, true⟩ :: items
    else if reMeta c then none
    else
      let atom := if c = '.' then ReAtom.any else ReAtom.lit c
      (parseReFrom (some atom) cs).map fun items => pending.toList.map (fun a => ⟨a, false⟩) ++ items

/-- Reads a pattern of the fragment; `none` outside the fragment. -/
def parseRe (pattern : List Char) : Option (List ReItem) :=
  parseReFrom none pattern

/-- Whether an atom accepts a character; `.` accepts all but the newline. -/
def atomOk : ReAtom → Char → Bool
  | .any, c => c != Char.ofNat 10
  | .lit a, c => a == c

/-- Matches `a*` followed by what `k` matches. -/
def starLoop (k : List Char → Bool) (a : ReAtom) : List Char → Bool
  | [] => k []
  | c :: cs => k (c :: cs) || (atomOk a c && starLoop k a cs)

/-- Whether the items match a prefix of the input. -/
def matchHere : List ReItem → List Char → Bool
  | [], _ => true
  | ⟨a, true⟩ :: rest, s => starLoop (matchHere rest) a s
  | ⟨a, false⟩ :: rest, s =>
    match s with
    | [] => false
    | c :: cs => atomOk a c && matchHere rest cs

/-- Whether the items match somewhere in the input. -/
def matchAnywhere (items : List ReItem) : List Char → Bool
  | [] => matchHere items []
  | c :: cs => matchHere items (c :: cs) || matchAnywhere items cs

/-- `regexp.MatchString` on the fragment: an error outside it. -/
def regexpMatchString (pattern input : String) : Except String Bool :=
  match parseRe pattern.toList with
  | none => .error ("error parsing regexp: " ++ pattern)
  | some items => .ok (matchAnywhere items input.toList)

/-! ## Sample collaborators for evaluating the functions on concrete inputs -/

/-- A Remote on which every call succeeds. -/
def okRemote : Remote :=
  { DeleteObject := fun _ _ _ => none, Patch := fun _ _ _ _ => none }

/-- A Remote on which every call fails. -/
def failingRemote : Remote :=
  { DeleteObject := fun _ _ _ => some "503", Patch := fun _ _ _ _ => some "503" }

/-- The tag that marks orphans in the samples. -/
def sampleOrphanTag : Tag :=
  { ID := 9, Name := "Orphan", Slug := "orphan", Color := "ff0000", Description := "" }

/-- The SSoT tag in the samples. -/
def sampleSsotTag : Tag :=
  { ID := 1, Name := "netbox-ssot", Slug := "netbox-ssot", Color := "00add8", Description := "" }

/-- An orphan set with a device, a tenant, a contact group and a contact
role, none of which carries the orphan tag yet. -/
def sampleUntagged : OrphanInventory :=
  { NetboxConfig := { RemoveOrphans := false, RemoveOrphansAfterDays := 5 },
    OrphanManager :=
      { OrphanObjectPriority :=
          ["/api/dcim/devices/", "/api/tenancy/tenants/", "/api/tenancy/contact-groups/",
           "/api/tenancy/contact-roles/"],
        Items := fun path =>
          if path = "/api/dcim/devices/" then
            [(7, ⟨.Device, { ID := 7, Tags := [sampleSsotTag], Description := "", CustomFields := [] }⟩),
             (8, ⟨.Device, { ID := 8, Tags := [sampleSsotTag], Description := "", CustomFields := [] }⟩)]
          else if path = "/api/tenancy/tenants/" then
            [(3, ⟨.Tenant, { ID := 3, Tags := [sampleSsotTag], Description := "", CustomFields := [] }⟩)]
          else if path = "/api/tenancy/contact-groups/" then
            [(4, ⟨.ContactGroup, { ID := 4, Tags := [sampleSsotTag], Description := "", CustomFields := [] }⟩)]
          else if path = "/api/tenancy/contact-roles/" then
            [(5, ⟨.ContactRole, { ID := 5, Tags := [sampleSsotTag], Description := "", CustomFields := [] }⟩)]
          else [],
        Tag := sampleOrphanTag } }

/-- An orphan set with one device that carries the orphan tag already and
was last seen long ago, under a configuration with
`removeOrphansAfterDays = 5`. -/
def sampleTagged : OrphanInventory :=
  { NetboxConfig := { RemoveOrphans := false, RemoveOrphansAfterDays := 5 },
    OrphanManager :=
      { OrphanObjectPriority := ["/api/dcim/devices/"],
        Items := fun path =>
          if path = "/api/dcim/devices/" then
            [(7, ⟨.Device, { ID := 7, Tags := [sampleSsotTag, sampleOrphanTag], Description := "",
                             CustomFields := [("last_seen", "2001-01-01")] }⟩)]
          else [],
        Tag := sampleOrphanTag } }

/-- An orphan set with two devices, of which the first carries the orphan tag
already and the second does not. -/
def sampleMixed : OrphanInventory :=
  { NetboxConfig := { RemoveOrphans := false, RemoveOrphansAfterDays := 5 },
    OrphanManager :=
      { OrphanObjectPriority := ["/api/dcim/devices/"],
        Items := fun path =>
          if path = "/api/dcim/devices/" then
            [(7, ⟨.Device, { ID := 7, Tags := [sampleSsotTag, sampleOrphanTag], Description := "",
                             CustomFields := [("last_seen", "2001-01-01")] }⟩),
             (8, ⟨.Device, { ID := 8, Tags := [sampleSsotTag], Description := "",
                             CustomFields := [] }⟩)]
          else [],
        Tag := sampleOrphanTag } }

/-- A small inventory for the samples: the entities indexed by name and the id
the Remote assigns next. -/
structure SampleInventory where
  tenants : List Tenant
  sites : List Site
  deviceRoles : List DeviceRole
  vlanGroups : List VlanGroup
  nextID : Int
  deriving DecidableEq, Repr

/-- A stand-in for `utils.Slugify` in the samples: lower case, with hyphens
for spaces. -/
def sampleSlugify (name : String) : String :=
  String.mk (name.toList.map fun c => if c = ' ' then '-' else c.toLower)

/-- The operations of the sample inventory: a `Get*` looks the name up in the
index; an `Add*` returns the indexed entity of that name or else stores the
draft under a fresh id.  Patterns are matched by `regexpMatchString`. -/
def sampleEnv : MatchEnv SampleInventory :=
  { GetTenant := fun inv name =>
      match inv.tenants.find? fun t => t.Name = name with
      | some t => (some t, true)
      | none => (none, false),
    AddTenant := fun inv draft =>
      match inv.tenants.find? fun t => t.Name = draft.Name with
      | some t => (.ok (some t), inv)
      | none =>
        let t := { draft with NetboxObject := { draft.NetboxObject with ID := inv.nextID } }
        (.ok (some t), { inv with tenants := inv.tenants ++ [t], nextID := inv.nextID + 1 }),
    GetSite := fun inv name =>
      match inv.sites.find? fun t => t.Name = name with
      | some t => (some t, true)
      | none => (none, false),
    AddSite := fun inv draft =>
      match inv.sites.find? fun t => t.Name = draft.Name with
      | some t => (.ok (some t), inv)
      | none =>
        let t := { draft with NetboxObject := { draft.NetboxObject with ID := inv.nextID } }
        (.ok (some t), { inv with sites := inv.sites ++ [t], nextID := inv.nextID + 1 }),
    AddDeviceRole := fun inv draft =>
      match inv.deviceRoles.find? fun t => t.Name = draft.Name with
      | some t => (.ok (some t), inv)
      | none =>
        let t := { draft with NetboxObject := { draft.NetboxObject with ID := inv.nextID } }
        (.ok (some t), { inv with deviceRoles := inv.deviceRoles ++ [t], nextID := inv.nextID + 1 }),
    GetVlanGroup := fun inv name =>
      match inv.vlanGroups.find? fun t => t.Name = name with
      | some t => (some t, true)
      | none => (none, false),
    AddVlanGroup := fun inv draft =>
      match inv.vlanGroups.find? fun t => t.Name = draft.Name with
      | some t => (.ok (some t), inv)
      | none =>
        let t := { draft with NetboxObject := { draft.NetboxObject with ID := inv.nextID } }
        (.ok (some t), { inv with vlanGroups := inv.vlanGroups ++ [t], nextID := inv.nextID + 1 }),
    MatchString := regexpMatchString,
    Slugify := sampleSlugify,
    DefaultSite := "DefaultSite",
    DefaultVlanGroupName := "DefaultVlanGroup",
    DefaultVID := 1,
    MaxVID := 4094,
    ContentTypeDcimSite := "dcim.site" }

/-- The sample inventory on a Remote that rejects every creation: `AddTenant`
fails. -/
def sampleEnvRejecting : MatchEnv SampleInventory :=
  { sampleEnv with AddTenant := fun inv _ => (.error "400 Bad Request", inv) }

/-- An inventory after hydration: the default site, the default VLAN group
and one tenant. -/
def sampleInventory : SampleInventory :=
  { tenants := [{ NetboxObject := { NetboxObject.zero with ID := 1 }, Name := "Default", Slug := "default" }],
    sites := [{ NetboxObject := { NetboxObject.zero with ID := 2 }, Name := "DefaultSite", Slug := "defaultsite" }],
    deviceRoles := [],
    vlanGroups := [{ NetboxObject := { NetboxObject.zero with ID := 3 }, Name := "DefaultVlanGroup",
                     Slug := "defaultvlangroup", MinVid := 1, MaxVid := 4094 }],
    nextID := 4 }

/-! ## Vocabulary for the properties of `DeleteOrphans` -/

/-- The Remote calls expected of `softDelete` for an item: none when the item
carries the tag or its type has no `case`, else one `Patch` whose body is the
tag list of the item followed by the tag. -/
def softDeleteCalls (tag : Tag) (item : OrphanItem) : List RemoteCall :=
  if item.obj.HasTag tag then []
  else if patchCase item.kind then [RemoteCall.Patch item.kind item.obj.ID (item.obj.Tags ++ [tag])]
  else []

/-- The Remote calls expected for one entry of `Items[path]`. -/
def itemCalls (hard : Bool) (tag : Tag) (path : String) (e : Int × OrphanItem) : List RemoteCall :=
  if hard then [RemoteCall.Delete path e.1] else softDeleteCalls tag e.2

/-- The entry after it has been handled: in soft mode the object carries the
tag. -/
def itemAfter (hard : Bool) (tag : Tag) (e : Int × OrphanItem) : Int × OrphanItem :=
  if hard then e else (e.1, { e.2 with obj := e.2.obj.AddTag tag })

/-- The Remote calls expected for the paths still to handle. -/
def pathsCalls (hard : Bool) (tag : Tag) :
    (String → List (Int × OrphanItem)) → List String → List RemoteCall
  | _, [] => []
  | items, path :: rest =>
    (items path).flatMap (itemCalls hard tag path) ++
      pathsCalls hard tag (Function.update items path ((items path).map (itemAfter hard tag))) rest

/-- The bodies of the `Patch` calls for the object of the given type and id,
in the order of the calls. -/
def patchBodies (kind : OrphanKind) (id : Int) (calls : List RemoteCall) : List (List Tag) :=
  calls.filterMap fun c =>
    match c with
    | .Patch k i tags => if k = kind ∧ i = id then some tags else none
    | .Delete _ _ => none

/-- The orphan items stored under the paths of `OrphanObjectPriority`. -/
def listedItems (om : OrphanManager) : List OrphanItem :=
  om.OrphanObjectPriority.flatMap fun path => (om.Items path).map Prod.snd

/-! ## `NewNetboxInventory`: the source-priority table -/

/-- The assignment `m[k] = v` on a `map[string]int` given by the list of its
entries. -/
def priorityInsert (k : String) (v : Int) : List (String × Int) → List (String × Int)
  | [] => [(k, v)]
  | (k1, v1) :: rest => if k1 = k then (k, v) :: rest else (k1, v1) :: priorityInsert k v rest

/-- The lookup `v, ok := m[k]` on a `map[string]int` given by the list of its
entries: `none` when `k` is no key. -/
def priorityGet (k : String) : List (String × Int) → Option Int
  | [] => none
  | (k1, v1) :: rest => if k1 = k then some v1 else priorityGet k rest

/-- The loop `for i, sourceName := range nbConfig.SourcePriority` of
`NewNetboxInventory`, from index `i` on. -/
def sourcePriorityLoop : List (String × Int) → Nat → List String → List (String × Int)
  | sourcePriority, _, [] => sourcePriority
  | sourcePriority, i, sourceName :: rest =>
    sourcePriorityLoop (priorityInsert sourceName (i : Int) sourcePriority) (i + 1) rest

/-- The part of a `NetboxInventory` that `NewNetboxInventory` computes: the
table `SourcePriority`.  (The other fields are the arguments as passed and the
orphan manager of `NewOrphanManager`.) -/
structure PriorityInventory where
  SourcePriority : List (String × Int)
  deriving DecidableEq, Repr

/-- `NewNetboxInventory` (inventory.go, lines 179-188), applied to the list
`nbConfig.SourcePriority`. -/
def NewNetboxInventory (nbConfigSourcePriority : List String) : PriorityInventory :=
  { SourcePriority := sourcePriorityLoop [] 0 nbConfigSourcePriority }

/-! ## Strings of the Go standard library -/

/-- `strings.Split(s, sep)` for a separator of one character. -/
def stringsSplit (sep : Char) : List Char → List (List Char)
  | [] => [[]]
  | c :: cs =>
    if c = sep then [] :: stringsSplit sep cs
    else
      match stringsSplit sep cs with
      | [] => [[c]]
      | x :: xs => (c :: x) :: xs

/-- The value of a decimal digit. -/
def digitValue (c : Char) : Option Nat :=
  if 48 ≤ c.toNat ∧ c.toNat ≤ 57 then some (c.toNat - 48) else none

/-- The number denoted by a string of decimal digits read after the digits
that gave `acc`; `none` when a character is no digit. -/
def parseDigits : Nat → List Char → Option Nat
  | acc, [] => some acc
  | acc, c :: cs =>
    match digitValue c with
    | none => none
    | some d => parseDigits (acc * 10 + d) cs

/-- `strconv.Atoi` for a 64-bit `int`: an optional sign and at least one
decimal digit, with a value that fits the type. -/
def Atoi (s : String) : Except String Int :=
  let signed : Bool × List Char :=
    match s.toList with
    | c :: rest => if c = '-' then (true, rest) else if c = '+' then (false, rest) else (false, c :: rest)
    | [] => (false, [])
  match signed.2 with
  | [] => .error "invalid syntax"
  | digits =>
    match parseDigits 0 digits with
    | none => .error "invalid syntax"
    | some n =>
      let v : Int := if signed.1 then -(n : Int) else (n : Int)
      if v < -9223372036854775808 ∨ 9223372036854775807 < v then .error "value out of range"
      else .ok v

/-! ## `checkVersion` -/

/-- `NetboxInventory.checkVersion` (inventory.go, lines 251-266); `GetVersion`
is the outcome of `service.GetVersion`. -/
def checkVersion (GetVersion : Except String String) : Option String :=
  match GetVersion with
  | .error err => some ("get version: " ++ err)
  | .ok version =>
    let supportedVersion : Int := 4
    let versionComponents := stringsSplit '.' version.toList
    match Atoi (String.mk (versionComponents.headD [])) with
    | .error err => some ("parse major version: " ++ err)
    | .ok majorVersion =>
      if majorVersion < supportedVersion then
        some ("this version of netbox-ssot works only with netbox version > 4.x.x, but received version: "
          ++ version)
      else none

/-! ## Package `net` of the Go standard library

An `IP` and an `IPMask` are lists of bytes; the `nil` slice is `none`.  The
text form of IPv4 addresses is parsed as the library does; the parser of the
text form of IPv6 addresses is a parameter `parseIPv6`, which yields the 16
bytes of the address. -/

/-- One field of a dotted-decimal address: decimal digits without a leading
zero, with a value of at most 255. -/
def parseIPv4Field (field : List Char) : Option Nat :=
  match field with
  | [] => none
  | c :: rest =>
    if c = '0' ∧ rest ≠ [] then none
    else
      match parseDigits 0 (c :: rest) with
      | none => none
      | some v => if v ≤ 255 then some v else none

/-- The four bytes of a dotted-decimal IPv4 address. -/
def parseIPv4 (s : List Char) : Option (List Nat) :=
  match stringsSplit '.' s with
  | [f0, f1, f2, f3] =>
    match parseIPv4Field f0, parseIPv4Field f1, parseIPv4Field f2, parseIPv4Field f3 with
    | some b0, some b1, some b2, some b3 => some [b0, b1, b2, b3]
    | _, _, _, _ => none
  | _ => none

/-- The first of the characters `.`, `:` and `%` in a string, which decides
how an address is parsed. -/
def firstAddrMark : List Char → Option Char
  | [] => none
  | c :: cs => if c = '.' ∨ c = ':' ∨ c = '%' then some c else firstAddrMark cs

/-- The prefix of an IPv4 address in its 16-byte form. -/
def v4InV6Prefix : List Nat := [0, 0, 0, 0, 0, 0, 0, 0, 0, 0, 255, 255]

/-- The address of a text without zone, in 16 bytes, together with its length
in bits (32 or 128), as `netip.ParseAddr` followed by `As16` yields them. -/
def parseAddr16 (parseIPv6 : String → Option (List Nat)) (s : String) : Option (List Nat × Nat) :=
  match firstAddrMark s.toList with
  | some '.' => (parseIPv4 s.toList).map fun b => (v4InV6Prefix ++ b, 32)
  | some ':' => (parseIPv6 s).map fun b => (b, 128)
  | _ => none

/-- `net.ParseIP`. -/
def ParseIP (parseIPv6 : String → Option (List Nat)) (s : String) : Option (List Nat) :=
  (parseAddr16 parseIPv6 s).map Prod.fst

/-- `IP.To4`. -/
def To4 (ip : Option (List Nat)) : Option (List Nat) :=
  match ip with
  | none => none
  | some b =>
    if b.length = 4 then some b
    else if b.length = 16 ∧ b.take 12 = v4InV6Prefix then some (b.drop 12)
    else none

/-- The loop `for v&0x80 != 0 { n++; v <<= 1 }` on a byte, at most `fuel`
rounds: the rounds made and the byte left. -/
def countLeadingOnes : Nat → Nat → Nat × Nat
  | 0, v => (0, v)
  | fuel + 1, v =>
    if v / 128 % 2 = 1 then
      let r := countLeadingOnes fuel (v * 2 % 256)
      (r.1 + 1, r.2)
    else (0, v)

/-- `net.simpleMaskLength`; `none` is the result `-1`. -/
def simpleMaskLength : List Nat → Option Nat
  | [] => some 0
  | v :: rest =>
    if v = 255 then (simpleMaskLength rest).map fun n => n + 8
    else
      let r := countLeadingOnes 8 v
      if r.2 ≠ 0 then none
      else if rest.all fun b => b = 0 then some r.1
      else none

/-- `IPMask.Size`: the pair `ones, bits`. -/
def IPMaskSize (m : List Nat) : Nat × Nat :=
  match simpleMaskLength m with
  | none => (0, 0)
  | some ones => (ones, m.length * 8)

/-- `net.CIDRMask(ones, 8 * len)`. -/
def CIDRMask : Nat → Nat → List Nat
  | _, 0 => []
  | n, len + 1 =>
    if 8 ≤ n then 255 :: CIDRMask (n - 8) len
    else (255 - 255 / 2 ^ n) :: CIDRMask 0 len

/-- `IP.Mask`. -/
def IPMask (ip mask : List Nat) : Option (List Nat) :=
  let mask := if mask.length = 16 ∧ ip.length = 4 ∧ mask.take 12 = List.replicate 12 255
    then mask.drop 12 else mask
  let ip := if mask.length = 4 ∧ ip.length = 16 ∧ ip.take 12 = v4InV6Prefix then ip.drop 12 else ip
  if ip.length ≠ mask.length then none
  else some (List.zipWith (fun a b => Nat.land a b) ip mask)

/-- A `net.IPNet`. -/
structure IPNet where
  IP : Option (List Nat)
  Mask : List Nat
  deriving DecidableEq, Repr

/-- `strings.Cut(s, sep)` for a separator of one character: the text before
the first separator and the text after it, or `none` when there is none. -/
def stringsCut (sep : Char) : List Char → Option (List Char × List Char)
  | [] => none
  | c :: cs =>
    if c = sep then some ([], cs)
    else (stringsCut sep cs).map fun r => (c :: r.1, r.2)

/-- `net.ParseCIDR`, its second result: `none` when it returns an error.  The
text after `/` must be decimal digits with a value of at most the length of
the address in bits. -/
def ParseCIDR (parseIPv6 : String → Option (List Nat)) (s : String) : Option IPNet :=
  match stringsCut '/' s.toList with
  | none => none
  | some (addr, mask) =>
    match parseAddr16 parseIPv6 (String.mk addr) with
    | none => none
    | some (addr16, bitLen) =>
      match mask, parseDigits 0 mask with
      | [], _ => none
      | _, none => none
      | _, some n =>
        if bitLen < n then none
        else
          let m := CIDRMask n (bitLen / 8)
          some { IP := IPMask addr16 m, Mask := m }

/-- `net.networkNumberAndMask`. -/
def networkNumberAndMask (n : IPNet) : Option (List Nat × List Nat) :=
  let ip4 := To4 n.IP
  let ip : Option (List Nat) :=
    match ip4 with
    | some b => some b
    | none =>
      match n.IP with
      | some b => if b.length ≠ 16 then none else some b
      | none => none
  match ip with
  | none => none
  | some ip =>
    if n.Mask.length = 4 then
      if ip.length ≠ 4 then none else some (ip, n.Mask)
    else if n.Mask.length = 16 then
      if ip.length = 4 then some (ip, n.Mask.drop 12) else some (ip, n.Mask)
    else none

/-- `IPNet.Contains`. -/
def IPNet.Contains (n : IPNet) (ip : Option (List Nat)) : Bool :=
  match networkNumberAndMask n with
  | none =>
    -- the network number is `nil`, of length 0
    (match To4 ip with
      | some x => x.length
      | none => (ip.getD []).length) = 0
  | some (nn, m) =>
    let ip : List Nat :=
      match To4 ip with
      | some x => x
      | none => ip.getD []
    if ip.length ≠ nn.length then false
    else (List.zipWith (fun a b => Nat.land a b) nn m) == (List.zipWith (fun a b => Nat.land a b) ip m)

/-! ## `internal/utils/networking.go` -/

/-- `MaskToBits` (networking.go, lines 46-53). -/
def MaskToBits (parseIPv6 : String → Option (List Nat)) (mask : String) : Except String Int :=
  match To4 (ParseIP parseIPv6 mask) with
  | none => .error ("invalid mask: " ++ mask)
  | some ipMask => .ok ((IPMaskSize ipMask).1 : Int)

/-- `RemoveZoneIndexFromIPAddress` (networking.go, lines 71-82). -/
def RemoveZoneIndexFromIPAddress (ipAddress : String) : String :=
  if ipAddress.toList.contains '%' then
    let base := (stringsSplit '%' ipAddress.toList).headD []
    let maskArr := stringsSplit '/' ipAddress.toList
    let mask := if maskArr.length > 1 then '/' :: maskArr.getD 1 [] else []
    String.mk (base ++ mask)
  else ipAddress

/-- `SubnetContainsIPAddress` (networking.go, lines 87-99). -/
def SubnetContainsIPAddress (parseIPv6 : String → Option (List Nat)) (ipAddress : String)
    (subnet : String) : Bool :=
  let ipAddress := RemoveZoneIndexFromIPAddress ipAddress
  let address := (stringsSplit '/' ipAddress.toList).headD []
  match ParseIP parseIPv6 (String.mk address) with
  | none => false
  | some ip =>
    match ParseCIDR parseIPv6 subnet with
    | none => false
    | some ipnet => ipnet.Contains (some ip)

/-- A parser of the text form of IPv6 addresses that accepts nothing, for
evaluating the functions on IPv4 text. -/
def noIPv6 : String → Option (List Nat) := fun _ => none

/-- The decimal form of a byte. -/
def byteDecimal (b : Nat) : List Char :=
  if b < 10 then [Char.ofNat (48 + b)]
  else if b < 100 then [Char.ofNat (48 + b / 10), Char.ofNat (48 + b % 10)]
  else [Char.ofNat (48 + b / 100), Char.ofNat (48 + b / 10 % 10), Char.ofNat (48 + b % 10)]

/-- The dotted-decimal form of the IPv4 netmask with `n` leading one-bits. -/
def dottedMask (n : Nat) : String :=
  let v := 2 ^ 32 - 2 ^ (32 - n)
  String.mk (byteDecimal (v / 2 ^ 24 % 256) ++ '.' :: byteDecimal (v / 2 ^ 16 % 256) ++
    '.' :: byteDecimal (v / 2 ^ 8 % 256) ++ '.' :: byteDecimal (v % 256))

/-! ## Interface types (`objects/dcim.go`) and `getInterfaceType` -/

/-- `objects.InterfaceType` (dcim.go). -/
structure InterfaceType where
  Choice : Choice
  deriving DecidableEq, Repr

/-- `objects.VirtualInterfaceType`. -/
def VirtualInterfaceType : InterfaceType := ⟨{ Value := "virtual", Label := "Virtual" }⟩

/-- `objects.BASETXInterfaceType`. -/
def BASETXInterfaceType : InterfaceType := ⟨{ Value := "100base-tx", Label := "100BASE-TX (10/100ME)" }⟩

/-- `objects.GE1FixedInterfaceType`. -/
def GE1FixedInterfaceType : InterfaceType := ⟨{ Value := "1000base-t", Label := "1000BASE-T (1GE)" }⟩

/-- `objects.GE2FixedInterfaceType`. -/
def GE2FixedInterfaceType : InterfaceType := ⟨{ Value := "2.5gbase-t", Label := "2.5GBASE-T (2.5GE)" }⟩

/-- `objects.GE5FixedInterfaceType`. -/
def GE5FixedInterfaceType : InterfaceType := ⟨{ Value := "5gbase-t", Label := "5GBASE-T (5GE)" }⟩

/-- `objects.GE10SFPPInterfaceType`. -/
def GE10SFPPInterfaceType : InterfaceType := ⟨{ Value := "10gbase-x-sfpp", Label := "SFP+ (10GE)" }⟩

/-- `objects.GE25SFP28InterfaceType`. -/
def GE25SFP28InterfaceType : InterfaceType := ⟨{ Value := "25gbase-x-sfp28", Label := "SFP28 (25GE)" }⟩

/-- `objects.GE40QSFPPlusInterfaceType`. -/
def GE40QSFPPlusInterfaceType : InterfaceType := ⟨{ Value := "40gbase-x-qsfpp", Label := "QSFP+ (40GE)" }⟩

/-- `objects.GE50QSFP28InterfaceType`. -/
def GE50QSFP28InterfaceType : InterfaceType := ⟨{ Value := "50gbase-x-sfp28", Label := "QSFP28 (50GE)" }⟩

/-- `objects.GE100QSFP28InterfaceType`. -/
def GE100QSFP28InterfaceType : InterfaceType := ⟨{ Value := "100gbase-x-qsfp28", Label := "QSFP28 (100GE)" }⟩

/-- `objects.GE200QSFP56InterfaceType`. -/
def GE200QSFP56InterfaceType : InterfaceType := ⟨{ Value := "200gbase-x-qsfp56", Label := "QSFP56 (200GE)" }⟩

/-- `objects.GE400QSFPDDInterfaceType`. -/
def GE400QSFPDDInterfaceType : InterfaceType := ⟨{ Value := "400gbase-x-qsfpdd", Label := "QSFP-DD (400GE)" }⟩

/-- `objects.GE800QSFPDDInterfaceType`. -/
def GE800QSFPDDInterfaceType : InterfaceType := ⟨{ Value := "800gbase-x-qsfpdd", Label := "QSFP-DD (800GE)" }⟩

/-- `objects.GFC2SFPInterfaceType`. -/
def GFC2SFPInterfaceType : InterfaceType := ⟨{ Value := "2gfc-sfp", Label := "SFP (2GFC)" }⟩

/-- `objects.GFC4SFPInterfaceType`. -/
def GFC4SFPInterfaceType : InterfaceType := ⟨{ Value := "4gfc-sfp", Label := "SFP (4GFC)" }⟩

/-- `objects.GFC8SFPPInterfaceType`. -/
def GFC8SFPPInterfaceType : InterfaceType := ⟨{ Value := "8gfc-sfpp", Label := "SFP+ (8GFC)" }⟩

/-- `objects.GFC16SFPPInterfaceType`. -/
def GFC16SFPPInterfaceType : InterfaceType := ⟨{ Value := "16gfc-sfpp", Label := "SFP+ (16GFC)" }⟩

/-- `objects.GFC32SFP28InterfaceType`. -/
def GFC32SFP28InterfaceType : InterfaceType := ⟨{ Value := "32gfc-sfp28", Label := "SFP28 (32GFC)" }⟩

/-- `objects.GFC64QSFPPInterfaceType`. -/
def GFC64QSFPPInterfaceType : InterfaceType := ⟨{ Value := "64gfc-qsfpp", Label := "QSFP (64GFC)" }⟩

/-- `objects.GFC128QSFP28InterfaceType`. -/
def GFC128QSFP28InterfaceType : InterfaceType := ⟨{ Value := "128gfc-qsfp28", Label := "QSFP28 (128GFC)" }⟩

/-- `objects.OtherInterfaceType`. -/
def OtherInterfaceType : InterfaceType := ⟨{ Value := "other", Label := "Other" }⟩

/-- `objects.InterfaceSpeed`: a speed in Kbps. -/
abbrev InterfaceSpeed := Int

/-- `objects.MBPS10`. -/
def MBPS10 : InterfaceSpeed := 10000
/-- `objects.MBPS100`. -/
def MBPS100 : InterfaceSpeed := 100000
/-- `objects.GBPS1`. -/
def GBPS1 : InterfaceSpeed := 1000000
/-- `objects.GBPS2`. -/
def GBPS2 : InterfaceSpeed := 2000000
/-- `objects.GBPS2Point5`. -/
def GBPS2Point5 : InterfaceSpeed := 2500000
/-- `objects.GBPS4`. -/
def GBPS4 : InterfaceSpeed := 4000000
/-- `objects.GBPS5`. -/
def GBPS5 : InterfaceSpeed := 5000000
/-- `objects.GBPS8`. -/
def GBPS8 : InterfaceSpeed := 8000000
/-- `objects.GBPS10`. -/
def GBPS10 : InterfaceSpeed := 10000000
/-- `objects.GBPS16`. -/
def GBPS16 : InterfaceSpeed := 16000000
/-- `objects.GBPS25`. -/
def GBPS25 : InterfaceSpeed := 25000000
/-- `objects.GBPS32`. -/
def GBPS32 : InterfaceSpeed := 32000000
/-- `objects.GBPS40`. -/
def GBPS40 : InterfaceSpeed := 40000000
/-- `objects.GBPS50`. -/
def GBPS50 : InterfaceSpeed := 50000000
/-- `objects.GBPS64`. -/
def GBPS64 : InterfaceSpeed := 64000000
/-- `objects.GBPS100`. -/
def GBPS100 : InterfaceSpeed := 100000000
/-- `objects.GBPS128`. -/
def GBPS128 : InterfaceSpeed := 128000000
/-- `objects.GBPS200`. -/
def GBPS200 : InterfaceSpeed := 200000000
/-- `objects.GBPS400`. -/
def GBPS400 : InterfaceSpeed := 400000000
/-- `objects.GBPS800`. -/
def GBPS800 : InterfaceSpeed := 800000000

/-- `objects.IfaceSpeed2IfaceType` (dcim.go, lines 315-336): the entries of
the map literal, in source order. -/
def IfaceSpeed2IfaceType : List (InterfaceSpeed × InterfaceType) :=
  [ (MBPS10, BASETXInterfaceType),
    (MBPS100, BASETXInterfaceType),
    (GBPS1, GE1FixedInterfaceType),
    (GBPS2, GFC2SFPInterfaceType),
    (GBPS2Point5, GE2FixedInterfaceType),
    (GBPS4, GFC4SFPInterfaceType),
    (GBPS5, GE5FixedInterfaceType),
    (GBPS8, GFC8SFPPInterfaceType),
    (GBPS10, GE10SFPPInterfaceType),
    (GBPS16, GFC16SFPPInterfaceType),
    (GBPS25, GE25SFP28InterfaceType),
    (GBPS32, GFC32SFP28InterfaceType),
    (GBPS40, GE40QSFPPlusInterfaceType),
    (GBPS50, GE50QSFP28InterfaceType),
    (GBPS64, GFC64QSFPPInterfaceType),
    (GBPS100, GE100QSFP28InterfaceType),
    (GBPS128, GFC128QSFP28InterfaceType),
    (GBPS200, GE200QSFP56InterfaceType),
    (GBPS400, GE400QSFPDDInterfaceType),
    (GBPS800, GE800QSFPDDInterfaceType) ]

/-- The index expression `m[k]` on a map to pointers given by the list of its
entries: `none`, the `nil` pointer, when `k` is no key. -/
def ifaceTypeGet (k : InterfaceSpeed) : List (InterfaceSpeed × InterfaceType) → Option InterfaceType
  | [] => none
  | (k1, v1) :: rest => if k1 = k then some v1 else ifaceTypeGet k rest

/-- `DnacSource.getInterfaceType` (dnac_sync.go, lines 468-484): the pointer
returned (`none` is `nil`) or the error. -/
def getInterfaceType (interfaceType : String) (speed : Int) : Except String (Option InterfaceType) :=
  if interfaceType = "Physical" then
    let ifaceType := ifaceTypeGet speed IfaceSpeed2IfaceType
    if ifaceType = none then .ok (some OtherInterfaceType)
    else .ok ifaceType
  else if interfaceType = "Virtual" then .ok (some VirtualInterfaceType)
  else .error ("unknown interface type: " ++ interfaceType)

/-! ## Entities and source data of the DNAC adapter -/

/-- `objects.Manufacturer` (dcim.go). -/
structure Manufacturer where
  NetboxObject : NetboxObject := NetboxObject.zero
  Name : String := ""
  Slug : String := ""
  deriving DecidableEq, Repr

/-- `objects.Platform` (dcim.go). -/
structure Platform where
  NetboxObject : NetboxObject := NetboxObject.zero
  Name : String := ""
  Slug : String := ""
  Manufacturer : Option Manufacturer := none
  deriving DecidableEq, Repr

/-- `objects.DeviceType` (dcim.go). -/
structure DeviceType where
  NetboxObject : NetboxObject := NetboxObject.zero
  Manufacturer : Option Manufacturer := none
  Model : String := ""
  Slug : String := ""
  deriving DecidableEq, Repr

/-- `objects.Location` (dcim.go). -/
structure Location where
  NetboxObject : NetboxObject := NetboxObject.zero
  Site : Option Site := none
  Name : String := ""
  Slug : String := ""
  Status : Option Choice := none
  deriving DecidableEq, Repr

/-- `objects.IPAddress` (ipam.go). -/
structure IPAddress where
  NetboxObject : NetboxObject := NetboxObject.zero
  Address : String := ""
  Status : Option Choice := none
  Role : Option Choice := none
  DNSName : String := ""
  Tenant : Option Tenant := none
  AssignedObjectType : String := ""
  AssignedObjectID : Int := 0
  deriving DecidableEq, Repr

/-- Modelled from the spec: `objects.Cluster`, whose declaration is not part
of the sources at hand, reduced to its envelope and its natural key. -/
structure Cluster where
  NetboxObject : NetboxObject := NetboxObject.zero
  Name : String := ""
  deriving DecidableEq, Repr

/-- `objects.DeviceStatusOffline`. -/
def DeviceStatusOffline : Choice := { Value := "offline", Label := "Offline" }

/-- `objects.DeviceStatusActive`. -/
def DeviceStatusActive : Choice := { Value := "active", Label := "Active" }

/-- `objects.Device` (dcim.go, lines 163-216). -/
structure Device where
  NetboxObject : NetboxObject := NetboxObject.zero
  Name : String := ""
  DeviceRole : Option DeviceRole := none
  DeviceType : Option DeviceType := none
  Airflow : Option Choice := none
  SerialNumber : String := ""
  AssetTag : String := ""
  Site : Option Site := none
  Location : Option Location := none
  Status : Option Choice := none
  Platform : Option Platform := none
  PrimaryIPv4 : Option IPAddress := none
  PrimaryIPv6 : Option IPAddress := none
  Cluster : Option Cluster := none
  Tenant : Option Tenant := none
  Comments : String := ""
  deriving DecidableEq, Repr

/-- `objects.Vlan` (ipam.go, lines 126-141). -/
structure Vlan where
  NetboxObject : NetboxObject := NetboxObject.zero
  Name : String := ""
  Vid : Int := 0
  Group : Option VlanGroup := none
  Status : Option Choice := none
  Tenant : Option Tenant := none
  Site : Option Site := none
  Comments : String := ""
  deriving DecidableEq, Repr

/-- `objects.Prefix` (ipam.go, lines 180-198). -/
structure Prefix where
  NetboxObject : NetboxObject := NetboxObject.zero
  Prefix : String := ""
  Status : Option Choice := none
  ScopeID : Int := 0
  ScopeType : String := ""
  Vlan : Option Vlan := none
  Tenant : Option Tenant := none
  Comments : String := ""
  deriving DecidableEq, Repr

/-- `objects.InterfaceMode` (dcim.go). -/
structure InterfaceMode where
  Choice : Choice
  deriving DecidableEq, Repr

/-- `objects.InterfaceModeAccess`. -/
def InterfaceModeAccess : InterfaceMode := ⟨{ Value := "access", Label := "Access" }⟩

/-- `objects.InterfaceModeTagged`. -/
def InterfaceModeTagged : InterfaceMode := ⟨{ Value := "tagged", Label := "Tagged" }⟩

/-- `objects.InterfaceModeTaggedAll`. -/
def InterfaceModeTaggedAll : InterfaceMode := ⟨{ Value := "tagged-all", Label := "Tagged (All)" }⟩

/-- `objects.InterfaceDuplex` (dcim.go). -/
structure InterfaceDuplex where
  Choice : Choice
  deriving DecidableEq, Repr

/-- `objects.DuplexHalf`. -/
def DuplexHalf : InterfaceDuplex := ⟨{ Value := "half", Label := "Half" }⟩

/-- `objects.DuplexFull`. -/
def DuplexFull : InterfaceDuplex := ⟨{ Value := "full", Label := "Full" }⟩

/-- `objects.DuplexAuto`. -/
def DuplexAuto : InterfaceDuplex := ⟨{ Value := "auto", Label := "Auto" }⟩

/-- `objects.Interface` (dcim.go, lines 386-422); `Type_` is the field `Type`,
which the declaration documents as required.  The slots `ParentInterface`,
`BridgedInterface`, `LAG` and `Vdcs`, which the DNAC adapter never sets, are
left out. -/
structure Interface where
  NetboxObject : NetboxObject := NetboxObject.zero
  Device : Option Device := none
  Name : String := ""
  Status : Bool := false
  Type_ : Option InterfaceType := none
  Speed : InterfaceSpeed := 0
  MTU : Int := 0
  MAC : String := ""
  Duplex : Option InterfaceDuplex := none
  Mode : Option InterfaceMode := none
  TaggedVlans : List Vlan := []
  UntaggedVlan : Option Vlan := none
  deriving DecidableEq, Repr

/-- Modelled from the spec: `objects.MaxDescriptionLength`, the hard limit of
200 of rule R6; its declaration is not part of the sources at hand. -/
def MaxDescriptionLength : Nat := 200

/-- The attributes of an additional-info entry of a DNAC site that
`syncSites` reads. -/
structure DnacSiteAttributes where
  Address : String := ""
  Longitude : String := ""
  Latitude : String := ""
  deriving DecidableEq, Repr

/-- An additional-info entry of a DNAC site. -/
structure DnacAdditionalInfo where
  Namespace : String := ""
  Attributes : DnacSiteAttributes := {}
  deriving DecidableEq, Repr

/-- A site as the DNAC client reports it: the fields that `syncSites` reads. -/
structure DnacSite where
  ID : String := ""
  Name : String := ""
  AdditionalInfo : List DnacAdditionalInfo := []
  deriving DecidableEq, Repr

/-- A VLAN as the DNAC client reports it: the fields that `syncVlans` reads. -/
structure DnacVlan where
  InterfaceName : String := ""
  VLANType : String := ""
  Prefix : String := ""
  NetworkAddress : String := ""
  deriving DecidableEq, Repr

/-- A device as the DNAC client reports it: the fields that `syncDevice`
and `addIPAddressToInterface` read; `Type_` is the field `Type`. -/
structure DnacDevice where
  ID : String := ""
  Description : String := ""
  Hostname : String := ""
  Family : String := ""
  SoftwareType : String := ""
  SoftwareVersion : String := ""
  PlatformID : String := ""
  Type_ : String := ""
  ReachabilityStatus : String := ""
  SerialNumber : String := ""
  InstanceUUID : String := ""
  ManagementIPAddress : String := ""
  deriving DecidableEq, Repr

/-- The fields of `parser.SourceConfig` that the functions below read. -/
structure DnacSourceConfig where
  Name : String := ""
  IgnoreSerialNumbers : Bool := false
  HostRoleRelations : Relations := none
  HostTenantRelations : Relations := none
  VlanSiteRelations : Relations := none
  VlanGroupRelations : Relations := none
  VlanGroupSiteRelations : Relations := none
  VlanTenantRelations : Relations := none
  InterfaceFilter : String := ""
  PermittedSubnets : List String := []
  IgnoredSubnets : List String := []
  deriving DecidableEq, Repr

/-- The fields of `DnacSource` that the functions below read or write.  A Go
map and a `sync.Map` are the lists of their entries; `Sites` and `Vlans` list
the entries in the order in which the `range` loop visits them.  The values
stored in `SiteID2nbSite`, `VID2nbVlan` and `DeviceID2nbDevice` are the
pointers that `syncSites`, `syncVlans` and `syncDevice` store, so the type
assertions on loading them succeed; `InterfaceID2nbInterface` holds what
`syncDeviceInterface` stores. -/
structure DnacSource where
  SourceConfig : DnacSourceConfig := {}
  SourceTags : List Tag := []
  Sites : List DnacSite := []
  Vlans : List (Int × DnacVlan) := []
  Device2Site : List (String × String) := []
  SiteID2nbSite : List (String × Option Site) := []
  VID2nbVlan : List (Int × Option Vlan) := []
  DeviceID2nbDevice : List (String × Option Device) := []
  Devices : List (String × DnacDevice) := []
  InterfaceID2nbInterface : List (String × Option Interface) := []
  deriving DecidableEq, Repr

/-- `sync.Map.Store`, and the assignment `m[k] = v`, on the list of
entries. -/
def mapStore {κ β : Type} [DecidableEq κ] (k : κ) (v : β) : List (κ × β) → List (κ × β)
  | [] => [(k, v)]
  | (k1, v1) :: rest => if k1 = k then (k, v) :: rest else (k1, v1) :: mapStore k v rest

/-- `sync.Map.Load`, and the lookup `v, ok := m[k]`, on the list of entries:
`none` when `k` is no key. -/
def mapLoad {κ β : Type} [DecidableEq κ] (k : κ) : List (κ × β) → Option β
  | [] => none
  | (k1, v1) :: rest => if k1 = k then some v1 else mapLoad k rest

/-- A call of the DNAC adapter on the inventory: an `Add*` call of a sync
function itself, or a call made inside a `Match*` helper of
`common/utils.go`. -/
inductive DnacCall where
  | AddSite (draft : Site)
  | AddVlan (draft : Vlan)
  | AddPrefix (draft : Prefix)
  | AddManufacturer (draft : Manufacturer)
  | AddDeviceRole (draft : DeviceRole)
  | AddPlatform (draft : Platform)
  | AddDeviceType (draft : DeviceType)
  | AddDevice (draft : Device)
  | viaMatcher (call : InvCall)
  deriving DecidableEq, Repr

/-- What the DNAC sync functions use from outside `dnac_sync.go` and
`common/utils.go`, none of it part of the sources at hand: further `Add*`
operations of the inventory; `common.MatchVlanToSite`; `MatchVlanToGroup` in
the form in which `syncVlans` calls it, with the site of the VLAN as an
argument; `strconv.ParseFloat`, which returns a number and an error; and
constants of package `constants`. -/
structure DnacEnv (σ : Type) extends MatchEnv σ where
  AddManufacturer : σ → Manufacturer → Except String (Option Manufacturer) × σ
  AddPlatform : σ → Platform → Except String (Option Platform) × σ
  AddDeviceType : σ → DeviceType → Except String (Option DeviceType) × σ
  AddDevice : σ → Device → Except String (Option Device) × σ
  AddVlan : σ → Vlan → Except String (Option Vlan) × σ
  AddPrefix : σ → Prefix → Except String (Option Prefix) × σ
  MatchVlanToSite : σ → String → Relations → Except String (Option Site) × σ
  MatchVlanToGroupOfSite :
    σ → String → Option Site → Relations → Relations → Except String (Option VlanGroup) × σ
  ParseFloat : String → Rat × Option String
  CustomFieldSourceName : String
  CustomFieldSourceIDName : String
  CustomFieldDeviceUUIDName : String
  ColorAqua : String

/-- What a sync function returns (`err`) and does: the inventory state and
the source it leaves, the inventory calls it made and the errors it logged,
oldest first. -/
structure SyncResult (σ : Type) where
  err : Option String
  nbi : σ
  ds : DnacSource
  calls : List DnacCall
  log : List String

/-! ## `dnac_sync.go`: `syncSites`, `syncVlans`, `syncDevice` -/

/-- The loop `for _, additionalInfo := range site.AdditionalInfo` of
`syncSites` (dnac_sync.go, lines 30-42) on the draft `dnacSite`. -/
def applyAdditionalInfo {σ : Type} (env : DnacEnv σ) : Site → List DnacAdditionalInfo → Site
  | dnacSite, [] => dnacSite
  | dnacSite, additionalInfo :: rest =>
    if additionalInfo.Namespace = "Location" then
      let dnacSite := { dnacSite with PhysicalAddress := additionalInfo.Attributes.Address }
      let longitude := env.ParseFloat additionalInfo.Attributes.Longitude
      let dnacSite :=
        if longitude.2 ≠ none then { dnacSite with Longitude := longitude.1 } else dnacSite
      let latitude := env.ParseFloat additionalInfo.Attributes.Latitude
      let dnacSite :=
        if latitude.2 ≠ none then { dnacSite with Latitude := latitude.1 } else dnacSite
      applyAdditionalInfo env dnacSite rest
    else applyAdditionalInfo env dnacSite rest

/-- The draft that `syncSites` builds for a site (dnac_sync.go, lines 20-42). -/
def siteDraft {σ : Type} (env : DnacEnv σ) (ds : DnacSource) (site : DnacSite) : Site :=
  applyAdditionalInfo env
    { NetboxObject :=
        { NetboxObject.zero with
          Tags := ds.SourceTags,
          CustomFields := [(env.CustomFieldSourceName, ds.SourceConfig.Name)] },
      Name := site.Name,
      Slug := env.Slugify site.Name }
    site.AdditionalInfo

/-- The loop `for _, site := range ds.Sites` of `syncSites`, from the state
`acc` on. -/
def syncSitesLoop {σ : Type} (env : DnacEnv σ) : SyncResult σ → List DnacSite → SyncResult σ
  | acc, [] => acc
  | acc, site :: rest =>
    let dnacSite := siteDraft env acc.ds site
    match env.AddSite acc.nbi dnacSite with
    | (.error err, nbi1) =>
      { acc with err := some ("adding site: " ++ err), nbi := nbi1,
                 calls := acc.calls ++ [.AddSite dnacSite] }
    | (.ok nbSite, nbi1) =>
      syncSitesLoop env
        { acc with nbi := nbi1, calls := acc.calls ++ [.AddSite dnacSite],
                   ds := { acc.ds with SiteID2nbSite := mapStore site.ID nbSite acc.ds.SiteID2nbSite } }
        rest

/-- `DnacSource.syncSites` (dnac_sync.go, lines 18-50). -/
def syncSites {σ : Type} (env : DnacEnv σ) (ds : DnacSource) (nbi : σ) : SyncResult σ :=
  syncSitesLoop env { err := none, nbi := nbi, ds := ds, calls := [], log := [] } ds.Sites

/-- The draft that `syncVlans` hands to `AddVlan` (dnac_sync.go, lines
84-97). -/
def vlanDraft {σ : Type} (env : DnacEnv σ) (ds : DnacSource) (vid : Int) (vlan : DnacVlan)
    (vlanGroup : Option VlanGroup) (vlanSite : Option Site) (vlanTenant : Option Tenant) : Vlan :=
  { NetboxObject :=
      { NetboxObject.zero with
        Tags := ds.SourceTags,
        Description := vlan.VLANType,
        CustomFields := [(env.CustomFieldSourceName, ds.SourceConfig.Name)] },
    Name := vlan.InterfaceName,
    Group := vlanGroup,
    Vid := vid,
    Site := vlanSite,
    Tenant := vlanTenant }

/-- The body of the loop `for vid, vlan := range ds.Vlans` of `syncVlans`
(dnac_sync.go, lines 55-121) in the state `acc`: a result with an error is
what `syncVlans` returns at once. -/
def syncVlan {σ : Type} (env : DnacEnv σ) (acc : SyncResult σ) (vid : Int) (vlan : DnacVlan) :
    SyncResult σ :=
  match env.MatchVlanToSite acc.nbi vlan.InterfaceName acc.ds.SourceConfig.VlanSiteRelations with
  | (.error err, nbi1) => { acc with err := some ("match vlan to site: " ++ err), nbi := nbi1 }
  | (.ok vlanSite, nbi1) =>
    match env.MatchVlanToGroupOfSite nbi1 vlan.InterfaceName vlanSite
        acc.ds.SourceConfig.VlanGroupRelations acc.ds.SourceConfig.VlanGroupSiteRelations with
    | (.error err, nbi2) => { acc with err := some ("vlanGroup: " ++ err), nbi := nbi2 }
    | (.ok vlanGroup, nbi2) =>
      let tenant := MatchVlanToTenant env.toMatchEnv nbi2 vlan.InterfaceName
        acc.ds.SourceConfig.VlanTenantRelations
      let calls := acc.calls ++ tenant.calls.map DnacCall.viaMatcher
      match tenant.err with
      | some err => { acc with err := some ("vlanTenant: " ++ err), nbi := tenant.nbi, calls := calls }
      | none =>
        let draft := vlanDraft env acc.ds vid vlan vlanGroup vlanSite tenant.value
        let calls := calls ++ [.AddVlan draft]
        match env.AddVlan tenant.nbi draft with
        | (.error err, nbi3) =>
          { acc with err := some ("adding vlan: " ++ err), nbi := nbi3, calls := calls }
        | (.ok newVlan, nbi3) =>
          let stored : DnacSource :=
            { acc.ds with VID2nbVlan := mapStore vid newVlan acc.ds.VID2nbVlan }
          if vlan.Prefix ≠ "" ∧ vlan.NetworkAddress ≠ "" then
            let vlanPrefix : Prefix :=
              { NetboxObject :=
                  { NetboxObject.zero with
                    Tags := acc.ds.SourceTags,
                    CustomFields := [(env.CustomFieldSourceName, acc.ds.SourceConfig.Name)] },
                Prefix := vlan.NetworkAddress ++ "/" ++ vlan.Prefix,
                Tenant := tenant.value,
                Vlan := newVlan }
            match env.AddPrefix nbi3 vlanPrefix with
            | (.error err, nbi4) =>
              { acc with err := some ("adding prefix: " ++ err), nbi := nbi4,
                         calls := calls ++ [.AddPrefix vlanPrefix] }
            | (.ok _, nbi4) =>
              { acc with nbi := nbi4, calls := calls ++ [.AddPrefix vlanPrefix], ds := stored }
          else { acc with nbi := nbi3, calls := calls, ds := stored }

/-- The loop `for vid, vlan := range ds.Vlans` of `syncVlans`, from the state
`acc` on. -/
def syncVlansLoop {σ : Type} (env : DnacEnv σ) : SyncResult σ → List (Int × DnacVlan) → SyncResult σ
  | acc, [] => acc
  | acc, (vid, vlan) :: rest =>
    match (syncVlan env acc vid vlan).err with
    | some _ => syncVlan env acc vid vlan
    | none => syncVlansLoop env (syncVlan env acc vid vlan) rest

/-- `DnacSource.syncVlans` (dnac_sync.go, lines 53-124). -/
def syncVlans {σ : Type} (env : DnacEnv σ) (ds : DnacSource) (nbi : σ) : SyncResult σ :=
  syncVlansLoop env { err := none, nbi := nbi, ds := ds, calls := [], log := [] } ds.Vlans

/-- `strings.Trim(s, " ")`. -/
def trimSpaces (l : List Char) : List Char :=
  ((l.dropWhile fun c => c = ' ').reverse.dropWhile fun c => c = ' ').reverse

/-- The draft that `syncDevice` hands to `AddDevice` (dnac_sync.go, lines
275-294). -/
def deviceDraft {σ : Type} (env : DnacEnv σ) (ds : DnacSource) (deviceID : String)
    (device : DnacDevice) (description comments : String) (deviceStatus : Choice)
    (deviceTenant : Option Tenant) (deviceRole : Option DeviceRole) (deviceSerialNumber : String)
    (platform : Option Platform) (deviceSite : Option Site) (deviceType : Option DeviceType) :
    Device :=
  { NetboxObject :=
      { NetboxObject.zero with
        Tags := ds.SourceTags,
        Description := description,
        CustomFields :=
          [(env.CustomFieldSourceName, ds.SourceConfig.Name),
           (env.CustomFieldSourceIDName, deviceID),
           (env.CustomFieldDeviceUUIDName, device.InstanceUUID)] },
    Name := device.Hostname,
    Status := some deviceStatus,
    Tenant := deviceTenant,
    DeviceRole := deviceRole,
    SerialNumber := deviceSerialNumber,
    Platform := platform,
    Comments := comments,
    Site := deviceSite,
    DeviceType := deviceType }

/-- The block `if len(ds.SourceConfig.HostRoleRelations) > 0` of `syncDevice`
(dnac_sync.go, lines 182-193): the outcome of `MatchHostToRole`, or a `nil`
role when there are no relations. -/
def matchDeviceRole {σ : Type} (env : DnacEnv σ) (ds : DnacSource) (nbi : σ)
    (device : DnacDevice) : MatchResult σ DeviceRole :=
  if 0 < (ds.SourceConfig.HostRoleRelations.getD []).length then
    MatchHostToRole env.toMatchEnv nbi device.Hostname ds.SourceConfig.HostRoleRelations
  else { value := none, err := none, nbi := nbi, calls := [] }

/-- The block `if deviceRole == nil` of `syncDevice` (dnac_sync.go, lines
194-204): the role, or the error of `AddDeviceRole`, the inventory state and
the calls after it. -/
def addRoleIfNil {σ : Type} (env : DnacEnv σ) (nbi : σ) (device : DnacDevice)
    (deviceRole : Option DeviceRole) (calls : List DnacCall) :
    Except String (Option DeviceRole) × σ × List DnacCall :=
  match deviceRole with
  | some role => (.ok (some role), nbi, calls)
  | none =>
    let roleDraft : DeviceRole :=
      { Name := device.Family, Slug := env.Slugify device.Family, Color := env.ColorAqua,
        VMRole := false }
    ((env.AddDeviceRole nbi roleDraft).1, (env.AddDeviceRole nbi roleDraft).2,
      calls ++ [.AddDeviceRole roleDraft])

/-- The name of the platform in `syncDevice` (dnac_sync.go, lines 206-211). -/
def devicePlatformName (device : DnacDevice) : String :=
  if device.SoftwareType = "" then device.PlatformID
  else String.mk (trimSpaces (device.SoftwareType ++ " " ++ device.SoftwareVersion).toList)

/-- The status of the device in `syncDevice` (dnac_sync.go, lines 265-268). -/
def deviceStatusOf (device : DnacDevice) : Choice :=
  if device.ReachabilityStatus = "Unreachable" then DeviceStatusOffline else DeviceStatusActive

/-- The serial number of the device in `syncDevice` (dnac_sync.go, lines
270-273). -/
def deviceSerialNumberOf (ds : DnacSource) (device : DnacDevice) : String :=
  if !ds.SourceConfig.IgnoreSerialNumbers then device.SerialNumber else ""

/-- `DnacSource.syncDevice` from the call of `AddManufacturer` on (dnac_sync.go,
lines 173-302), with the values that `description` and `comments` have
there. -/
def syncDeviceSteps {σ : Type} (env : DnacEnv σ) (ds : DnacSource) (nbi : σ) (deviceID : String)
    (device : DnacDevice) (description comments : String) : SyncResult σ :=
  let manufacturer : Manufacturer := { Name := "Cisco", Slug := env.Slugify "Cisco" }
  let calls : List DnacCall := [.AddManufacturer manufacturer]
  match env.AddManufacturer nbi manufacturer with
  | (.error err, nbi1) =>
    { err := some ("failed creating device: " ++ err), nbi := nbi1, ds := ds, calls := calls, log := [] }
  | (.ok ciscoManufacturer, nbi1) =>
    let matched := matchDeviceRole env ds nbi1 device
    let calls := calls ++ matched.calls.map DnacCall.viaMatcher
    match matched.err with
    | some err =>
      { err := some ("match host to role: " ++ err), nbi := matched.nbi, ds := ds, calls := calls,
        log := [] }
    | none =>
      match addRoleIfNil env matched.nbi device matched.value calls with
      | (.error err, nbi2, calls) =>
        { err := some ("adding dnac device role: " ++ err), nbi := nbi2, ds := ds, calls := calls,
          log := [] }
      | (.ok deviceRole, nbi2, calls) =>
        let platformName := devicePlatformName device
        let platformDraft : Platform :=
          { Name := platformName, Slug := env.Slugify platformName, Manufacturer := ciscoManufacturer }
        let calls := calls ++ [.AddPlatform platformDraft]
        match env.AddPlatform nbi2 platformDraft with
        | (.error err, nbi3) =>
          { err := some ("dnac platform: " ++ err), nbi := nbi3, ds := ds, calls := calls, log := [] }
        | (.ok platform, nbi3) =>
          match mapLoad ((mapLoad device.ID ds.Device2Site).getD "") ds.SiteID2nbSite with
          | none =>
            { err := none, nbi := nbi3, ds := ds, calls := calls,
              log := ["DeviceSite is not existing for device " ++ device.ID ++
                ", this should not happen. This device will be skipped"] }
          | some deviceSite =>
            if device.Type_ = "" then
              { err := none, nbi := nbi3, ds := ds, calls := calls,
                log := ["Device type for device " ++ device.ID ++
                  " is empty, this should not happen. This device will be skipped"] }
            else
              let typeDraft : DeviceType :=
                { Manufacturer := ciscoManufacturer, Model := device.Type_,
                  Slug := env.Slugify device.Type_ }
              let calls := calls ++ [.AddDeviceType typeDraft]
              match env.AddDeviceType nbi3 typeDraft with
              | (.error err, nbi4) =>
                { err := some ("add device type: " ++ err), nbi := nbi4, ds := ds, calls := calls,
                  log := [] }
              | (.ok deviceType, nbi4) =>
                let tenant := MatchHostToTenant env.toMatchEnv nbi4 device.Hostname
                  ds.SourceConfig.HostTenantRelations
                let calls := calls ++ tenant.calls.map DnacCall.viaMatcher
                match tenant.err with
                | some err =>
                  { err := some ("hostTenant: " ++ err), nbi := tenant.nbi, ds := ds, calls := calls,
                    log := [] }
                | none =>
                  let draft := deviceDraft env ds deviceID device description comments
                    (deviceStatusOf device) tenant.value deviceRole (deviceSerialNumberOf ds device)
                    platform deviceSite deviceType
                  let calls := calls ++ [.AddDevice draft]
                  match env.AddDevice tenant.nbi draft with
                  | (.error err, nbi5) =>
                    { err := some ("adding dnac device: " ++ err), nbi := nbi5, ds := ds,
                      calls := calls, log := [] }
                  | (.ok nbDevice, nbi5) =>
                    { err := none, nbi := nbi5,
                      ds := { ds with DeviceID2nbDevice := mapStore device.ID nbDevice ds.DeviceID2nbDevice },
                      calls := calls, log := [] }

/-- `DnacSource.syncDevice` (dnac_sync.go, lines 159-302): the statements that
set `description` and `comments` (lines 164-171), followed by the rest.
`len` of a Go string is the number of bytes of its UTF-8 encoding. -/
def syncDevice {σ : Type} (env : DnacEnv σ) (ds : DnacSource) (nbi : σ) (deviceID : String)
    (device : DnacDevice) : SyncResult σ :=
  let description : String := if device.Description ≠ "" then device.Description else ""
  let comments : String := ""
  if MaxDescriptionLength < description.utf8ByteSize then
    syncDeviceSteps env ds nbi deviceID device "See comments" description
  else syncDeviceSteps env ds nbi deviceID device description comments

/-! ## Sample collaborators of the DNAC adapter -/

/-- A stand-in for `strconv.ParseFloat` in the samples: it parses the texts
that consist of decimal digits and reports a syntax error, with the number 0,
for every other text. -/
def sampleParseFloat (s : String) : Rat × Option String :=
  match s.toList, parseDigits 0 s.toList with
  | [], _ => (0, some "invalid syntax")
  | _, some n => ((n : Rat), none)
  | _, none => (0, some "invalid syntax")

/-- The operations of the sample inventory for the DNAC adapter: those of
`sampleEnv`; the further `Add*` operations return the draft under a fresh id;
no VLAN is matched to a site, and every VLAN is matched to the default VLAN
group. -/
def sampleDnacEnv : DnacEnv SampleInventory :=
  { sampleEnv with
    AddManufacturer := fun inv draft =>
      (.ok (some { draft with NetboxObject := { draft.NetboxObject with ID := inv.nextID } }),
        { inv with nextID := inv.nextID + 1 }),
    AddPlatform := fun inv draft =>
      (.ok (some { draft with NetboxObject := { draft.NetboxObject with ID := inv.nextID } }),
        { inv with nextID := inv.nextID + 1 }),
    AddDeviceType := fun inv draft =>
      (.ok (some { draft with NetboxObject := { draft.NetboxObject with ID := inv.nextID } }),
        { inv with nextID := inv.nextID + 1 }),
    AddDevice := fun inv draft =>
      (.ok (some { draft with NetboxObject := { draft.NetboxObject with ID := inv.nextID } }),
        { inv with nextID := inv.nextID + 1 }),
    AddVlan := fun inv draft =>
      (.ok (some { draft with NetboxObject := { draft.NetboxObject with ID := inv.nextID } }),
        { inv with nextID := inv.nextID + 1 }),
    AddPrefix := fun inv draft =>
      (.ok (some { draft with NetboxObject := { draft.NetboxObject with ID := inv.nextID } }),
        { inv with nextID := inv.nextID + 1 }),
    MatchVlanToSite := fun inv _ _ => (.ok none, inv),
    MatchVlanToGroupOfSite := fun inv _ _ _ _ =>
      (.ok (sampleEnv.GetVlanGroup inv sampleEnv.DefaultVlanGroupName).1, inv),
    ParseFloat := sampleParseFloat,
    CustomFieldSourceName := "source",
    CustomFieldSourceIDName := "source_id",
    CustomFieldDeviceUUIDName := "uuid",
    ColorAqua := "00ffff" }

/-- The sample inventory on a Remote that rejects the VLAN with vid 20. -/
def sampleDnacEnvRejectingVlan20 : DnacEnv SampleInventory :=
  { sampleDnacEnv with
    AddVlan := fun inv draft =>
      if draft.Vid = 20 then (.error "400 Bad Request", inv)
      else
        (.ok (some { draft with NetboxObject := { draft.NetboxObject with ID := inv.nextID } }),
          { inv with nextID := inv.nextID + 1 }) }

/-- A DNAC source with one site that carries a location, three VLANs, and the
site of the device `dev-1`, already synced. -/
def sampleDnacSource : DnacSource :=
  { SourceConfig := { Name := "dnac" },
    SourceTags := [sampleSsotTag],
    Sites :=
      [{ ID := "site-1", Name := "Ljubljana",
         AdditionalInfo :=
           [{ Namespace := "Location",
              Attributes := { Address := "Trg 1", Longitude := "14", Latitude := "46" } }] }],
    Vlans :=
      [(10, { InterfaceName := "Vlan10", VLANType := "Data" }),
       (20, { InterfaceName := "Vlan20", VLANType := "Voice" }),
       (30, { InterfaceName := "Vlan30", VLANType := "Guest" })],
    Device2Site := [("dev-1", "site-1")],
    SiteID2nbSite :=
      [("site-1", some { NetboxObject := { NetboxObject.zero with ID := 2 }, Name := "DefaultSite",
                         Slug := "defaultsite" })] }

/-- A device of the sample source whose description has 101 characters and
202 bytes: 101 times the letter e with acute accent. -/
def sampleAccentedDevice : DnacDevice :=
  { ID := "dev-1", Description := String.mk (List.replicate 101 (Char.ofNat 233)),
    Hostname := "sw-1", Family := "Switches and Hubs", SoftwareType := "IOS-XE",
    SoftwareVersion := "17.3.4", Type_ := "Cisco Catalyst 9300", ReachabilityStatus := "Reachable",
    SerialNumber := "FOC1234" }

/-- A device of the sample source with a short description. -/
def sampleDevice : DnacDevice :=
  { sampleAccentedDevice with Description := "core switch" }

/-- The draft that `syncDevice` builds for `sampleDevice` on the sample
inventory. -/
def sampleDeviceDraft : Device :=
  deviceDraft sampleDnacEnv sampleDnacSource "dev-1" sampleDevice "core switch" ""
    DeviceStatusActive none
    (some { NetboxObject := { NetboxObject.zero with ID := 5 }, Name := "Switches and Hubs",
            Slug := "switches-and-hubs", Color := "00ffff", VMRole := false })
    "FOC1234"
    (some { NetboxObject := { NetboxObject.zero with ID := 6 }, Name := "IOS-XE 17.3.4",
            Slug := "ios-xe-17.3.4",
            Manufacturer := some { NetboxObject := { NetboxObject.zero with ID := 4 },
                                   Name := "Cisco", Slug := "cisco" } })
    (some { NetboxObject := { NetboxObject.zero with ID := 2 }, Name := "DefaultSite",
            Slug := "defaultsite" })
    (some { NetboxObject := { NetboxObject.zero with ID := 7 },
            Manufacturer := some { NetboxObject := { NetboxObject.zero with ID := 4 },
                                   Name := "Cisco", Slug := "cisco" },
            Model := "Cisco Catalyst 9300", Slug := "cisco-catalyst-9300" })

/-- The descriptions and comments of the drafts handed to `AddDevice`, in the
order of the calls. -/
def addDeviceTexts (calls : List DnacCall) : List (String × String) :=
  calls.filterMap fun c =>
    match c with
    | .AddDevice draft => some (draft.NetboxObject.Description, draft.Comments)
    | _ => none

/-- The vids of the drafts handed to `AddVlan`, in the order of the calls. -/
def addVlanVids (calls : List DnacCall) : List Int :=
  calls.filterMap fun c =>
    match c with
    | .AddVlan draft => some draft.Vid
    | _ => none

/-- The coordinates of the drafts handed to `AddSite`, longitude first, in the
order of the calls. -/
def addSiteCoordinates (calls : List DnacCall) : List (Rat × Rat) :=
  calls.filterMap fun c =>
    match c with
    | .AddSite draft => some (draft.Longitude, draft.Latitude)
    | _ => none

/-! ## `internal/utils/networking.go`: permitted addresses -/

/-- `subnetsContainIPAddress` (networking.go, lines 107-116). -/
def subnetsContainIPAddress (parseIPv6 : String → Option (List Nat)) (ipAddress : String) :
    List String → Bool
  | [] => false
  | subnet :: rest =>
    if SubnetContainsIPAddress parseIPv6 ipAddress subnet then true
    else subnetsContainIPAddress parseIPv6 ipAddress rest

/-- `IsPermittedIPAddress` (networking.go, lines 118-126). -/
def IsPermittedIPAddress (parseIPv6 : String → Option (List Nat)) (ipAddress : String)
    (permittedSubnets : List String) (ignoredSubnets : List String) : Bool :=
  if subnetsContainIPAddress parseIPv6 ipAddress ignoredSubnets then false
  else if permittedSubnets.length = 0 then true
  else subnetsContainIPAddress parseIPv6 ipAddress permittedSubnets

/-- An orphan set in which `OrphanObjectPriority` lists the devices only,
while a tenant is stored under a path that the list does not name. -/
def sampleUnlisted : OrphanInventory :=
  { NetboxConfig := { RemoveOrphans := false, RemoveOrphansAfterDays := 5 },
    OrphanManager :=
      { OrphanObjectPriority := ["/api/dcim/devices/"],
        Items := fun path =>
          if path = "/api/dcim/devices/" then
            [(7, ⟨.Device, { ID := 7, Tags := [sampleSsotTag], Description := "", CustomFields := [] }⟩)]
          else if path = "/api/tenancy/tenants/" then
            [(3, ⟨.Tenant, { ID := 3, Tags := [sampleSsotTag], Description := "", CustomFields := [] }⟩)]
          else [],
        Tag := sampleOrphanTag } }

/-- The inventory with the orphan set that a run of `DeleteOrphans` has left
in memory. -/
def afterDeleteOrphans (nbi : OrphanInventory) (r : DeleteOrphansResult) : OrphanInventory :=
  { nbi with OrphanManager := { nbi.OrphanManager with Items := r.Items } }

/-! ## `source.go`: `NewSource` -/

/-- Modelled from the spec: `constants.Ovirt`, a value of the string type
`constants.SourceType`; package `constants` is not part of the sources at
hand, and the spec lists the eight source types of a configuration. -/
def Ovirt : String := "ovirt"

/-- Modelled from the spec: `constants.Vmware`. -/
def Vmware : String := "vmware"

/-- Modelled from the spec: `constants.Dnac`. -/
def Dnac : String := "dnac"

/-- Modelled from the spec: `constants.Proxmox`. -/
def Proxmox : String := "proxmox"

/-- Modelled from the spec: `constants.PaloAlto`. -/
def PaloAlto : String := "paloalto"

/-- Modelled from the spec: `constants.Fortigate`. -/
def Fortigate : String := "fortigate"

/-- Modelled from the spec: `constants.FMC`. -/
def FMC : String := "fmc"

/-- Modelled from the spec: `constants.IOSXE`. -/
def IOSXE : String := "iosxe"

/-- The fields of `parser.SourceConfig` that `NewSource` reads; `Type_` is the
field `Type`. -/
structure SourceConfig where
  Name : String := ""
  Type_ : String := ""
  Tag : String := ""
  TagColor : String := ""
  CAFile : String := ""
  deriving DecidableEq, Repr

/-- `common.Config` as `NewSource` builds it (the logger and the context are
left out). -/
structure CommonConfig where
  SourceConfig : SourceConfig
  SourceNameTag : Option Tag
  SourceTypeTag : Option Tag
  CAFile : String
  deriving DecidableEq, Repr

/-- A `common.Source`: one of the eight adapter types, each a struct around
its `Config`. -/
inductive Source where
  | OVirtSource (Config : CommonConfig)
  | VmwareSource (Config : CommonConfig)
  | DnacSource (Config : CommonConfig)
  | ProxmoxSource (Config : CommonConfig)
  | PaloAltoSource (Config : CommonConfig)
  | FortigateSource (Config : CommonConfig)
  | FMCSource (Config : CommonConfig)
  | IOSXESource (Config : CommonConfig)
  deriving DecidableEq, Repr

/-- What `NewSource` uses from outside `source.go`, none of it part of the
sources at hand: `NetboxInventory.AddTag` on an inventory state `σ`,
`utils.Slugify`, and the map `constants.SourceTypeTagColorMap`, whose lookup
yields the empty string for a type that is no key. -/
structure NewSourceEnv (σ : Type) where
  AddTag : σ → Tag → Except String (Option Tag) × σ
  Slugify : String → String
  SourceTypeTagColorMap : String → String

/-- What `NewSource` returns (`source`, `err`) and does: the inventory state
it leaves and the drafts it handed to `AddTag`, oldest first. -/
structure NewSourceResult (σ : Type) where
  source : Option Source
  err : Option String
  nbi : σ
  calls : List Tag

/-- The draft of the source-name tag (source.go, lines 33-41). -/
def sourceNameTagDraft {σ : Type} (env : NewSourceEnv σ) (config : SourceConfig) : Tag :=
  { ID := 0,
    Name := config.Tag,
    Slug := env.Slugify ("source-" ++ config.Name),
    Color := config.TagColor,
    Description := "Automatically created tag by netbox-ssot for source " ++ config.Name }

/-- The draft of the source-type tag (source.go, lines 45-53). -/
def sourceTypeTagDraft {σ : Type} (env : NewSourceEnv σ) (config : SourceConfig) : Tag :=
  { ID := 0,
    Name := config.Type_,
    Slug := env.Slugify ("type-" ++ config.Type_),
    Color := env.SourceTypeTagColorMap config.Type_,
    Description := "Automatically created tag by netbox-ssot for source type " ++ config.Type_ }

/-- `NewSource` (source.go, lines 26-86). -/
def NewSource {σ : Type} (env : NewSourceEnv σ) (netboxInventory : σ) (config : SourceConfig) :
    NewSourceResult σ :=
  match env.AddTag netboxInventory (sourceNameTagDraft env config) with
  | (.error err, nbi1) =>
    { source := none, err := some ("error creating sourceTag: " ++ err), nbi := nbi1,
      calls := [sourceNameTagDraft env config] }
  | (.ok sourceNameTag, nbi1) =>
    match env.AddTag nbi1 (sourceTypeTagDraft env config) with
    | (.error err, nbi2) =>
      { source := none, err := some ("error creating sourceTypeTag: " ++ err), nbi := nbi2,
        calls := [sourceNameTagDraft env config, sourceTypeTagDraft env config] }
    | (.ok sourceTypeTag, nbi2) =>
      let commonConfig : CommonConfig :=
        { SourceConfig := config,
          SourceNameTag := sourceNameTag,
          SourceTypeTag := sourceTypeTag,
          CAFile := config.CAFile }
      let done (s : Option Source) (err : Option String) : NewSourceResult σ :=
        { source := s, err := err, nbi := nbi2,
          calls := [sourceNameTagDraft env config, sourceTypeTagDraft env config] }
      if config.Type_ = Ovirt then done (some (.OVirtSource commonConfig)) none
      else if config.Type_ = Vmware then done (some (.VmwareSource commonConfig)) none
      else if config.Type_ = Dnac then done (some (.DnacSource commonConfig)) none
      else if config.Type_ = Proxmox then done (some (.ProxmoxSource commonConfig)) none
      else if config.Type_ = PaloAlto then done (some (.PaloAltoSource commonConfig)) none
      else if config.Type_ = Fortigate then done (some (.FortigateSource commonConfig)) none
      else if config.Type_ = FMC then done (some (.FMCSource commonConfig)) none
      else if config.Type_ = IOSXE then done (some (.IOSXESource commonConfig)) none
      else done none (some ("unsupported source type: " ++ config.Type_))

/-- The adapter of the variant that belongs to a source type, around the
given configuration; `none` for a type that is none of the eight. -/
def variantOf (type : String) (c : CommonConfig) : Option Source :=
  if type = "ovirt" then some (.OVirtSource c)
  else if type = "vmware" then some (.VmwareSource c)
  else if type = "dnac" then some (.DnacSource c)
  else if type = "proxmox" then some (.ProxmoxSource c)
  else if type = "paloalto" then some (.PaloAltoSource c)
  else if type = "fortigate" then some (.FortigateSource c)
  else if type = "fmc" then some (.FMCSource c)
  else if type = "iosxe" then some (.IOSXESource c)
  else none

/-- A sample inventory of tags: `AddTag` stores the draft under the next id,
but fails for a tag whose name is in `reject`. -/
def sampleTagEnv (reject : List String) : NewSourceEnv (List Tag) :=
  { AddTag := fun inv draft =>
      if draft.Name ∈ reject then (.error "400 Bad Request", inv)
      else
        let t := { draft with ID := (inv.length : Int) + 1 }
        (.ok (some t), inv ++ [t]),
    Slugify := sampleSlugify,
    SourceTypeTagColorMap := fun t => if t = "dnac" then "00bceb" else "" }

/-- The configuration of a DNAC source in the samples. -/
def sampleSourceConfig : SourceConfig :=
  { Name := "lab", Type_ := "dnac", Tag := "Source: lab", TagColor := "aa1409", CAFile := "" }

/-! ## `utils.Slugify` -/

/-- Modelled from the spec: the alphanumerics of a slug, the ASCII lowercase
letters and the decimal digits. -/
def isSlugAlnum (c : Char) : Bool :=
  (97 ≤ c.toNat ∧ c.toNat ≤ 122) ∨ (48 ≤ c.toNat ∧ c.toNat ≤ 57)

/-- Modelled from the spec: the step "non-alphanumerics to hyphens" of
`utils.Slugify`, on one character. -/
def hyphenate (c : Char) : Char :=
  if isSlugAlnum c then c else '-'

/-- Modelled from the spec: the step "collapse repeats" of `utils.Slugify`: a
run of hyphens becomes one hyphen. -/
def collapseHyphens : List Char → List Char
  | [] => []
  | c :: rest =>
    if c = '-' ∧ rest.head? = some '-' then collapseHyphens rest
    else c :: collapseHyphens rest

/-- Modelled from the spec: the step "trim" of `utils.Slugify`: the hyphens
at both ends are dropped. -/
def trimHyphens (l : List Char) : List Char :=
  (l.dropWhile fun c => c = '-').rdropWhile fun c => c = '-'

/-- Modelled from the spec: `utils.Slugify`, which is not part of the sources
at hand (only its test is).  Rule R7 gives the steps, taken in its order:
lowercase, non-alphanumerics to hyphens, collapse repeats, trim.  The letters
are the ASCII letters, and what is trimmed are the hyphens at both ends, as
the test case `    Te st    ` with the result `te-st` demands. -/
def Slugify (name : String) : String :=
  String.mk (trimHyphens (collapseHyphens ((name.toList.map Char.toLower).map hyphenate)))

/-! ## The Diff engine: `utils.JsonDiffMapExceptId`

The function is not part of the sources at hand; `utils_test.go` calls it on
pairs of entities and states the patches it expects.  The model follows the
rules of the Diff engine in the spec as far as the function can apply them to
its two arguments: R1 (references), R2 (tags and other many-to-many), R3
(custom fields) and R5 (choices).  R4 and R-P speak of the priorities, which
the function does not receive, and `TestJsonDiffMapComplex2` expects an unset
description to replace a set one; R6 and R7 are applied by the adapters when
they build a draft (`syncDevice`, `Slug: utils.Slugify(...)`). -/

/-- Modelled from the spec: a referenced entity as the Diff engine sees it,
its id and its natural key. -/
structure Referent where
  ID : Int
  Name : String
  deriving DecidableEq, Repr

/-- Modelled from the spec: the value of an attribute of an entity, as the
entity holds it: a scalar, a list of strings, a choice, a foreign-key slot, a
tag list, another many-to-many slot, or the custom fields. -/
inductive FieldValue where
  | text (s : String)
  | number (n : Int)
  | flag (b : Bool)
  | texts (l : List String)
  | choice (c : Choice)
  | reference (target : Option Referent)
  | tags (ts : List Tag)
  | references (targets : List Referent)
  | customFields (m : List (String × String))
  deriving DecidableEq, Repr

/-- Modelled from the spec: a value of a patch, in wire form: `null`, a
scalar, a list of strings, an object `{id}`, a list of objects `{id}`, or a
mapping from custom-field names to strings or `null`. -/
inductive WireValue where
  | null
  | text (s : String)
  | number (n : Int)
  | flag (b : Bool)
  | texts (l : List String)
  | idObject (ID : Int)
  | idObjects (IDs : List Int)
  | mapping (m : List (String × Option String))
  deriving DecidableEq, Repr

/-- Modelled from the spec: an entity of some family, its id and its further
attributes under their wire names, in the order in which the family declares
them. -/
structure Entity where
  ID : Int
  Fields : List (String × FieldValue)
  deriving DecidableEq, Repr

/-- Modelled from the spec: rule R2, a list of ids as an ordered sequence in
ascending id. -/
def ascendingIDs (ids : List Int) : List Int :=
  ids.insertionSort fun a b => a ≤ b

/-- Modelled from the spec: the canonical form in which two values are
compared.  R1: a reference reduces to `{id}`, an empty slot to `null`; R2: tags
and other many-to-many slots reduce to the sequence of `{id}` in ascending id;
R5: a choice reduces to its inner `value`; custom fields are compared as
mappings, whatever the order of their entries. -/
def canonical : FieldValue → WireValue
  | .text s => .text s
  | .number n => .number n
  | .flag b => .flag b
  | .texts l => .texts l
  | .choice c => .text c.Value
  | .reference none => .null
  | .reference (some r) => .idObject r.ID
  | .tags ts => .idObjects (ascendingIDs (ts.map fun t => t.ID))
  | .references rs => .idObjects (ascendingIDs (rs.map fun r => r.ID))
  | .customFields m =>
    .mapping ((m.map fun e => (e.1, some e.2)).insertionSort fun a b => a.1 ≤ b.1)

/-- Modelled from the spec: rule R3, the custom fields of a patch: the desired
entries, `null` for a stored key that the desired mapping lacks, except that
`source_name` and `last_seen` keep their stored values. -/
def mergedCustomFields (desired stored : List (String × String)) : List (String × Option String) :=
  (desired.map fun e => (e.1, some e.2)) ++
    (stored.filter fun e => !(desired.map Prod.fst).contains e.1).map fun e =>
      if e.1 = "source_name" ∨ e.1 = "last_seen" then (e.1, some e.2) else (e.1, none)

/-- Modelled from the spec: the new value that a patch carries for a field
that differs: the canonical form of the desired value (the whole list for
tags), and the merged mapping for custom fields. -/
def patchValue (desired stored : FieldValue) : WireValue :=
  match desired, stored with
  | .customFields d, .customFields s => .mapping (mergedCustomFields d s)
  | d, _ => canonical d

/-- Modelled from the spec: the patch for the attributes of two entities of
one family, field by field: a field whose canonical forms differ enters the
patch under its wire name.  Entities whose field names differ are not of the
same family, which is an error. -/
def diffFields : List (String × FieldValue) → List (String × FieldValue) →
    Except String (List (String × WireValue))
  | [], [] => .ok []
  | (name, d) :: desired, (name1, s) :: stored =>
    if name ≠ name1 then .error "objects are not of the same type"
    else
      match diffFields desired stored with
      | .error e => .error e
      | .ok rest => if canonical d = canonical s then .ok rest else .ok ((name, patchValue d s) :: rest)
  | _, _ => .error "objects are not of the same type"

/-- Modelled from the spec: `utils.JsonDiffMapExceptId(newObj, existingObj)`,
the patch that turns the stored entity into the desired one: a map from wire
names to new values, here the list of its entries in field order.  The ids of
the two entities are not compared. -/
def JsonDiffMapExceptId (newObj existingObj : Entity) : Except String (List (String × WireValue)) :=
  diffFields newObj.Fields existingObj.Fields

/-- A `Tag` as an entity of the family Tag. -/
def tagEntity (t : Tag) : Entity :=
  { ID := t.ID,
    Fields := [("name", .text t.Name), ("slug", .text t.Slug), ("color", .text t.Color),
               ("description", .text t.Description)] }

/-- A `ClusterGroup` as an entity: the envelope, the name and the slug. -/
def clusterGroupEntity (o : NetboxObject) (name slug : String) : Entity :=
  { ID := o.ID,
    Fields := [("tags", .tags o.Tags), ("description", .text o.Description),
               ("custom_fields", .customFields o.CustomFields), ("name", .text name),
               ("slug", .text slug)] }

/-- The tag with the given id in the cases of `TestJsonDiffMapExceptId`. -/
def testTag (id : Int) (name slug : String) (description : String) : Tag :=
  { ID := id, Name := name, Slug := slug, Color := "000000", Description := description }

/-- The three tags of the desired cluster group in `TestJsonDiffMapExceptId`. -/
def testTags123 : List Tag :=
  [testTag 1 "Test" "test" "Test tag", testTag 2 "Test2" "test2" "Test tag 2",
   testTag 3 "Test3" "test3" "Test tag 3"]

/-- The two tags of the stored cluster group in `TestJsonDiffMapExceptId`. -/
def testTags12 : List Tag :=
  [testTag 1 "Test" "test" "Test tag", testTag 2 "Test2" "test2" "Test tag 2"]

/-- The desired cluster of `TestJsonDiffMapComplex`. -/
def testClusterNew : Entity :=
  { ID := 0,
    Fields :=
      [("tags", .tags [testTag 1 "Test" "test" "Test tag", testTag 3 "Test3" "test3" "Test tag 3",
                       testTag 4 "TestX" "test2" "Test tag 2"]),
       ("description", .text "New Description"),
       ("name", .text "Hosting"),
       ("type", .reference (some { ID := 2, Name := "oVirt" })),
       ("group", .reference (some { ID := 4, Name := "New Cluster Group" })),
       ("status", .choice { Value := "active", Label := "Active" }),
       ("site", .reference none),
       ("tenant", .reference none)] }

/-- The stored cluster of `TestJsonDiffMapComplex`. -/
def testClusterExisting : Entity :=
  { ID := 7,
    Fields :=
      [("tags", .tags [{ ID := 2, Name := "Netbox-synced", Slug := "netbox-synced",
                         Color := "9e9e9e", Description := "" }]),
       ("description", .text "Hosting cluster"),
       ("name", .text "Hosting"),
       ("type", .reference (some { ID := 2, Name := "oVirt" })),
       ("group", .reference (some { ID := 3, Name := "Hosting" })),
       ("status", .choice { Value := "active", Label := "Active" }),
       ("site", .reference (some { ID := 2, Name := "New York" })),
       ("tenant", .reference (some { ID := 1, Name := "Default" }))] }

/-! ## `dnac_sync.go`: `syncDeviceInterface` and `addIPAddressToInterface` -/

/-- An interface as the DNAC client reports it
(`dnac.ResponseDevicesGetAllInterfacesResponse`): the fields that
`syncDeviceInterface` and `addIPAddressToInterface` read. -/
structure DnacInterface where
  Description : String := ""
  DeviceID : String := ""
  Duplex : String := ""
  Status : String := ""
  Speed : String := ""
  InterfaceType : String := ""
  PortName : String := ""
  PortMode : String := ""
  VLANID : String := ""
  MacAddress : String := ""
  IPv4Address : String := ""
  IPv4Mask : String := ""
  deriving DecidableEq, Repr

/-- A call that `syncDeviceInterface` or `addIPAddressToInterface` makes on
the inventory, directly or through a helper of package `common`. -/
inductive DnacIfaceCall where
  | AddInterface (draft : Interface)
  | CreateMACAddressForObjectType (mac : String) (iface : Option Interface)
  | SetPrimaryMACForInterface (iface : Option Interface)
  | AddIPAddress (draft : IPAddress)
  | AddPrefix (draft : Prefix)
  | SetPrimaryIPAddressForObject (device : Option Device) (ip : Option IPAddress)
  deriving DecidableEq, Repr

/-- What the interface functions of the DNAC adapter use from outside
`dnac_sync.go` and `networking.go`, none of it part of the sources at hand:
`AddInterface` and `AddIPAddress` of the inventory; the helpers
`CreateMACAddressForObjectType`, `SetPrimaryMACForInterface` and
`SetPrimaryIPAddressForObject` of package `common`, with `μ` the type of a MAC
address object; `utils.FilterInterfaceName`; `utils.ReverseLookup`, which asks
the resolver; the parser of IPv6 text and `IPNet.String` of package `net`; and
constants of package `constants`. -/
structure DnacIfaceEnv (σ μ : Type) extends DnacEnv σ where
  AddInterface : σ → Interface → Except String (Option Interface) × σ
  AddIPAddress : σ → IPAddress → Except String (Option IPAddress) × σ
  CreateMACAddressForObjectType : σ → String → Option Interface → Except String μ × σ
  SetPrimaryMACForInterface : σ → Option Interface → μ → Option String × σ
  SetPrimaryIPAddressForObject : σ → Option Device → Option IPAddress → Option String × σ
  FilterInterfaceName : String → String → Bool
  ReverseLookup : String → String
  parseIPv6 : String → Option (List Nat)
  IPNetString : IPNet → String
  CustomFieldArpEntryName : String
  ContentTypeDcimInterface : String
  MaxIPv4MaskBits : Int

/-- What an interface function returns (`err`) and does: the inventory state
and the source it leaves, the calls it made and the lines it logged, oldest
first.  `panicked` says that the function dereferenced a nil pointer and did
not return. -/
structure IfaceResult (σ : Type) where
  err : Option String
  panicked : Bool
  nbi : σ
  ds : DnacSource
  calls : List DnacIfaceCall
  log : List String

/-- `GetPrefixAndMaskFromIPAddress` (networking.go, lines 131-138), with
`IPNet.String` as a parameter. -/
def GetPrefixAndMaskFromIPAddress (parseIPv6 : String → Option (List Nat))
    (IPNetString : IPNet → String) (ipAddress : String) : Except String (String × Int) :=
  match ParseCIDR parseIPv6 ipAddress with
  | none => .error ("invalid CIDR address: " ++ ipAddress)
  | some ipNet => .ok (IPNetString ipNet, ((IPMaskSize ipNet.Mask).1 : Int))

/-- `DnacSource.getDevice` (dnac_sync.go, lines 431-439). -/
def getDevice (ds : DnacSource) (deviceID : String) : Except String (Option Device) :=
  match mapLoad deviceID ds.DeviceID2nbDevice with
  | some ifaceDevice => .ok ifaceDevice
  | none => .error ("device " ++ deviceID ++ " not found")

/-- `DnacSource.getInterfaceDuplex` (dnac_sync.go, lines 441-455), with the
warning it logs. -/
def getInterfaceDuplex (duplex : String) : Option InterfaceDuplex × List String :=
  if duplex = "" then (none, [])
  else if duplex = "FullDuplex" then (some DuplexFull, [])
  else if duplex = "AutoNegotiate" then (some DuplexAuto, [])
  else if duplex = "HalfDuplex" then (some DuplexHalf, [])
  else (none, ["Not implemented Duplex value: " ++ duplex])

/-- `DnacSource.getInterfaceStatus` (dnac_sync.go, lines 457-466). -/
def getInterfaceStatus (status : String) : Except String Bool :=
  if status = "down" then .ok false
  else if status = "up" then .ok true
  else .error ("wrong interface status: " ++ status)

/-- `DnacSource.validateInterfaceName` (dnac_sync.go, lines 486-498): the
error, if any. -/
def validateInterfaceName {σ μ : Type} (env : DnacIfaceEnv σ μ) (ds : DnacSource)
    (ifaceName ifaceID : String) : Option String :=
  if ifaceName = "" then some ("unknown interface name for iface: " ++ ifaceID)
  else if env.FilterInterfaceName ifaceName ds.SourceConfig.InterfaceFilter then
    some ("interface " ++ ifaceName ++ " is filtered out with interfaceFilter " ++
      ds.SourceConfig.InterfaceFilter)
  else none

/-- `DnacSource.getVlanModeAndAccessVlan` (dnac_sync.go, lines 500-526), with
the debug line it logs. -/
def getVlanModeAndAccessVlan (ds : DnacSource) (portMode vlanID : String) :
    Except String (Option InterfaceMode × Option Vlan) × List String :=
  match Atoi vlanID with
  | .error _ => (.error ("can't parse vid for iface " ++ vlanID), [])
  | .ok vid =>
    if portMode = "access" then
      match mapLoad vid ds.VID2nbVlan with
      | some ifaceAccessVlan => (.ok (some InterfaceModeAccess, ifaceAccessVlan), [])
      | none => (.ok (some InterfaceModeAccess, none), [])
    else if portMode = "trunk" then (.ok (some InterfaceModeTagged, none), [])
    else if portMode = "dynamic_auto" ∨ portMode = "routed" then
      (.ok (none, none), ["vlan mode '" ++ portMode ++ "' is not implemented yet"])
    else (.error ("unknown interface mode: '" ++ portMode ++ "'"), [])

/-- The prefix step of `addIPAddressToInterface` (dnac_sync.go, lines 571-585):
the inventory state, the calls and the log lines it adds. -/
def addPrefixOfIPAddress {σ μ : Type} (env : DnacIfaceEnv σ μ) (ds : DnacSource) (nbi : σ)
    (tenant : Option Tenant) (address : String) : σ × List DnacIfaceCall × List String :=
  match GetPrefixAndMaskFromIPAddress env.parseIPv6 env.IPNetString address with
  | .error err => (nbi, [], ["failed extracting prefix from IPAddress: " ++ err])
  | .ok (pfx, mask) =>
    if mask ≠ env.MaxIPv4MaskBits then
      let draft : Prefix :=
        { NetboxObject := { NetboxObject.zero with Tags := ds.SourceTags },
          Prefix := pfx,
          Tenant := tenant }
      match env.AddPrefix nbi draft with
      | (.error err, nbi1) => (nbi1, [.AddPrefix draft], ["adding prefix: " ++ err])
      | (.ok _, nbi1) => (nbi1, [.AddPrefix draft], [])
    else (nbi, [], [])

/-- `DnacSource.addIPAddressToInterface` (dnac_sync.go, lines 528-598). -/
def addIPAddressToInterface {σ μ : Type} (env : DnacIfaceEnv σ μ) (ds : DnacSource) (nbi : σ)
    (iface : Option Interface) (ifaceDetails : DnacInterface) (ifaceDevice : Option Device) :
    IfaceResult σ :=
  let start : IfaceResult σ :=
    { err := none, panicked := false, nbi := nbi, ds := ds, calls := [], log := [] }
  if ifaceDetails.IPv4Address = "" ∨
      IsPermittedIPAddress env.parseIPv6 ifaceDetails.IPv4Address ds.SourceConfig.PermittedSubnets
        ds.SourceConfig.IgnoredSubnets = true then
    start
  else
    let maskBits : Except String Int :=
      if ifaceDetails.IPv4Mask ≠ "" then MaskToBits env.parseIPv6 ifaceDetails.IPv4Mask
      else .ok 32
    match maskBits with
    | .error err => { start with err := some ("wrong mask: " ++ err) }
    | .ok defaultMask =>
      -- the draft reads `iface.ID` and `iface.Device.Tenant`
      match iface.bind fun i => i.Device.map fun d => (i, d) with
      | none => { start with panicked := true }
      | some (ifaceObj, ifaceDev) =>
        let draft : IPAddress :=
          { NetboxObject :=
              { NetboxObject.zero with
                Tags := ds.SourceTags,
                CustomFields :=
                  [(env.CustomFieldSourceName, ds.SourceConfig.Name),
                   (env.CustomFieldArpEntryName, "false")] },
            Address := ifaceDetails.IPv4Address ++ "/" ++ toString defaultMask,
            Status := some { Value := "active", Label := "Active" },
            DNSName := env.ReverseLookup ifaceDetails.IPv4Address,
            AssignedObjectType := env.ContentTypeDcimInterface,
            AssignedObjectID := ifaceObj.NetboxObject.ID,
            Tenant := ifaceDev.Tenant }
        match env.AddIPAddress nbi draft with
        | (.error err, nbi1) =>
          { start with err := some ("adding IP address: " ++ err), nbi := nbi1,
                       calls := [.AddIPAddress draft] }
        | (.ok none, nbi1) =>
          { start with panicked := true, nbi := nbi1, calls := [.AddIPAddress draft] }
        | (.ok (some nbIPAddress), nbi1) =>
          let p := addPrefixOfIPAddress env ds nbi1 ifaceDev.Tenant nbIPAddress.Address
          let calls := DnacIfaceCall.AddIPAddress draft :: p.2.1
          let dnacDevice : DnacDevice := (mapLoad ifaceDetails.DeviceID ds.Devices).getD {}
          if dnacDevice.ManagementIPAddress = ifaceDetails.IPv4Address then
            let calls := calls ++ [.SetPrimaryIPAddressForObject ifaceDevice (some nbIPAddress)]
            match env.SetPrimaryIPAddressForObject p.1 ifaceDevice (some nbIPAddress) with
            | (some err, nbi3) =>
              { start with err := some ("setting primary IPv4 for device: " ++ err), nbi := nbi3,
                           calls := calls, log := p.2.2 }
            | (none, nbi3) => { start with nbi := nbi3, calls := calls, log := p.2.2 }
          else { start with nbi := p.1, calls := calls, log := p.2.2 }

/-- The block of `syncDeviceInterface` that sets `ifaceSpeed` and `ifaceType`
(dnac_sync.go, lines 359-372), with the line it logs: `none` when the
interface is skipped.  Both variables start at their zero values, 0 and
nil. -/
def interfaceSpeedAndType (iface : DnacInterface) :
    Option (InterfaceSpeed × Option InterfaceType) × List String :=
  match Atoi iface.Speed with
  | .error _ => (some (0, none), ["wrong speed for iface " ++ iface.Speed])
  | .ok speed =>
    match getInterfaceType iface.InterfaceType speed with
    | .error err => (none, [err ++ ". Skipping this device..."])
    | .ok typeI => (some (speed, typeI), [])

/-- The draft that `syncDeviceInterface` hands to `AddInterface`
(dnac_sync.go, lines 385-402). -/
def interfaceDraft {σ μ : Type} (env : DnacIfaceEnv σ μ) (ds : DnacSource)
    (ifaceDescription ifaceName : String) (ifaceSpeed : InterfaceSpeed) (ifaceStatus : Bool)
    (ifaceDuplex : Option InterfaceDuplex) (ifaceDevice : Option Device)
    (ifaceType : Option InterfaceType) (ifaceMode : Option InterfaceMode)
    (ifaceAccessVlan : Option Vlan) : Interface :=
  { NetboxObject :=
      { NetboxObject.zero with
        Description := ifaceDescription,
        Tags := ds.SourceTags,
        CustomFields := [(env.CustomFieldSourceName, ds.SourceConfig.Name)] },
    Name := ifaceName,
    Speed := ifaceSpeed,
    Status := ifaceStatus,
    Duplex := ifaceDuplex,
    Device := ifaceDevice,
    Type_ := ifaceType,
    Mode := ifaceMode,
    UntaggedVlan := ifaceAccessVlan,
    TaggedVlans := [] }

/-- The MAC address step of `syncDeviceInterface` (dnac_sync.go, lines
407-420): the error it returns, if any, the inventory state and the calls. -/
def addMACAddress {σ μ : Type} (env : DnacIfaceEnv σ μ) (nbi : σ) (macAddress : String)
    (nbIface : Option Interface) : Option String × σ × List DnacIfaceCall :=
  if macAddress ≠ "" then
    match env.CreateMACAddressForObjectType nbi macAddress nbIface with
    | (.error err, nbi1) =>
      (some ("creating MAC address: " ++ err), nbi1,
        [.CreateMACAddressForObjectType macAddress nbIface])
    | (.ok nbMACAddress, nbi1) =>
      match env.SetPrimaryMACForInterface nbi1 nbIface nbMACAddress with
      | (some err, nbi2) =>
        (some ("setting primary MAC for interface: " ++ err), nbi2,
          [.CreateMACAddressForObjectType macAddress nbIface, .SetPrimaryMACForInterface nbIface])
      | (none, nbi2) =>
        (none, nbi2,
          [.CreateMACAddressForObjectType macAddress nbIface, .SetPrimaryMACForInterface nbIface])
  else (none, nbi, [])

/-- `DnacSource.syncDeviceInterface` (dnac_sync.go, lines 338-429). -/
def syncDeviceInterface {σ μ : Type} (env : DnacIfaceEnv σ μ) (ds : DnacSource) (nbi : σ)
    (ifaceID : String) (iface : DnacInterface) : IfaceResult σ :=
  let start : IfaceResult σ :=
    { err := none, panicked := false, nbi := nbi, ds := ds, calls := [], log := [] }
  let ifaceDescription := iface.Description
  match getDevice ds iface.DeviceID with
  | .error err => { start with log := [err ++ " This interface will be skipped"] }
  | .ok ifaceDevice =>
    let duplex := getInterfaceDuplex iface.Duplex
    match getInterfaceStatus iface.Status with
    | .error err => { start with log := duplex.2 ++ [err] }
    | .ok ifaceStatus =>
      let st := interfaceSpeedAndType iface
      match st.1 with
      | none => { start with log := duplex.2 ++ st.2 }
      | some (ifaceSpeed, ifaceType) =>
        let ifaceName := iface.PortName
        match validateInterfaceName env ds ifaceName ifaceID with
        | some err => { start with log := duplex.2 ++ st.2 ++ [err] }
        | none =>
          let vm := getVlanModeAndAccessVlan ds iface.PortMode iface.VLANID
          match vm.1 with
          | .error err => { start with log := duplex.2 ++ st.2 ++ vm.2 ++ [err] }
          | .ok (ifaceMode, ifaceAccessVlan) =>
            let log := duplex.2 ++ st.2 ++ vm.2
            let draft := interfaceDraft env ds ifaceDescription ifaceName ifaceSpeed ifaceStatus
              duplex.1 ifaceDevice ifaceType ifaceMode ifaceAccessVlan
            match env.AddInterface nbi draft with
            | (.error err, nbi1) =>
              { start with err := some ("add device interface: " ++ err), nbi := nbi1,
                           calls := [.AddInterface draft], log := log }
            | (.ok nbIface, nbi1) =>
              let mac := addMACAddress env nbi1 iface.MacAddress nbIface
              match mac.1 with
              | some err =>
                { start with err := some err, nbi := mac.2.1,
                             calls := .AddInterface draft :: mac.2.2, log := log }
              | none =>
                let ip := addIPAddressToInterface env ds mac.2.1 nbIface iface ifaceDevice
                let calls := .AddInterface draft :: mac.2.2 ++ ip.calls
                if ip.panicked then
                  { start with panicked := true, nbi := ip.nbi, calls := calls,
                               log := log ++ ip.log }
                else
                  let log :=
                    match ip.err with
                    | some err => log ++ ip.log ++ ["adding IP address: " ++ err]
                    | none => log ++ ip.log
                  { start with nbi := ip.nbi, calls := calls, log := log,
                               ds := { ds with InterfaceID2nbInterface :=
                                         mapStore ifaceID nbIface ds.InterfaceID2nbInterface } }

/-- The operations of the sample inventory for the interface functions: those
of `sampleDnacEnv`; `AddInterface` and `AddIPAddress` return the draft under a
fresh id; no interface name is filtered out and no address resolves to a
name. -/
def sampleIfaceEnv : DnacIfaceEnv SampleInventory String :=
  { sampleDnacEnv with
    AddInterface := fun inv draft =>
      (.ok (some { draft with NetboxObject := { draft.NetboxObject with ID := inv.nextID } }),
        { inv with nextID := inv.nextID + 1 }),
    AddIPAddress := fun inv draft =>
      (.ok (some { draft with NetboxObject := { draft.NetboxObject with ID := inv.nextID } }),
        { inv with nextID := inv.nextID + 1 }),
    CreateMACAddressForObjectType := fun inv mac _ => (.ok mac, inv),
    SetPrimaryMACForInterface := fun inv _ _ => (none, inv),
    SetPrimaryIPAddressForObject := fun inv _ _ => (none, inv),
    FilterInterfaceName := fun _ _ => false,
    ReverseLookup := fun _ => "",
    parseIPv6 := noIPv6,
    IPNetString := fun n =>
      String.intercalate "." ((n.IP.getD []).map fun b => String.mk (byteDecimal b)) ++ "/" ++
        toString (IPMaskSize n.Mask).1,
    CustomFieldArpEntryName := "arp_entry",
    ContentTypeDcimInterface := "dcim.interface",
    MaxIPv4MaskBits := 32 }

/-- The device `dev-1` as stored in the inventory, and the sample source after
`syncDevice`, with the subnet `10.0.0.0/8` named as permitted. -/
def sampleIfaceSource : DnacSource :=
  { sampleDnacSource with
    SourceConfig := { Name := "dnac", PermittedSubnets := ["10.0.0.0/8"] },
    DeviceID2nbDevice :=
      [("dev-1", some { NetboxObject := { NetboxObject.zero with ID := 8 }, Name := "sw-1" })],
    Devices := [("dev-1", sampleDevice)] }

/-- An interface record of the sample source: a physical port that is up, in
access mode on VLAN 10, whose speed DNAC does not report as a number. -/
def sampleIfaceNoSpeed : DnacInterface :=
  { Description := "uplink", DeviceID := "dev-1", Duplex := "FullDuplex", Status := "up",
    Speed := "", InterfaceType := "Physical", PortName := "GigabitEthernet1/0/1",
    PortMode := "access", VLANID := "10" }

/-- The types of the drafts handed to `AddInterface`, in the order of the
calls. -/
def addInterfaceTypes (calls : List DnacIfaceCall) : List (Option InterfaceType) :=
  calls.filterMap fun c =>
    match c with
    | .AddInterface draft => some draft.Type_
    | _ => none

/-- The addresses of the drafts handed to `AddIPAddress`, in the order of the
calls. -/
def addIPAddressTexts (calls : List DnacIfaceCall) : List String :=
  calls.filterMap fun c =>
    match c with
    | .AddIPAddress draft => some draft.Address
    | _ => none

/-! ## Properties of `Init` -/

theorem runInitFunctions_prefix (env : InitEnv) (rest : List InitStep) :
    ∀ done, ∃ pre, (runInitFunctions env done rest).1 = done ++ pre ∧ pre <+: rest := by
  induction rest with
  | nil => intro done; exact ⟨[], by simp [runInitFunctions], List.prefix_refl _⟩
  | cons f rest ih =>
    intro done
    cases h : env.initFunc done f with
    | some err =>
      refine ⟨[f], by simp [runInitFunctions, h], ?_⟩
      exact ⟨rest, rfl⟩
    | none =>
      obtain ⟨pre, hpre, hpref⟩ := ih (done ++ [f])
      refine ⟨f :: pre, by simp [runInitFunctions, h, hpre], ?_⟩
      obtain ⟨t, ht⟩ := hpref
      exact ⟨t, by simp [← ht]⟩

theorem runInitFunctions_all_ok (env : InitEnv) (hok : ∀ done f, env.initFunc done f = none)
    (rest : List InitStep) :
    ∀ done, runInitFunctions env done rest = (done ++ rest, none) := by
  induction rest with
  | nil => intro done; simp [runInitFunctions]
  | cons f rest ih => intro done; simp [runInitFunctions, hok, ih]

theorem runInitFunctions_stops (env : InitEnv) (f : InitStep) (post : List InitStep)
    (err : String) (pre : List InitStep) :
    ∀ done, (∀ l1 g l2, pre = l1 ++ g :: l2 → env.initFunc (done ++ l1) g = none) →
      env.initFunc (done ++ pre) f = some err →
      runInitFunctions env done (pre ++ f :: post) =
        (done ++ pre ++ [f], some (err ++ ": " ++ env.ExtractFunctionName f)) := by
  induction pre with
  | nil =>
    intro done _ hf
    simp only [List.append_nil] at hf
    simp [runInitFunctions, hf]
  | cons g rest ih =>
    intro done hok hf
    have hg : env.initFunc done g = none := by
      have := hok [] g rest rfl
      simpa using this
    have hrest : ∀ l1 g1 l2, rest = l1 ++ g1 :: l2 →
        env.initFunc ((done ++ [g]) ++ l1) g1 = none := by
      intro l1 g1 l2 h
      have := hok (g :: l1) g1 l2 (by rw [h]; rfl)
      simpa using this
    have hf1 : env.initFunc ((done ++ [g]) ++ rest) f = some err := by
      simpa using hf
    have hstep : runInitFunctions env done ((g :: rest) ++ f :: post) =
        runInitFunctions env (done ++ [g]) (rest ++ f :: post) := by
      simp [runInitFunctions, hg]
    rw [hstep, ih (done ++ [g]) hrest hf1]
    simp

theorem runInitFunctions_cases (env : InitEnv) (rest : List InitStep) :
    ∀ done,
      ((∀ l1 g l2, rest = l1 ++ g :: l2 → env.initFunc (done ++ l1) g = none) ∧
        runInitFunctions env done rest = (done ++ rest, none)) ∨
      ∃ pre f post err, rest = pre ++ f :: post ∧
        (∀ l1 g l2, pre = l1 ++ g :: l2 → env.initFunc (done ++ l1) g = none) ∧
        env.initFunc (done ++ pre) f = some err ∧
        runInitFunctions env done rest =
          (done ++ pre ++ [f], some (err ++ ": " ++ env.ExtractFunctionName f)) := by
  induction rest with
  | nil =>
    intro done
    left
    refine ⟨?_, by simp [runInitFunctions]⟩
    intro l1 g l2 h
    cases l1 <;> cases h
  | cons g rest ih =>
    intro done
    cases hg : env.initFunc done g with
    | some err =>
      right
      refine ⟨[], g, rest, err, rfl, ?_, by simpa using hg, by simp [runInitFunctions, hg]⟩
      intro l1 g1 l2 h
      cases l1 <;> cases h
    | none =>
      rcases ih (done ++ [g]) with ⟨hall, hrun⟩ | ⟨pre, f, post, err, hsplit, hpre, hf, hrun⟩
      · left
        refine ⟨?_, by simp [runInitFunctions, hg, hrun]⟩
        intro l1 g1 l2 h
        cases l1 with
        | nil =>
          simp only [List.nil_append, List.cons.injEq] at h
          rw [← h.1]
          simpa using hg
        | cons a l1 =>
          simp only [List.cons_append, List.cons.injEq] at h
          have := hall l1 g1 l2 h.2
          rw [← h.1]
          simpa using this
      · right
        refine ⟨g :: pre, f, post, err, by rw [hsplit]; rfl, ?_, by simpa using hf,
          by simp [runInitFunctions, hg, hrun]⟩
        intro l1 g1 l2 h
        cases l1 with
        | nil =>
          simp only [List.nil_append, List.cons.injEq] at h
          rw [← h.1]
          simpa using hg
        | cons a l1 =>
          simp only [List.cons_append, List.cons.injEq] at h
          have := hpre l1 g1 l2 h.2
          rw [← h.1]
          simpa using this

/-- C1 (counterexample): in a run of `Init` in which every step succeeds, tags
are not hydrated before custom fields, none of device roles, device types and
clusters is hydrated before devices, and wireless LAN groups are not hydrated
before wireless LANs. -/
theorem Init_order_counterexample :
    (Init okInitEnv).2 = none ∧
    ¬ runsBefore .initTags .initCustomFields (Init okInitEnv).1 ∧
    ¬ runsBefore .initDeviceRoles .initDevices (Init okInitEnv).1 ∧
    ¬ runsBefore .initDeviceTypes .initDevices (Init okInitEnv).1 ∧
    ¬ runsBefore .initClusters .initDevices (Init okInitEnv).1 ∧
    ¬ runsBefore .initWirelessLANGroups .initWirelessLANs (Init okInitEnv).1 := by
  decide

/-- C1 (amended): the init functions that `Init` runs form a prefix of the
list custom fields, SSoT custom fields, tags, contact groups, contact roles,
admin contact role, contacts, contact assignments, tenants, sites, default
site, manufacturers, platforms, devices, VDCs, interfaces, IP addresses, VLAN
groups, default VLAN group, prefixes, VLANs, device roles, device types,
cluster groups, cluster types, clusters, VMs, VM interfaces, wireless LANs,
wireless LAN groups; when the client is built, the version check passes and
every init function succeeds, `Init` runs exactly this list in this order and
returns no error, so custom fields come before tags, devices before device
roles, device types and clusters, and wireless LANs before wireless LAN
groups.  `Init` stops at the first init function that fails: when the client
is built, the version check passes, the init functions before `f` in the list
succeed and `f` fails with `err`, the run is the list up to and including `f`
and the error returned is `err: <name of f>`; every run is either the whole
list without error or such a stopped run.  When the client cannot be built or
the version check fails, no init function runs and that error is returned. -/
theorem Init_runs_initFunctions_in_source_order (env : InitEnv) :
    initFunctions =
      [ .initCustomFields, .initSsotCustomFields, .initTags, .initContactGroups,
        .initContactRoles, .initAdminContactRole, .initContacts, .initContactAssignments,
        .initTenants, .initSites, .initDefaultSite, .initManufacturers, .initPlatforms,
        .initDevices, .initVirtualDeviceContexts, .initInterfaces, .initIPAddresses,
        .initVlanGroups, .initDefaultVlanGroup, .initPrefixes, .initVlans, .initDeviceRoles,
        .initDeviceTypes, .initClusterGroups, .initClusterTypes, .initClusters, .initVMs,
        .initVMInterfaces, .initWirelessLANs, .initWirelessLANGroups ] ∧
    (Init env).1 <+: initFunctions ∧
    (env.NewNetboxClient = none → env.checkVersion = none →
      (∀ done f, env.initFunc done f = none) →
      Init env = (initFunctions, none) ∧
      runsBefore .initCustomFields .initTags (Init env).1 ∧
      runsBefore .initDevices .initDeviceRoles (Init env).1 ∧
      runsBefore .initDevices .initDeviceTypes (Init env).1 ∧
      runsBefore .initDevices .initClusters (Init env).1 ∧
      runsBefore .initWirelessLANs .initWirelessLANGroups (Init env).1) ∧
    (∀ pre f post err, env.NewNetboxClient = none → env.checkVersion = none →
      initFunctions = pre ++ f :: post →
      (∀ l1 g l2, pre = l1 ++ g :: l2 → env.initFunc l1 g = none) →
      env.initFunc pre f = some err →
      Init env = (pre ++ [f], some (err ++ ": " ++ env.ExtractFunctionName f))) ∧
    (env.NewNetboxClient = none → env.checkVersion = none →
      ((∀ l1 g l2, initFunctions = l1 ++ g :: l2 → env.initFunc l1 g = none) ∧
        Init env = (initFunctions, none)) ∨
      ∃ pre f post err, initFunctions = pre ++ f :: post ∧
        (∀ l1 g l2, pre = l1 ++ g :: l2 → env.initFunc l1 g = none) ∧
        env.initFunc pre f = some err ∧
        Init env = (pre ++ [f], some (err ++ ": " ++ env.ExtractFunctionName f))) ∧
    (∀ err, env.NewNetboxClient = some err →
      Init env = ([], some ("create new netbox client: " ++ err))) ∧
    (∀ err, env.NewNetboxClient = none → env.checkVersion = some err →
      Init env = ([], some err)) := by
  refine ⟨rfl, ?_, ?_, ?_, ?_, ?_, ?_⟩
  · unfold Init
    cases env.NewNetboxClient with
    | some err => exact List.nil_prefix
    | none =>
      cases env.checkVersion with
      | some err => exact List.nil_prefix
      | none =>
        obtain ⟨pre, hpre, hpref⟩ := runInitFunctions_prefix env initFunctions []
        simpa [hpre] using hpref
  · intro hclient hversion hok
    have h : Init env = (initFunctions, none) := by
      unfold Init
      rw [hclient, hversion]
      simpa using runInitFunctions_all_ok env hok initFunctions []
    rw [h]
    exact ⟨rfl, by decide, by decide, by decide, by decide, by decide⟩
  · intro pre f post err h1 h2 hsplit hpre hf
    have := runInitFunctions_stops env f post err pre [] (by simpa using hpre) (by simpa using hf)
    unfold Init
    rw [h1, h2, hsplit]
    simpa using this
  · intro h1 h2
    have := runInitFunctions_cases env initFunctions []
    unfold Init
    rw [h1, h2]
    simpa using this
  · intro err h
    simp [Init, h]
  · intro err h1 h2
    simp [Init, h1, h2]

/-- Witness for `Init_runs_initFunctions_in_source_order`: a run in which every
step succeeds, and a run in which `initTags` fails, which stops after custom
fields, SSoT custom fields and tags with the error of `initTags`. -/
theorem Init_runs_initFunctions_in_source_order_witness :
    Init okInitEnv = (initFunctions, none) ∧
    runsBefore .initCustomFields .initTags (Init okInitEnv).1 ∧
    Init tagsFailInitEnv =
      ([.initCustomFields, .initSsotCustomFields, .initTags], some "503: initTags") :=
  let h := (Init_runs_initFunctions_in_source_order okInitEnv).2.2.1 rfl rfl (fun _ _ => rfl)
  ⟨h.1, h.2.1,
    (Init_runs_initFunctions_in_source_order tagsFailInitEnv).2.2.2.1
      [.initCustomFields, .initSsotCustomFields] .initTags
      [ .initContactGroups,
        .initContactRoles, .initAdminContactRole, .initContacts, .initContactAssignments,
        .initTenants, .initSites, .initDefaultSite, .initManufacturers, .initPlatforms,
        .initDevices, .initVirtualDeviceContexts, .initInterfaces, .initIPAddresses,
        .initVlanGroups, .initDefaultVlanGroup, .initPrefixes, .initVlans, .initDeviceRoles,
        .initDeviceTypes, .initClusterGroups, .initClusterTypes, .initClusters, .initVMs,
        .initVMInterfaces, .initWirelessLANs, .initWirelessLANGroups ]
      "503" rfl rfl rfl
      (by
        intro l1 g l2 h
        have hg : g ∈ [InitStep.initCustomFields, InitStep.initSsotCustomFields] := by
          rw [h]
          simp
        simp only [List.mem_cons, List.mem_singleton, List.not_mem_nil, or_false] at hg
        rcases hg with hg | hg <;> subst hg <;> rfl)
      rfl⟩

/-! ## Properties of `DeleteOrphans` -/

theorem HasTag_AddTag (o : NetboxObject) (tag : Tag) : (o.AddTag tag).HasTag tag = true := by
  unfold NetboxObject.AddTag
  cases h : o.HasTag tag with
  | true => simp [h]
  | false => simp [NetboxObject.HasTag]

theorem AddTag_ID (o : NetboxObject) (tag : Tag) : (o.AddTag tag).ID = o.ID := by
  unfold NetboxObject.AddTag
  split <;> rfl

theorem softDelete_calls (remote : Remote) (nbi : OrphanInventory) (eff : Effects)
    (item : OrphanItem) :
    (softDelete remote nbi eff item).1.calls =
      eff.calls ++ softDeleteCalls nbi.OrphanManager.Tag item := by
  unfold softDelete softDeleteCalls
  cases htag : item.obj.HasTag nbi.OrphanManager.Tag with
  | true => simp
  | false =>
    cases hcase : patchCase item.kind with
    | false => simp
    | true =>
      simp only [Bool.not_false, if_true, OrphanItem.GetID, NetboxObject.AddTag, htag,
        Bool.false_eq_true, if_false]
      split <;> rfl

theorem softDelete_item (remote : Remote) (nbi : OrphanInventory) (eff : Effects)
    (item : OrphanItem) :
    (softDelete remote nbi eff item).2 =
      { item with obj := item.obj.AddTag nbi.OrphanManager.Tag } := by
  unfold softDelete
  cases htag : item.obj.HasTag nbi.OrphanManager.Tag with
  | true => simp [NetboxObject.AddTag, htag]
  | false =>
    cases hcase : patchCase item.kind with
    | false => simp
    | true =>
      simp only [Bool.not_false, if_true]
      split <;> rfl

theorem flatMap_itemCalls_hard (tag : Tag) (path : String) (items : List (Int × OrphanItem)) :
    items.flatMap (itemCalls true tag path) = items.map fun e => RemoteCall.Delete path e.1 := by
  induction items with
  | nil => rfl
  | cons e rest ih => simp [List.flatMap_cons, itemCalls, ih]

theorem deleteItems_calls (remote : Remote) (nbi : OrphanInventory) (hard : Bool) (path : String)
    (items : List (Int × OrphanItem)) :
    ∀ eff, (deleteItems remote nbi hard path eff items).1.calls =
        eff.calls ++ items.flatMap (itemCalls hard nbi.OrphanManager.Tag path) ∧
      (deleteItems remote nbi hard path eff items).2 =
        items.map (itemAfter hard nbi.OrphanManager.Tag) := by
  induction items with
  | nil => intro eff; simp [deleteItems]
  | cons e rest ih =>
    intro eff
    obtain ⟨id, item⟩ := e
    cases hard with
    | true =>
      cases hd : remote.DeleteObject eff.calls path id with
      | none =>
        have h := ih { calls := eff.calls ++ [RemoteCall.Delete path id], log := eff.log }
        simp [deleteItems, hd, h.1, h.2, itemCalls, itemAfter]
      | some err =>
        have h := ih { calls := eff.calls ++ [RemoteCall.Delete path id],
                       log := eff.log ++ [LogEntry.deleteObjects err] }
        simp [deleteItems, hd, h.1, h.2, itemCalls, itemAfter]
    | false =>
      have h := ih (softDelete remote nbi eff item).1
      simp [deleteItems, h.1, h.2, itemCalls, itemAfter, softDelete_calls, softDelete_item]

theorem deletePaths_calls (remote : Remote) (nbi : OrphanInventory) (hard : Bool)
    (prio : List String) :
    ∀ eff items, (deletePaths remote nbi hard eff items prio).1.calls =
      eff.calls ++ pathsCalls hard nbi.OrphanManager.Tag items prio := by
  induction prio with
  | nil => intro eff items; simp [deletePaths, pathsCalls]
  | cons path rest ih =>
    intro eff items
    by_cases hlen : (items path).length = 0
    · have hnil : items path = [] := List.length_eq_zero.mp hlen
      simp [deletePaths, pathsCalls, hnil, ih]
      rw [← hnil, Function.update_eq_self]
    · simp only [deletePaths, hlen, if_false, pathsCalls]
      rw [ih, (deleteItems_calls remote nbi hard path (items path) _).2,
        (deleteItems_calls remote nbi hard path (items path) _).1]
      simp

theorem DeleteOrphans_calls (remote : Remote) (nbi : OrphanInventory) (hard : Bool) :
    (DeleteOrphans remote nbi hard).calls =
      pathsCalls hard nbi.OrphanManager.Tag nbi.OrphanManager.Items
        nbi.OrphanManager.OrphanObjectPriority := by
  simp [DeleteOrphans, deletePaths_calls]

theorem pathsCalls_of_nodup (hard : Bool) (tag : Tag) (prio : List String) (hprio : prio.Nodup) :
    ∀ items, pathsCalls hard tag items prio =
      prio.flatMap fun path => (items path).flatMap (itemCalls hard tag path) := by
  induction prio with
  | nil => intro items; simp [pathsCalls]
  | cons path rest ih =>
    intro items
    have hnot : path ∉ rest := (List.nodup_cons.mp hprio).1
    have hrest : rest.Nodup := (List.nodup_cons.mp hprio).2
    simp only [pathsCalls, List.flatMap_cons]
    rw [ih hrest]
    congr 1
    apply List.flatMap_congr
    intro q hq
    have hne : q ≠ path := fun h => hnot (h ▸ hq)
    rw [Function.update_noteq hne]

theorem pathsCalls_hard (tag : Tag) (prio : List String) :
    ∀ items, pathsCalls true tag items prio =
      prio.flatMap fun path => (items path).map fun e => RemoteCall.Delete path e.1 := by
  induction prio with
  | nil => intro items; simp [pathsCalls]
  | cons path rest ih =>
    intro items
    have hfun : itemAfter true tag = id := by
      funext e
      simp [itemAfter]
    have hafter : (items path).map (itemAfter true tag) = items path := by
      rw [hfun, List.map_id]
    simp only [pathsCalls, List.flatMap_cons, hafter, Function.update_eq_self, ih,
      flatMap_itemCalls_hard]

theorem pathsCalls_mem (hard : Bool) (tag : Tag) (prio : List String) :
    ∀ items (path : String) (e : Int × OrphanItem) (c : RemoteCall), path ∈ prio →
      e ∈ items path → c ∈ itemCalls hard tag path e → c ∈ pathsCalls hard tag items prio := by
  induction prio with
  | nil => intro items path e c hp; simp at hp
  | cons q rest ih =>
    intro items path e c hp he hc
    simp only [pathsCalls, List.mem_append]
    by_cases hq : q = path
    · left
      subst hq
      exact List.mem_flatMap.mpr ⟨e, he, hc⟩
    · right
      have hp1 : path ∈ rest := by
        rcases List.mem_cons.mp hp with h | h
        · exact absurd h.symm hq
        · exact h
      apply ih _ path e c hp1 _ hc
      rw [Function.update_noteq (Ne.symm hq)]
      exact he

theorem pathsCalls_soft_is_patch (tag : Tag) (prio : List String) :
    ∀ items, ∀ c ∈ pathsCalls false tag items prio, ∃ kind id tags, c = RemoteCall.Patch kind id tags := by
  induction prio with
  | nil => intro items c hc; simp [pathsCalls] at hc
  | cons q rest ih =>
    intro items c hc
    simp only [pathsCalls, List.mem_append] at hc
    rcases hc with hc | hc
    · obtain ⟨e, _, hce⟩ := List.mem_flatMap.mp hc
      simp only [itemCalls, Bool.false_eq_true, if_false, softDeleteCalls] at hce
      split at hce
      · simp at hce
      · split at hce
        · exact ⟨_, _, _, List.mem_singleton.mp hce⟩
        · simp at hce
    · exact ih _ c hc

theorem pathsCalls_soft_all_tagged (tag : Tag) (prio : List String) :
    ∀ items, (∀ path ∈ prio, ∀ e ∈ items path, e.2.obj.HasTag tag = true) →
      pathsCalls false tag items prio = [] := by
  induction prio with
  | nil => intro items _; simp [pathsCalls]
  | cons q rest ih =>
    intro items h
    have hq : ∀ e ∈ items q, e.2.obj.HasTag tag = true := h q (List.mem_cons_self _ _)
    have hafter : (items q).map (itemAfter false tag) = items q := by
      conv_rhs => rw [← List.map_id (items q)]
      apply List.map_congr_left
      intro e he
      simp [itemAfter, NetboxObject.AddTag, hq e he]
    have hcalls : (items q).flatMap (itemCalls false tag q) = [] := by
      rw [List.flatMap_eq_nil_iff]
      intro e he
      simp [itemCalls, softDeleteCalls, hq e he]
    simp only [pathsCalls, hafter, hcalls, Function.update_eq_self, List.nil_append]
    exact ih items fun path hp => h path (List.mem_cons_of_mem _ hp)

theorem hardCalls_nodup (prio : List String) (items : String → List (Int × OrphanItem))
    (hprio : prio.Nodup) (hkeys : ∀ path, ((items path).map Prod.fst).Nodup) :
    (prio.flatMap fun path => (items path).map fun e => RemoteCall.Delete path e.1).Nodup := by
  rw [List.nodup_flatMap]
  constructor
  · intro path _
    have h := (hkeys path).map (f := fun id => RemoteCall.Delete path id)
      (fun a b hab => by injection hab)
    simpa [List.map_map] using h
  · refine List.Pairwise.imp ?_ hprio
    intro a b hab c hca hcb
    obtain ⟨e1, _, h1⟩ := List.mem_map.mp hca
    obtain ⟨e2, _, h2⟩ := List.mem_map.mp hcb
    rw [← h2] at h1
    injection h1 with hp _
    exact hab hp

theorem hardCalls_mem_iff (prio : List String) (items : String → List (Int × OrphanItem))
    (path : String) (id : Int) :
    RemoteCall.Delete path id ∈
        (prio.flatMap fun q => (items q).map fun e => RemoteCall.Delete q e.1) ↔
      path ∈ prio ∧ id ∈ (items path).map Prod.fst := by
  constructor
  · intro h
    obtain ⟨q, hq, hc⟩ := List.mem_flatMap.mp h
    obtain ⟨e, he, hce⟩ := List.mem_map.mp hc
    injection hce with h1 h2
    subst h1
    exact ⟨hq, List.mem_map.mpr ⟨e, he, h2⟩⟩
  · rintro ⟨hp, hid⟩
    obtain ⟨e, he, hfst⟩ := List.mem_map.mp hid
    exact List.mem_flatMap.mpr ⟨path, hp, List.mem_map.mpr ⟨e, he, by rw [hfst]⟩⟩

/-- C2: in hard mode, when `OrphanObjectPriority` lists every path once,
`DeleteOrphans` makes exactly the calls `Delete(path, id)` for the ids stored
under the listed paths, path by path in the order of the list (within a path
in the order in which the map is visited): each such call is made exactly
once, every call for an earlier path precedes every call for a later path, and
no `Patch` is made. -/
theorem DeleteOrphans_hard_deletes_each_orphan_once (remote : Remote) (nbi : OrphanInventory)
    (hprio : nbi.OrphanManager.OrphanObjectPriority.Nodup)
    (hkeys : ∀ path, ((nbi.OrphanManager.Items path).map Prod.fst).Nodup) :
    (DeleteOrphans remote nbi true).calls =
      (nbi.OrphanManager.OrphanObjectPriority.flatMap fun path =>
        (nbi.OrphanManager.Items path).map fun e => RemoteCall.Delete path e.1) ∧
    (∀ path ∈ nbi.OrphanManager.OrphanObjectPriority, ∀ e ∈ nbi.OrphanManager.Items path,
      (DeleteOrphans remote nbi true).calls.count (RemoteCall.Delete path e.1) = 1) ∧
    (∀ l1 p l2 q l3, nbi.OrphanManager.OrphanObjectPriority = l1 ++ p :: (l2 ++ q :: l3) →
      ∀ e1 ∈ nbi.OrphanManager.Items p, ∀ e2 ∈ nbi.OrphanManager.Items q,
        (DeleteOrphans remote nbi true).calls.indexOf (RemoteCall.Delete p e1.1) <
          (DeleteOrphans remote nbi true).calls.indexOf (RemoteCall.Delete q e2.1)) ∧
    (∀ kind id tags, RemoteCall.Patch kind id tags ∉ (DeleteOrphans remote nbi true).calls) := by
  have hcalls := (DeleteOrphans_calls remote nbi true).trans
    (pathsCalls_hard nbi.OrphanManager.Tag nbi.OrphanManager.OrphanObjectPriority
      nbi.OrphanManager.Items)
  have hnodup := hardCalls_nodup _ _ hprio hkeys
  refine ⟨hcalls, ?_, ?_, ?_⟩
  · intro path hp e he
    rw [hcalls]
    apply List.count_eq_one_of_mem hnodup
    exact (hardCalls_mem_iff _ _ _ _).mpr ⟨hp, List.mem_map.mpr ⟨e, he, rfl⟩⟩
  · intro l1 p l2 q l3 hsplit e1 he1 e2 he2
    rw [hcalls, hsplit]
    rw [hsplit] at hprio
    have hq1 : q ∉ l1 := by
      intro hq
      have := (List.nodup_append.mp hprio).2.2 hq
      exact this (by simp)
    have hqp : q ≠ p := by
      intro hq
      have h2 := (List.nodup_cons.mp (List.nodup_append.mp hprio).2.1).1
      exact h2 (by simp [hq])
    rw [List.flatMap_append, List.flatMap_cons, ← List.append_assoc]
    have hin : RemoteCall.Delete p e1.1 ∈
        (l1.flatMap fun path => (nbi.OrphanManager.Items path).map fun e => RemoteCall.Delete path e.1)
          ++ (nbi.OrphanManager.Items p).map fun e => RemoteCall.Delete p e.1 :=
      List.mem_append_right _ (List.mem_map.mpr ⟨e1, he1, rfl⟩)
    have hout : RemoteCall.Delete q e2.1 ∉
        (l1.flatMap fun path => (nbi.OrphanManager.Items path).map fun e => RemoteCall.Delete path e.1)
          ++ (nbi.OrphanManager.Items p).map fun e => RemoteCall.Delete p e.1 := by
      intro h
      rcases List.mem_append.mp h with h | h
      · exact hq1 ((hardCalls_mem_iff _ _ _ _).mp h).1
      · obtain ⟨e, _, hce⟩ := List.mem_map.mp h
        injection hce with h1 _
        exact hqp h1.symm
    rw [List.indexOf_append_of_mem hin, List.indexOf_append_of_not_mem hout]
    have := List.indexOf_lt_length.mpr hin
    omega
  · intro kind id tags h
    rw [hcalls] at h
    obtain ⟨q, _, hc⟩ := List.mem_flatMap.mp h
    obtain ⟨e, _, hce⟩ := List.mem_map.mp hc
    cases hce

/-- Witness for `DeleteOrphans_hard_deletes_each_orphan_once`: the sample
orphan set, deleted on a Remote that fails every call. -/
theorem DeleteOrphans_hard_deletes_each_orphan_once_witness :
    (DeleteOrphans failingRemote sampleUntagged true).calls =
      [ .Delete "/api/dcim/devices/" 7, .Delete "/api/dcim/devices/" 8,
        .Delete "/api/tenancy/tenants/" 3, .Delete "/api/tenancy/contact-groups/" 4,
        .Delete "/api/tenancy/contact-roles/" 5 ] :=
  (DeleteOrphans_hard_deletes_each_orphan_once failingRemote sampleUntagged (by decide)
    (by
      intro path
      simp only [sampleUntagged]
      split_ifs <;> decide)).1.trans (by decide)

/-- C3: whatever the Remote answers, in hard and in soft mode, `DeleteOrphans`
returns no error and makes the same calls as on any other Remote, so a failed
call changes nothing in what is attempted afterwards: in hard mode a `Delete`
is attempted for every id under a listed path, in soft mode a `Patch` for
every item under a listed path that lacks the orphan tag and whose type has a
`case` in `softDelete`. -/
theorem DeleteOrphans_returns_nil_and_attempts_every_orphan (remote : Remote)
    (nbi : OrphanInventory) (hard : Bool) :
    (DeleteOrphans remote nbi hard).err = none ∧
    (∀ remote1 : Remote,
      (DeleteOrphans remote1 nbi hard).calls = (DeleteOrphans remote nbi hard).calls) ∧
    (hard = true → ∀ path ∈ nbi.OrphanManager.OrphanObjectPriority,
      ∀ e ∈ nbi.OrphanManager.Items path,
        RemoteCall.Delete path e.1 ∈ (DeleteOrphans remote nbi hard).calls) ∧
    (hard = false → ∀ path ∈ nbi.OrphanManager.OrphanObjectPriority,
      ∀ e ∈ nbi.OrphanManager.Items path,
        e.2.obj.HasTag nbi.OrphanManager.Tag = false → patchCase e.2.kind = true →
        RemoteCall.Patch e.2.kind e.2.obj.ID (e.2.obj.Tags ++ [nbi.OrphanManager.Tag]) ∈
          (DeleteOrphans remote nbi hard).calls) := by
  refine ⟨rfl, ?_, ?_, ?_⟩
  · intro remote1
    rw [DeleteOrphans_calls, DeleteOrphans_calls]
  · intro hh path hp e he
    rw [DeleteOrphans_calls]
    exact pathsCalls_mem hard _ _ _ path e _ hp he (by simp [itemCalls, hh])
  · intro hh path hp e he htag hcase
    rw [DeleteOrphans_calls]
    exact pathsCalls_mem hard _ _ _ path e _ hp he
      (by simp [itemCalls, hh, softDeleteCalls, htag, hcase])

/-- Witness for `DeleteOrphans_returns_nil_and_attempts_every_orphan`: on a
Remote that fails every call, the second device of the sample is still
patched after the first. -/
theorem DeleteOrphans_returns_nil_and_attempts_every_orphan_witness :
    (DeleteOrphans failingRemote sampleUntagged false).err = none ∧
    RemoteCall.Patch .Device 8 [sampleSsotTag, sampleOrphanTag] ∈
      (DeleteOrphans failingRemote sampleUntagged false).calls :=
  let h := DeleteOrphans_returns_nil_and_attempts_every_orphan failingRemote sampleUntagged false
  ⟨h.1, h.2.2.2 rfl "/api/dcim/devices/" (by decide)
    (8, ⟨.Device, { ID := 8, Tags := [sampleSsotTag], Description := "", CustomFields := [] }⟩)
    (by decide) (by decide) (by decide)⟩

theorem patchBodies_append (kind : OrphanKind) (id : Int) (l1 l2 : List RemoteCall) :
    patchBodies kind id (l1 ++ l2) = patchBodies kind id l1 ++ patchBodies kind id l2 := by
  simp [patchBodies, List.filterMap_append]

theorem patchBodies_softDeleteCalls_other (tag : Tag) (kind : OrphanKind) (id : Int)
    (item : OrphanItem) (hne : (item.kind, item.obj.ID) ≠ (kind, id)) :
    patchBodies kind id (softDeleteCalls tag item) = [] := by
  unfold softDeleteCalls
  split
  · rfl
  · split
    · have h : ¬ (item.kind = kind ∧ item.obj.ID = id) := fun h => hne (by rw [h.1, h.2])
      simp [patchBodies, h]
    · rfl

theorem patchBodies_softDeleteCalls_self (tag : Tag) (item : OrphanItem) :
    patchBodies item.kind item.obj.ID (softDeleteCalls tag item) =
      if item.obj.HasTag tag then []
      else if patchCase item.kind then [item.obj.Tags ++ [tag]] else [] := by
  unfold softDeleteCalls
  split
  · rfl
  · split
    · simp [patchBodies]
    · rfl

theorem patchBodies_flatMap_of_nodup (tag : Tag) (l : List OrphanItem) :
    (l.map fun it => (it.kind, it.obj.ID)).Nodup → ∀ item ∈ l,
      patchBodies item.kind item.obj.ID (l.flatMap (softDeleteCalls tag)) =
        patchBodies item.kind item.obj.ID (softDeleteCalls tag item) := by
  induction l with
  | nil => intro _ item h; simp at h
  | cons x xs ih =>
    intro hnd item hmem
    rw [List.map_cons, List.nodup_cons] at hnd
    rw [List.flatMap_cons, patchBodies_append]
    rcases List.mem_cons.mp hmem with h | h
    · subst h
      have hxs : patchBodies item.kind item.obj.ID (xs.flatMap (softDeleteCalls tag)) = [] := by
        have hall : ∀ ys : List OrphanItem, (∀ y ∈ ys, (y.kind, y.obj.ID) ≠ (item.kind, item.obj.ID)) →
            patchBodies item.kind item.obj.ID (ys.flatMap (softDeleteCalls tag)) = [] := by
          intro ys
          induction ys with
          | nil => intro _; rfl
          | cons y ys ihy =>
            intro hy
            rw [List.flatMap_cons, patchBodies_append,
              patchBodies_softDeleteCalls_other tag _ _ y (hy y (List.mem_cons_self _ _)),
              ihy fun z hz => hy z (List.mem_cons_of_mem _ hz)]
            rfl
        apply hall
        intro y hy heq
        exact hnd.1 (List.mem_map.mpr ⟨y, hy, heq⟩)
      rw [hxs, List.append_nil]
    · have hne : (x.kind, x.obj.ID) ≠ (item.kind, item.obj.ID) := by
        intro heq
        exact hnd.1 (List.mem_map.mpr ⟨item, h, heq.symm⟩)
      rw [patchBodies_softDeleteCalls_other tag _ _ x hne, ih hnd.2 item h]
      rfl

theorem softCalls_eq_listedItems (om : OrphanManager) :
    (om.OrphanObjectPriority.flatMap fun path =>
        (om.Items path).flatMap (itemCalls false om.Tag path)) =
      (listedItems om).flatMap (softDeleteCalls om.Tag) := by
  unfold listedItems
  rw [List.flatMap_assoc]
  apply List.flatMap_congr
  intro path _
  rw [List.flatMap_map]
  rfl

/-- C4 (counterexample): in soft mode the tenant, the contact group and the
contact role of the sample orphan set, none of which carries the orphan tag,
get no `Patch`; the only calls are the `Patch` calls for the two devices. -/
theorem DeleteOrphans_soft_skips_tenant_counterexample :
    (DeleteOrphans okRemote sampleUntagged false).calls =
      [ .Patch .Device 7 [sampleSsotTag, sampleOrphanTag],
        .Patch .Device 8 [sampleSsotTag, sampleOrphanTag] ] ∧
    sampleUntagged.OrphanManager.Items "/api/tenancy/tenants/" =
      [(3, ⟨.Tenant, { ID := 3, Tags := [sampleSsotTag], Description := "", CustomFields := [] }⟩)] ∧
    "/api/tenancy/tenants/" ∈ sampleUntagged.OrphanManager.OrphanObjectPriority ∧
    NetboxObject.HasTag { ID := 3, Tags := [sampleSsotTag], Description := "", CustomFields := [] }
      sampleUntagged.OrphanManager.Tag = false ∧
    patchBodies .Tenant 3 (DeleteOrphans okRemote sampleUntagged false).calls = [] ∧
    patchBodies .ContactGroup 4 (DeleteOrphans okRemote sampleUntagged false).calls = [] ∧
    patchBodies .ContactRole 5 (DeleteOrphans okRemote sampleUntagged false).calls = [] := by
  decide

/-- C4 (amended): in soft mode, when `OrphanObjectPriority` lists every path
once and the items under the listed paths are distinct objects (no two share
type and id), an item under a listed path that lacks the orphan tag gets
exactly one `Patch`, for its own id and with its tag list followed by the
orphan tag as body, if its type is one of the twenty with a `case` in the type
switch of `softDelete`; an item of any other type (Tenant, TenantGroup,
ContactGroup, ContactRole) gets no `Patch`. -/
theorem DeleteOrphans_soft_patches_supported_types_once (remote : Remote) (nbi : OrphanInventory)
    (hprio : nbi.OrphanManager.OrphanObjectPriority.Nodup)
    (hids : ((listedItems nbi.OrphanManager).map fun it => (it.kind, it.obj.ID)).Nodup)
    (path : String) (hpath : path ∈ nbi.OrphanManager.OrphanObjectPriority)
    (e : Int × OrphanItem) (he : e ∈ nbi.OrphanManager.Items path)
    (htag : e.2.obj.HasTag nbi.OrphanManager.Tag = false) :
    (patchCase e.2.kind = true →
      patchBodies e.2.kind e.2.obj.ID (DeleteOrphans remote nbi false).calls =
        [e.2.obj.Tags ++ [nbi.OrphanManager.Tag]]) ∧
    (patchCase e.2.kind = false →
      patchBodies e.2.kind e.2.obj.ID (DeleteOrphans remote nbi false).calls = []) := by
  have hmem : e.2 ∈ listedItems nbi.OrphanManager :=
    List.mem_flatMap.mpr ⟨path, hpath, List.mem_map.mpr ⟨e, he, rfl⟩⟩
  have hcalls : patchBodies e.2.kind e.2.obj.ID (DeleteOrphans remote nbi false).calls =
      if patchCase e.2.kind then [e.2.obj.Tags ++ [nbi.OrphanManager.Tag]] else [] := by
    rw [DeleteOrphans_calls, pathsCalls_of_nodup false _ _ hprio, softCalls_eq_listedItems,
      patchBodies_flatMap_of_nodup _ _ hids _ hmem, patchBodies_softDeleteCalls_self, htag]
    simp
  constructor
  · intro hcase
    rw [hcalls, hcase]
    rfl
  · intro hcase
    rw [hcalls, hcase]
    rfl

/-- Witness for `DeleteOrphans_soft_patches_supported_types_once`: device 7 of
the sample orphan set. -/
theorem DeleteOrphans_soft_patches_supported_types_once_witness :
    patchBodies .Device 7 (DeleteOrphans failingRemote sampleUntagged false).calls =
      [[sampleSsotTag, sampleOrphanTag]] :=
  (DeleteOrphans_soft_patches_supported_types_once failingRemote sampleUntagged (by decide)
    (by decide) "/api/dcim/devices/" (by decide)
    (7, ⟨.Device, { ID := 7, Tags := [sampleSsotTag], Description := "", CustomFields := [] }⟩)
    (by decide) (by decide)).1 (by decide)

theorem pathsCalls_soft_origin (tag : Tag) (prio : List String) :
    ∀ items, ∀ c ∈ pathsCalls false tag items prio, ∃ path ∈ prio, ∃ e ∈ items path,
      e.2.obj.HasTag tag = false ∧ patchCase e.2.kind = true ∧
      c = RemoteCall.Patch e.2.kind e.2.obj.ID (e.2.obj.Tags ++ [tag]) := by
  induction prio with
  | nil => intro items c hc; simp [pathsCalls] at hc
  | cons q rest ih =>
    intro items c hc
    simp only [pathsCalls, List.mem_append] at hc
    rcases hc with hc | hc
    · obtain ⟨e, he, hce⟩ := List.mem_flatMap.mp hc
      refine ⟨q, List.mem_cons_self _ _, e, he, ?_⟩
      simp only [itemCalls, Bool.false_eq_true, if_false, softDeleteCalls] at hce
      cases htag : e.2.obj.HasTag tag with
      | true => simp [htag] at hce
      | false =>
        cases hcase : patchCase e.2.kind with
        | false => simp [htag, hcase] at hce
        | true =>
          simp only [htag, hcase, Bool.false_eq_true, if_false, if_true,
            List.mem_singleton] at hce
          exact ⟨rfl, rfl, hce⟩
    · obtain ⟨path, hp, e, he, htag, hcase, hc2⟩ := ih _ c hc
      by_cases hq : path = q
      · subst hq
        rw [Function.update_same] at he
        obtain ⟨e0, _, rfl⟩ := List.mem_map.mp he
        simp only [itemAfter, Bool.false_eq_true, if_false] at htag
        rw [HasTag_AddTag] at htag
        cases htag
      · rw [Function.update_noteq hq] at he
        exact ⟨path, List.mem_cons_of_mem _ hp, e, he, htag, hcase, hc2⟩

/-- C5 (counterexample): under `removeOrphansAfterDays = 5`, a device that
already carries the orphan tag and was last seen long ago is not deleted in
soft mode: `DeleteOrphans(false)` makes no Remote call. -/
theorem DeleteOrphans_soft_no_promotion_counterexample :
    sampleTagged.NetboxConfig.RemoveOrphansAfterDays = 5 ∧
    (DeleteOrphans okRemote sampleTagged false).calls = [] ∧
    RemoteCall.Delete "/api/dcim/devices/" 7 ∉ (DeleteOrphans okRemote sampleTagged false).calls := by
  decide

/-- C5 (amended): in soft mode `DeleteOrphans` never calls `Delete`, whatever
`removeOrphansAfterDays` is and whatever the orphan set holds, and when every
item under a listed path carries the orphan tag already it makes no call at
all.  Every call it makes is a `Patch` that adds the orphan tag: it is made
for an item under a listed path that lacks the tag, and its body is the tag
list of that item followed by the orphan tag.  An orphan under a listed path
that carries the tag already gets no call, neither a `Delete` nor a `Patch`
(no `Patch` carries its type and id, unless an untagged item under a listed
path has the same type and id). -/
theorem DeleteOrphans_soft_never_deletes (remote : Remote) (nbi : OrphanInventory) :
    (∀ path id, RemoteCall.Delete path id ∉ (DeleteOrphans remote nbi false).calls) ∧
    ((∀ path ∈ nbi.OrphanManager.OrphanObjectPriority, ∀ e ∈ nbi.OrphanManager.Items path,
        e.2.obj.HasTag nbi.OrphanManager.Tag = true) →
      (DeleteOrphans remote nbi false).calls = []) ∧
    (∀ c ∈ (DeleteOrphans remote nbi false).calls,
      ∃ path ∈ nbi.OrphanManager.OrphanObjectPriority, ∃ e ∈ nbi.OrphanManager.Items path,
        e.2.obj.HasTag nbi.OrphanManager.Tag = false ∧ patchCase e.2.kind = true ∧
        c = RemoteCall.Patch e.2.kind e.2.obj.ID (e.2.obj.Tags ++ [nbi.OrphanManager.Tag])) ∧
    (∀ path ∈ nbi.OrphanManager.OrphanObjectPriority, ∀ e ∈ nbi.OrphanManager.Items path,
      e.2.obj.HasTag nbi.OrphanManager.Tag = true →
      (∀ q ∈ nbi.OrphanManager.OrphanObjectPriority, ∀ e1 ∈ nbi.OrphanManager.Items q,
        e1.2.obj.HasTag nbi.OrphanManager.Tag = false →
        ¬ (e1.2.kind = e.2.kind ∧ e1.2.obj.ID = e.2.obj.ID)) →
      (∀ tags, RemoteCall.Patch e.2.kind e.2.obj.ID tags ∉
        (DeleteOrphans remote nbi false).calls) ∧
      RemoteCall.Delete path e.1 ∉ (DeleteOrphans remote nbi false).calls) := by
  have hdel : ∀ path id, RemoteCall.Delete path id ∉ (DeleteOrphans remote nbi false).calls := by
    intro path id h
    rw [DeleteOrphans_calls] at h
    obtain ⟨kind, i, tags, hc⟩ := pathsCalls_soft_is_patch _ _ _ _ h
    cases hc
  have horigin : ∀ c ∈ (DeleteOrphans remote nbi false).calls,
      ∃ path ∈ nbi.OrphanManager.OrphanObjectPriority, ∃ e ∈ nbi.OrphanManager.Items path,
        e.2.obj.HasTag nbi.OrphanManager.Tag = false ∧ patchCase e.2.kind = true ∧
        c = RemoteCall.Patch e.2.kind e.2.obj.ID
          (e.2.obj.Tags ++ [nbi.OrphanManager.Tag]) := by
    intro c hc
    rw [DeleteOrphans_calls] at hc
    exact pathsCalls_soft_origin _ _ _ c hc
  refine ⟨hdel, ?_, horigin, ?_⟩
  · intro hall
    rw [DeleteOrphans_calls]
    exact pathsCalls_soft_all_tagged _ _ _ hall
  · intro path _ e _ _ hdistinct
    refine ⟨?_, hdel path e.1⟩
    intro tags hmem
    obtain ⟨q, hq, e1, he1, htag1, _, hc⟩ := horigin _ hmem
    injection hc with hk hi _
    exact hdistinct q hq e1 he1 htag1 ⟨hk.symm, hi.symm⟩

/-- Witness for `DeleteOrphans_soft_never_deletes`: the sample orphan set whose
only item carries the orphan tag gets no call; in the set with a tagged and
an untagged device, the tagged device 7 gets no `Patch`. -/
theorem DeleteOrphans_soft_never_deletes_witness :
    (DeleteOrphans failingRemote sampleTagged false).calls = [] ∧
    (∀ tags, RemoteCall.Patch .Device 7 tags ∉
      (DeleteOrphans failingRemote sampleMixed false).calls) :=
  ⟨(DeleteOrphans_soft_never_deletes failingRemote sampleTagged).2.1
    (by
      intro path hpath e he
      simp only [sampleTagged, List.mem_singleton] at hpath
      subst hpath
      simp only [sampleTagged, if_true, List.mem_singleton] at he
      subst he
      decide),
   ((DeleteOrphans_soft_never_deletes failingRemote sampleMixed).2.2.2 "/api/dcim/devices/"
      (by decide)
      (7, ⟨.Device, { ID := 7, Tags := [sampleSsotTag, sampleOrphanTag], Description := "",
                      CustomFields := [("last_seen", "2001-01-01")] }⟩)
      (by decide) (by decide)
      (by
        intro q hq e1 he1
        simp only [sampleMixed, List.mem_singleton] at hq
        subst hq
        simp only [sampleMixed, if_true, List.mem_cons, List.mem_singleton, List.not_mem_nil,
          or_false] at he1
        rcases he1 with he1 | he1 <;> subst he1 <;> decide)).1⟩

/-! ## Properties of the relation matchers -/

theorem MatchStringToValue_no_match (MatchString : String → String → Except String Bool)
    (input : String) (relations : List (String × String))
    (hno : ∀ e ∈ relations, MatchString e.1 input = .ok false) :
    MatchStringToValue MatchString input relations = .ok "" := by
  induction relations with
  | nil => rfl
  | cons e rest ih =>
    obtain ⟨regex, value⟩ := e
    have h1 : MatchString regex input = .ok false := hno (regex, value) (List.mem_cons_self _ _)
    simp only [MatchStringToValue, h1]
    exact ih fun e he => hno e (List.mem_cons_of_mem _ he)

/-- C6 (failing input): the relations `.*Stark = Stark Industries`,
`.* = Default` reach the helpers as a map with the two entries; a `range` loop
that visits the entry `.*` first makes the matcher return `Default` for the
input `Tony Stark`, whereas the first matching pattern in declaration order
has the value `Stark Industries`. -/
theorem MatchStringToValue_follows_map_order_not_declaration :
    ConvertStringsToRegexPairs [".*Stark = Stark Industries", ".* = Default"] =
      [(".*Stark", "Stark Industries"), (".*", "Default")] ∧
    List.Perm [(".*", "Default"), (".*Stark", "Stark Industries")]
      (ConvertStringsToRegexPairs [".*Stark = Stark Industries", ".* = Default"]) ∧
    MatchStringToValue regexpMatchString "Tony Stark"
      [(".*", "Default"), (".*Stark", "Stark Industries")] = .ok "Default" ∧
    firstMatchInDeclarationOrder regexpMatchString "Tony Stark"
      [".*Stark = Stark Industries", ".* = Default"] = .ok "Stark Industries" ∧
    (MatchClusterToTenant sampleEnv sampleInventory "Tony Stark"
      (some [(".*", "Default"), (".*Stark", "Stark Industries")])).value =
      some { NetboxObject := { NetboxObject.zero with ID := 1 }, Name := "Default", Slug := "default" } := by
  decide

/-- No function of the map alone returns the first match in declaration
order: the two orders of declaring `.*Stark = Stark Industries` and
`.* = Default` yield the same map up to the order of visit, and demand
different answers for `Tony Stark`. -/
theorem no_map_matcher_follows_declaration_order
    (m : List (String × String) → String → Except String String)
    (hmap : ∀ l1 l2 : List (String × String), l1.Perm l2 → m l1 = m l2) :
    ¬ ∀ (declared : List String) (input : String),
        m (ConvertStringsToRegexPairs declared) input =
          firstMatchInDeclarationOrder regexpMatchString input declared := by
  intro h
  have h1 := h [".*Stark = Stark Industries", ".* = Default"] "Tony Stark"
  have h2 := h [".* = Default", ".*Stark = Stark Industries"] "Tony Stark"
  have hperm : List.Perm (ConvertStringsToRegexPairs [".*Stark = Stark Industries", ".* = Default"])
      (ConvertStringsToRegexPairs [".* = Default", ".*Stark = Stark Industries"]) := by decide
  rw [hmap _ _ hperm, h2] at h1
  revert h1
  decide

/-- C7: with a `nil` relation table each of `MatchClusterToTenant`,
`MatchVlanToTenant`, `MatchHostToTenant`, `MatchVMToTenant`, `MatchHostToRole`
and `MatchVMToRole` returns `nil` and no error, makes no call on the inventory
and leaves it as it is, for every name. -/
theorem Match_with_nil_relations_returns_nil {σ : Type} (env : MatchEnv σ) (nbi : σ)
    (name : String) :
    (∀ f ∈ [MatchClusterToTenant env, MatchVlanToTenant env, MatchHostToTenant env,
        MatchVMToTenant env],
      (f nbi name none).value = none ∧ (f nbi name none).err = none ∧
      (f nbi name none).calls = [] ∧ (f nbi name none).nbi = nbi) ∧
    (∀ f ∈ [MatchHostToRole env, MatchVMToRole env],
      (f nbi name none).value = none ∧ (f nbi name none).err = none ∧
      (f nbi name none).calls = [] ∧ (f nbi name none).nbi = nbi) := by
  constructor
  · intro f hf
    simp only [List.mem_cons, List.mem_singleton, List.not_mem_nil, or_false] at hf
    rcases hf with rfl | rfl | rfl | rfl <;> exact ⟨rfl, rfl, rfl, rfl⟩
  · intro f hf
    simp only [List.mem_cons, List.mem_singleton, List.not_mem_nil, or_false] at hf
    rcases hf with rfl | rfl <;> exact ⟨rfl, rfl, rfl, rfl⟩

/-- Witness for `Match_with_nil_relations_returns_nil`: on the sample
inventory, a cluster and a host are matched against `nil` tables. -/
theorem Match_with_nil_relations_returns_nil_witness :
    (MatchClusterToTenant sampleEnv sampleInventory "Tony Stark" none).value = none ∧
    (MatchHostToRole sampleEnv sampleInventory "esx-01" none).calls = [] :=
  ⟨((Match_with_nil_relations_returns_nil sampleEnv sampleInventory "Tony Stark").1
      (MatchClusterToTenant sampleEnv) (by simp)).1,
   ((Match_with_nil_relations_returns_nil sampleEnv sampleInventory "esx-01").2
      (MatchHostToRole sampleEnv) (by simp)).2.2.1⟩

/-- C8 (counterexample): on an inventory that indexes the default site,
`MatchClusterToSite` returns `nil`, not the default site, both with a `nil`
relation table and with a table none of whose patterns matches the name. -/
theorem MatchClusterToSite_returns_nil_counterexample :
    (sampleEnv.GetSite sampleInventory sampleEnv.DefaultSite).1 =
      some { NetboxObject := { NetboxObject.zero with ID := 2 }, Name := "DefaultSite",
             Slug := "defaultsite" } ∧
    (MatchClusterToSite sampleEnv sampleInventory "Cluster_NYC" none).value = none ∧
    regexpMatchString "Cluster_FFM.*" "Cluster_NYC" = .ok false ∧
    (MatchClusterToSite sampleEnv sampleInventory "Cluster_NYC"
      (some [("Cluster_FFM.*", "Frankfurt")])).value = none := by
  decide

/-- C8 (amended): when its relation table is not `nil` and no pattern of the
table matches the name, `MatchHostToSite` returns with no error the site
that `GetSite(constants.DefaultSite)` yields, after this one call on the
inventory; `MatchClusterToSite` returns `nil` with no error and without a call
on the inventory both when its table is `nil` and when no pattern
matches. -/
theorem Match_to_site_without_match {σ : Type} (env : MatchEnv σ) (nbi : σ) (name : String) :
    (∀ relations : List (String × String),
      (∀ e ∈ relations, env.MatchString e.1 name = .ok false) →
      (MatchHostToSite env nbi name (some relations)).value = (env.GetSite nbi env.DefaultSite).1 ∧
      (MatchHostToSite env nbi name (some relations)).err = none ∧
      (MatchHostToSite env nbi name (some relations)).calls = [.GetSite env.DefaultSite] ∧
      (MatchHostToSite env nbi name (some relations)).nbi = nbi) ∧
    ((MatchClusterToSite env nbi name none).value = none ∧
      (MatchClusterToSite env nbi name none).err = none ∧
      (MatchClusterToSite env nbi name none).calls = [] ∧
      (MatchClusterToSite env nbi name none).nbi = nbi) ∧
    (∀ relations : List (String × String),
      (∀ e ∈ relations, env.MatchString e.1 name = .ok false) →
      (MatchClusterToSite env nbi name (some relations)).value = none ∧
      (MatchClusterToSite env nbi name (some relations)).err = none ∧
      (MatchClusterToSite env nbi name (some relations)).calls = [] ∧
      (MatchClusterToSite env nbi name (some relations)).nbi = nbi) := by
  refine ⟨?_, ⟨rfl, rfl, rfl, rfl⟩, ?_⟩
  · intro relations hno
    have hm := MatchStringToValue_no_match env.MatchString name relations hno
    simp [MatchHostToSite, hm]
  · intro relations hno
    have hm := MatchStringToValue_no_match env.MatchString name relations hno
    simp [MatchClusterToSite, hm]

/-- Witness for `Match_to_site_without_match`: a host that the only relation
does not match gets the default site of the sample inventory. -/
theorem Match_to_site_without_match_witness :
    (MatchHostToSite sampleEnv sampleInventory "esx-nyc-01"
      (some [("esx-ffm.*", "Frankfurt")])).value =
      some { NetboxObject := { NetboxObject.zero with ID := 2 }, Name := "DefaultSite",
             Slug := "defaultsite" } :=
  ((Match_to_site_without_match sampleEnv sampleInventory "esx-nyc-01").1
    [("esx-ffm.*", "Frankfurt")] (by decide)).1.trans (by decide)

/-- C9 (failing input): on an inventory that indexes the default VLAN group,
`MatchVlanToGroup` returns the default group for a `nil` table, but for the
table `prod.* = Prod`, which does not match the VLAN name `dev-vlan`, it
returns `nil` with no error and without looking the default group up. -/
theorem MatchVlanToGroup_no_match_returns_nil :
    (sampleEnv.GetVlanGroup sampleInventory sampleEnv.DefaultVlanGroupName).1 =
      some { NetboxObject := { NetboxObject.zero with ID := 3 }, Name := "DefaultVlanGroup",
             Slug := "defaultvlangroup", MinVid := 1, MaxVid := 4094 } ∧
    (MatchVlanToGroup sampleEnv sampleInventory "dev-vlan" none none).value =
      (sampleEnv.GetVlanGroup sampleInventory sampleEnv.DefaultVlanGroupName).1 ∧
    regexpMatchString "prod.*" "dev-vlan" = .ok false ∧
    (MatchVlanToGroup sampleEnv sampleInventory "dev-vlan" (some [("prod.*", "Prod")]) none).value =
      none ∧
    (MatchVlanToGroup sampleEnv sampleInventory "dev-vlan" (some [("prod.*", "Prod")]) none).err =
      none ∧
    (MatchVlanToGroup sampleEnv sampleInventory "dev-vlan" (some [("prod.*", "Prod")]) none).calls =
      [] := by
  decide

/-- C10: for a relation table that is not `nil`, each of `MatchClusterToTenant`,
`MatchVlanToTenant`, `MatchHostToTenant` and `MatchVMToTenant` behaves as
follows.  When the match yields a non-empty tenant name `t`: if `GetTenant(t)`
succeeds, the helper returns the tenant found, with no error and without
calling `AddTenant`; otherwise it calls `AddTenant` with the draft of name `t`
and slug `Slugify(t)` and returns the tenant that `AddTenant` produced, or,
if `AddTenant` fails, an error and no tenant.  When the match fails, the
helper returns an error and no tenant, without a call on the inventory. -/
theorem Match_to_tenant_gets_or_adds {σ : Type} (env : MatchEnv σ) (nbi : σ) (name : String)
    (relations : List (String × String)) :
    ∀ f ∈ [MatchClusterToTenant env, MatchVlanToTenant env, MatchHostToTenant env,
        MatchVMToTenant env],
      (∀ t, MatchStringToValue env.MatchString name relations = .ok t → t ≠ "" →
        (∀ tenant, env.GetTenant nbi t = (tenant, true) →
          (f nbi name (some relations)).value = tenant ∧
          (f nbi name (some relations)).err = none ∧
          (f nbi name (some relations)).calls = [.GetTenant t] ∧
          (f nbi name (some relations)).nbi = nbi) ∧
        (∀ x tenant nbi1, env.GetTenant nbi t = (x, false) →
          env.AddTenant nbi { Name := t, Slug := env.Slugify t } = (.ok tenant, nbi1) →
          (f nbi name (some relations)).value = tenant ∧
          (f nbi name (some relations)).err = none ∧
          (f nbi name (some relations)).calls =
            [.GetTenant t, .AddTenant { Name := t, Slug := env.Slugify t }] ∧
          (f nbi name (some relations)).nbi = nbi1) ∧
        (∀ x e nbi1, env.GetTenant nbi t = (x, false) →
          env.AddTenant nbi { Name := t, Slug := env.Slugify t } = (.error e, nbi1) →
          (f nbi name (some relations)).value = none ∧
          (f nbi name (some relations)).err = some ("add new tenant: " ++ e))) ∧
      (∀ e, MatchStringToValue env.MatchString name relations = .error e →
        (f nbi name (some relations)).value = none ∧
        (f nbi name (some relations)).err.isSome = true ∧
        (f nbi name (some relations)).calls = [] ∧
        (f nbi name (some relations)).nbi = nbi) := by
  intro f hf
  simp only [List.mem_cons, List.mem_singleton, List.not_mem_nil, or_false] at hf
  rcases hf with rfl | rfl | rfl | rfl
  all_goals
    refine ⟨fun t hm ht => ⟨fun tenant hg => ?_, fun x tenant nbi1 hg ha => ?_,
      fun x e nbi1 hg ha => ?_⟩, fun e hm => ?_⟩
  all_goals
    simp [MatchClusterToTenant, MatchVlanToTenant, MatchHostToTenant, MatchVMToTenant, *]

/-- Witness for `Match_to_tenant_gets_or_adds`: on the sample inventory, the
cluster `Tony Stark` is matched to the tenant `Stark Industries`, which is not
indexed yet and is added. -/
theorem Match_to_tenant_gets_or_adds_witness :
    (MatchClusterToTenant sampleEnv sampleInventory "Tony Stark"
      (some [(".*Stark", "Stark Industries"), (".*", "Default")])).value =
      some { NetboxObject := { NetboxObject.zero with ID := 4 }, Name := "Stark Industries",
             Slug := "stark-industries" } ∧
    (MatchClusterToTenant sampleEnv sampleInventory "Tony Stark"
      (some [(".*Stark", "Stark Industries"), (".*", "Default")])).calls =
      [.GetTenant "Stark Industries",
       .AddTenant { Name := "Stark Industries", Slug := "stark-industries" }] ∧
    (MatchHostToTenant sampleEnv sampleInventory "esx-01"
      (some [(".*Stark", "Stark Industries"), (".*", "Default")])).calls =
      [.GetTenant "Default"] ∧
    (MatchVMToTenant sampleEnvRejecting sampleInventory "Tony Stark"
      (some [(".*Stark", "Stark Industries")])).err = some "add new tenant: 400 Bad Request" ∧
    (MatchVlanToTenant sampleEnv sampleInventory "vlan" (some [("(", "x")])).err.isSome = true :=
  ⟨(((Match_to_tenant_gets_or_adds sampleEnv sampleInventory "Tony Stark"
      [(".*Stark", "Stark Industries"), (".*", "Default")] _ (by simp)).1
      "Stark Industries" (by decide) (by decide)).2.1 none
      (some { NetboxObject := { NetboxObject.zero with ID := 4 }, Name := "Stark Industries",
              Slug := "stark-industries" })
      { sampleInventory with
        tenants := sampleInventory.tenants ++
          [{ NetboxObject := { NetboxObject.zero with ID := 4 }, Name := "Stark Industries",
             Slug := "stark-industries" }],
        nextID := 5 } (by decide) (by decide)).1,
   (((Match_to_tenant_gets_or_adds sampleEnv sampleInventory "Tony Stark"
      [(".*Stark", "Stark Industries"), (".*", "Default")] _ (by simp)).1
      "Stark Industries" (by decide) (by decide)).2.1 none
      (some { NetboxObject := { NetboxObject.zero with ID := 4 }, Name := "Stark Industries",
              Slug := "stark-industries" })
      { sampleInventory with
        tenants := sampleInventory.tenants ++
          [{ NetboxObject := { NetboxObject.zero with ID := 4 }, Name := "Stark Industries",
             Slug := "stark-industries" }],
        nextID := 5 } (by decide) (by decide)).2.2.1,
   (((Match_to_tenant_gets_or_adds sampleEnv sampleInventory "esx-01"
      [(".*Stark", "Stark Industries"), (".*", "Default")] (MatchHostToTenant sampleEnv)
      (by simp)).1 "Default" (by decide) (by decide)).1
      (some { NetboxObject := { NetboxObject.zero with ID := 1 }, Name := "Default",
              Slug := "default" }) (by decide)).2.2.1,
   (((Match_to_tenant_gets_or_adds sampleEnvRejecting sampleInventory "Tony Stark"
      [(".*Stark", "Stark Industries")] (MatchVMToTenant sampleEnvRejecting) (by simp)).1
      "Stark Industries" (by decide) (by decide)).2.2 none "400 Bad Request" sampleInventory
      (by decide) (by decide)).2,
   ((Match_to_tenant_gets_or_adds sampleEnv sampleInventory "vlan" [("(", "x")]
      (MatchVlanToTenant sampleEnv) (by simp)).2 "error parsing regexp: (" (by decide)).2.1⟩

/-! ## Properties of `NewNetboxInventory` and `checkVersion` -/

theorem priorityGet_insert_self (k : String) (v : Int) (m : List (String × Int)) :
    priorityGet k (priorityInsert k v m) = some v := by
  induction m with
  | nil => simp [priorityInsert, priorityGet]
  | cons e rest ih =>
    obtain ⟨k1, v1⟩ := e
    by_cases h : k1 = k
    · simp [priorityInsert, priorityGet, h]
    · simp [priorityInsert, priorityGet, h, ih]

theorem priorityGet_insert_other (k k2 : String) (v : Int) (m : List (String × Int))
    (hne : k2 ≠ k) : priorityGet k2 (priorityInsert k v m) = priorityGet k2 m := by
  induction m with
  | nil => simp [priorityInsert, priorityGet, Ne.symm hne]
  | cons e rest ih =>
    obtain ⟨k1, v1⟩ := e
    by_cases h : k1 = k
    · subst h
      simp [priorityInsert, priorityGet, Ne.symm hne]
    · by_cases h2 : k1 = k2
      · subst h2
        simp [priorityInsert, priorityGet, hne]
      · simp [priorityInsert, priorityGet, h, h2, ih]

theorem sourcePriorityLoop_get (l : List String) (hd : l.Nodup) :
    ∀ (m : List (String × Int)) (i : Nat) (name : String),
      priorityGet name (sourcePriorityLoop m i l) =
        if name ∈ l then some ((i + l.indexOf name : Nat) : Int) else priorityGet name m := by
  induction l with
  | nil => intro m i name; simp [sourcePriorityLoop]
  | cons x xs ih =>
    intro m i name
    have hx : x ∉ xs := (List.nodup_cons.mp hd).1
    rw [sourcePriorityLoop, ih (List.nodup_cons.mp hd).2]
    by_cases hname : name = x
    · subst hname
      simp [hx, priorityGet_insert_self]
    · have hne : x ≠ name := fun h => hname h.symm
      by_cases hmem : name ∈ xs
      · simp [hmem, List.indexOf_cons_ne _ hne]
        omega
      · simp [hmem, hname, priorityGet_insert_other _ _ _ _ hname]

/-- C11: for a list `netbox.sourcePriority` of pairwise distinct names, the
table built by `NewNetboxInventory` maps the name at position `i` to `i`
(counted from zero) and has no other key, so that a name listed earlier has a
strictly lower number than one listed later and two different listed names
never have the same number. -/
theorem NewNetboxInventory_priority_is_position (sourcePriority : List String)
    (hd : sourcePriority.Nodup) :
    (∀ (i : Nat) (name : String), sourcePriority[i]? = some name →
      priorityGet name (NewNetboxInventory sourcePriority).SourcePriority = some (i : Int)) ∧
    (∀ name, name ∉ sourcePriority →
      priorityGet name (NewNetboxInventory sourcePriority).SourcePriority = none) ∧
    (∀ (i j : Nat) (a b : String), i < j →
      sourcePriority[i]? = some a → sourcePriority[j]? = some b →
      ∃ pa pb, priorityGet a (NewNetboxInventory sourcePriority).SourcePriority = some pa ∧
        priorityGet b (NewNetboxInventory sourcePriority).SourcePriority = some pb ∧ pa < pb) ∧
    (∀ a ∈ sourcePriority, ∀ b ∈ sourcePriority, a ≠ b →
      priorityGet a (NewNetboxInventory sourcePriority).SourcePriority ≠
        priorityGet b (NewNetboxInventory sourcePriority).SourcePriority) := by
  have hpos : ∀ (i : Nat) (name : String), sourcePriority[i]? = some name →
      priorityGet name (NewNetboxInventory sourcePriority).SourcePriority = some (i : Int) := by
    intro i name hi
    obtain ⟨hlt, hget⟩ := List.getElem?_eq_some.mp hi
    have hmem : name ∈ sourcePriority := hget ▸ List.getElem_mem hlt
    have hidx : sourcePriority.indexOf name = i := by
      rw [← hget]
      exact List.indexOf_getElem hd i hlt
    simp [NewNetboxInventory, sourcePriorityLoop_get _ hd, hmem, hidx]
  refine ⟨hpos, ?_, ?_, ?_⟩
  · intro name hname
    simp [NewNetboxInventory, sourcePriorityLoop_get _ hd, hname, priorityGet]
  · intro i j a b hij ha hb
    exact ⟨i, j, hpos i a ha, hpos j b hb, by exact_mod_cast hij⟩
  · intro a ha b hb hab
    obtain ⟨i, hi, hia⟩ := List.getElem_of_mem ha
    obtain ⟨j, hj, hjb⟩ := List.getElem_of_mem hb
    have h1 := hpos i a (by rw [List.getElem?_eq_getElem hi, hia])
    have h2 := hpos j b (by rw [List.getElem?_eq_getElem hj, hjb])
    rw [h1, h2]
    intro heq
    have hij : i = j := by exact_mod_cast Option.some.inj heq
    subst hij
    exact hab (hia.symm.trans hjb)

/-- Witness for `NewNetboxInventory_priority_is_position`: three sources. -/
theorem NewNetboxInventory_priority_is_position_witness :
    priorityGet "dnac" (NewNetboxInventory ["vmware", "dnac", "ovirt"]).SourcePriority = some 1 ∧
    priorityGet "proxmox" (NewNetboxInventory ["vmware", "dnac", "ovirt"]).SourcePriority = none :=
  ⟨(NewNetboxInventory_priority_is_position ["vmware", "dnac", "ovirt"] (by decide)).1 1 "dnac" rfl,
   (NewNetboxInventory_priority_is_position ["vmware", "dnac", "ovirt"] (by decide)).2.1 "proxmox"
     (by decide)⟩

theorem stringsSplit_head (sep : Char) (l : List Char) :
    (stringsSplit sep l).headD [] = l.takeWhile fun c => c ≠ sep := by
  induction l with
  | nil => rfl
  | cons c cs ih =>
    by_cases h : c = sep
    · subst h
      simp [stringsSplit, List.takeWhile]
    · have htw : (c :: cs).takeWhile (fun c => decide (c ≠ sep)) =
          c :: cs.takeWhile (fun c => decide (c ≠ sep)) := by
        simp [List.takeWhile, h]
      rw [htw, ← ih]
      simp only [stringsSplit, h, if_false]
      cases stringsSplit sep cs <;> rfl

theorem checkVersion_of_fetched (version : String) :
    checkVersion (.ok version) =
      match Atoi (String.mk (version.toList.takeWhile fun c => c ≠ '.')) with
      | .error err => some ("parse major version: " ++ err)
      | .ok majorVersion =>
        if majorVersion < 4 then
          some ("this version of netbox-ssot works only with netbox version > 4.x.x, but received version: "
            ++ version)
        else none := by
  simp only [checkVersion]
  rw [stringsSplit_head]

/-- C12: `checkVersion` returns no error if and only if fetching the version
succeeds and the part of the version before its first `.` (the whole version
when it has none) parses with `strconv.Atoi` to an integer that is at least
4; it returns an error when that integer is below 4, when that part does not
parse, and when fetching the version fails. -/
theorem checkVersion_ok_iff_major_at_least_4 (GetVersion : Except String String) :
    (checkVersion GetVersion = none ↔
      ∃ v n, GetVersion = .ok v ∧
        Atoi (String.mk (v.toList.takeWhile fun c => c ≠ '.')) = .ok n ∧ 4 ≤ n) ∧
    (∀ v n, GetVersion = .ok v →
      Atoi (String.mk (v.toList.takeWhile fun c => c ≠ '.')) = .ok n → n < 4 →
      (checkVersion GetVersion).isSome = true) ∧
    (∀ v e, GetVersion = .ok v →
      Atoi (String.mk (v.toList.takeWhile fun c => c ≠ '.')) = .error e →
      checkVersion GetVersion = some ("parse major version: " ++ e)) ∧
    (∀ e, GetVersion = .error e → checkVersion GetVersion = some ("get version: " ++ e)) := by
  cases GetVersion with
  | error err =>
    refine ⟨⟨fun h => ?_, fun h => ?_⟩, fun v n h => ?_, fun v e h => ?_, fun e h => ?_⟩
    · simp [checkVersion] at h
    · obtain ⟨v, n, h1, _⟩ := h
      cases h1
    · cases h
    · cases h
    · cases h
      rfl
  | ok version =>
    have hcv := checkVersion_of_fetched version
    cases hat : Atoi (String.mk (version.toList.takeWhile fun c => c ≠ '.')) with
    | error e =>
      rw [hat] at hcv
      refine ⟨⟨fun h => ?_, fun h => ?_⟩, fun v n h h2 => ?_, fun v e h h2 => ?_, fun e h => ?_⟩
      · rw [hcv] at h
        cases h
      · obtain ⟨v, n, h1, h2, _⟩ := h
        cases h1
        rw [hat] at h2
        cases h2
      · cases h
        rw [hat] at h2
        cases h2
      · cases h
        rw [hat] at h2
        cases h2
        exact hcv
      · cases h
    | ok major =>
      rw [hat] at hcv
      refine ⟨⟨fun h => ?_, fun h => ?_⟩, fun v n h h2 hlt => ?_, fun v e h h2 => ?_, fun e h => ?_⟩
      · refine ⟨version, major, rfl, hat, ?_⟩
        by_contra hlt
        rw [hcv] at h
        simp [not_le.mp hlt] at h
      · obtain ⟨v, n, h1, h2, h3⟩ := h
        cases h1
        rw [hat] at h2
        cases h2
        rw [hcv]
        simp [not_lt.mpr h3]
      · cases h
        rw [hat] at h2
        cases h2
        rw [hcv]
        simp [hlt]
      · cases h
        rw [hat] at h2
        cases h2
      · cases h

/-- Witness for `checkVersion_ok_iff_major_at_least_4`: the versions `4.1.7`
(accepted), `3.7.8` and `v4.0.0` (rejected), and a failed fetch. -/
theorem checkVersion_ok_iff_major_at_least_4_witness :
    checkVersion (.ok "4.1.7") = none ∧
    (checkVersion (.ok "3.7.8")).isSome = true ∧
    checkVersion (.ok "v4.0.0") = some "parse major version: invalid syntax" ∧
    checkVersion (.error "timeout") = some "get version: timeout" :=
  ⟨(checkVersion_ok_iff_major_at_least_4 (.ok "4.1.7")).1.mpr ⟨"4.1.7", 4, rfl, by decide, by decide⟩,
   (checkVersion_ok_iff_major_at_least_4 (.ok "3.7.8")).2.1 "3.7.8" 3 rfl (by decide) (by decide),
   (checkVersion_ok_iff_major_at_least_4 (.ok "v4.0.0")).2.2.1 "v4.0.0" "invalid syntax" rfl
     (by decide),
   (checkVersion_ok_iff_major_at_least_4 (.error "timeout")).2.2.2 "timeout" rfl⟩

/-! ## Properties of `internal/utils/networking.go` -/

theorem parseAddr16_of_dot (p q : String → Option (List Nat)) (s : String)
    (h : firstAddrMark s.toList = some '.') : parseAddr16 p s = parseAddr16 q s := by
  simp only [parseAddr16, h]

theorem MaskToBits_of_dot (p q : String → Option (List Nat)) (s : String)
    (h : firstAddrMark s.toList = some '.') : MaskToBits p s = MaskToBits q s := by
  simp only [MaskToBits, ParseIP, parseAddr16_of_dot p q s h]

/-- C17: for every `n` from 0 to 32, `MaskToBits` applied to the
dotted-decimal form of the IPv4 netmask with `n` leading one-bits returns `n`
and no error; in particular `255.255.255.128` gives 25. -/
theorem MaskToBits_of_netmask (parseIPv6 : String → Option (List Nat)) (n : Nat) (hn : n ≤ 32) :
    MaskToBits parseIPv6 (dottedMask n) = .ok (n : Int) ∧
    dottedMask 25 = "255.255.255.128" ∧
    MaskToBits parseIPv6 "255.255.255.128" = .ok 25 := by
  have hall : ∀ k ∈ List.range 33,
      firstAddrMark (dottedMask k).toList = some '.' ∧
        MaskToBits noIPv6 (dottedMask k) = .ok (k : Int) := by
    decide
  have hk := hall n (List.mem_range.mpr (by omega))
  have h25 := hall 25 (by decide)
  refine ⟨?_, by decide, ?_⟩
  · rw [MaskToBits_of_dot parseIPv6 noIPv6 _ hk.1]
    exact hk.2
  · have hs : dottedMask 25 = "255.255.255.128" := by decide
    rw [← hs, MaskToBits_of_dot parseIPv6 noIPv6 _ h25.1]
    exact h25.2

/-- Witness for `MaskToBits_of_netmask`: the mask of a /25 network. -/
theorem MaskToBits_of_netmask_witness :
    MaskToBits noIPv6 "255.255.255.128" = .ok 25 :=
  (MaskToBits_of_netmask noIPv6 25 (by decide)).2.2

/-- C18 (counterexample): `255.0.255.0` is no netmask, the one-bits are not
contiguous, yet `MaskToBits` returns 0 and no error for it; so it does for
the address `192.168.1.1`. -/
theorem MaskToBits_non_contiguous_counterexample :
    ParseIP noIPv6 "255.0.255.0" = some (v4InV6Prefix ++ [255, 0, 255, 0]) ∧
    simpleMaskLength [255, 0, 255, 0] = none ∧
    MaskToBits noIPv6 "255.0.255.0" = .ok 0 ∧
    MaskToBits noIPv6 "192.168.1.1" = .ok 0 := by
  decide

/-- C18 (amended): `MaskToBits` returns an error exactly when `net.ParseIP`
does not yield an IPv4 address for the string (`ParseIP(mask).To4()` is
`nil`), as for `bogus`; for every string that yields the four bytes of an
IPv4 address it returns no error: the number of leading one-bits when the
bytes are a run of one-bits followed only by zero-bits, and 0 otherwise, as
for `255.0.255.0`. -/
theorem MaskToBits_error_iff_not_IPv4 (parseIPv6 : String → Option (List Nat)) (mask : String) :
    ((∃ e, MaskToBits parseIPv6 mask = .error e) ↔ To4 (ParseIP parseIPv6 mask) = none) ∧
    (∀ ipMask, To4 (ParseIP parseIPv6 mask) = some ipMask →
      (∀ ones, simpleMaskLength ipMask = some ones →
        MaskToBits parseIPv6 mask = .ok (ones : Int)) ∧
      (simpleMaskLength ipMask = none → MaskToBits parseIPv6 mask = .ok 0)) ∧
    (∃ e, MaskToBits parseIPv6 "bogus" = .error e) := by
  refine ⟨?_, ?_, ?_⟩
  · cases h : To4 (ParseIP parseIPv6 mask) with
    | none => simp [MaskToBits, h]
    | some b => simp [MaskToBits, h]
  · intro ipMask h
    constructor
    · intro ones hs
      simp [MaskToBits, h, IPMaskSize, hs]
    · intro hs
      simp [MaskToBits, h, IPMaskSize, hs]
  · exact ⟨_, rfl⟩

/-- Witness for `MaskToBits_error_iff_not_IPv4`: `255.0.255.0` parses to four
bytes that are no mask, and the result is 0. -/
theorem MaskToBits_error_iff_not_IPv4_witness :
    MaskToBits noIPv6 "255.0.255.0" = .ok 0 :=
  ((MaskToBits_error_iff_not_IPv4 noIPv6 "255.0.255.0").2.1 [255, 0, 255, 0] (by decide)).2
    (by decide)

theorem stringsSplit_of_not_mem (sep : Char) (l : List Char) (h : sep ∉ l) :
    stringsSplit sep l = [l] := by
  induction l with
  | nil => rfl
  | cons c cs ih =>
    have hc : c ≠ sep := fun hc => h (hc ▸ List.mem_cons_self _ _)
    have hcs : sep ∉ cs := fun hm => h (List.mem_cons_of_mem _ hm)
    simp [stringsSplit, hc, ih hcs]

theorem stringsSplit_append (sep : Char) (l1 l2 : List Char) (h : sep ∉ l1) :
    stringsSplit sep (l1 ++ sep :: l2) = l1 :: stringsSplit sep l2 := by
  induction l1 with
  | nil => simp [stringsSplit]
  | cons c cs ih =>
    have hc : c ≠ sep := fun hc => h (hc ▸ List.mem_cons_self _ _)
    have hcs : sep ∉ cs := fun hm => h (List.mem_cons_of_mem _ hm)
    simp [stringsSplit, hc, ih hcs]

theorem RemoveZoneIndexFromIPAddress_of_not_mem (s : String) (h : '%' ∉ s.toList) :
    RemoveZoneIndexFromIPAddress s = s := by
  unfold RemoveZoneIndexFromIPAddress
  rw [if_neg]
  simpa using h

/-- C20: for strings `addr`, `zone` and `mask` that contain neither `%` nor
`/`, `RemoveZoneIndexFromIPAddress` turns `addr%zone/mask` into `addr/mask`
and `addr%zone` into `addr`; it returns every string without `%` unchanged;
in particular `2001:db8::1%2/64` gives `2001:db8::1/64`. -/
theorem RemoveZoneIndexFromIPAddress_drops_zone (addr zone mask : String)
    (haddr : '%' ∉ addr.toList ∧ '/' ∉ addr.toList)
    (hzone : '%' ∉ zone.toList ∧ '/' ∉ zone.toList)
    (hmask : '%' ∉ mask.toList ∧ '/' ∉ mask.toList) :
    RemoveZoneIndexFromIPAddress (addr ++ "%" ++ zone ++ "/" ++ mask) = addr ++ "/" ++ mask ∧
    RemoveZoneIndexFromIPAddress (addr ++ "%" ++ zone) = addr ∧
    (∀ s : String, '%' ∉ s.toList → RemoveZoneIndexFromIPAddress s = s) ∧
    RemoveZoneIndexFromIPAddress "2001:db8::1%2/64" = "2001:db8::1/64" := by
  refine ⟨?_, ?_, RemoveZoneIndexFromIPAddress_of_not_mem, by decide⟩
  · have hl : (addr ++ "%" ++ zone ++ "/" ++ mask).toList =
        addr.toList ++ '%' :: (zone.toList ++ '/' :: mask.toList) := by
      simp [String.toList]
    have hl2 : (addr ++ "%" ++ zone ++ "/" ++ mask).toList =
        (addr.toList ++ '%' :: zone.toList) ++ '/' :: mask.toList := by
      simp [String.toList]
    have hno : '/' ∉ addr.toList ++ '%' :: zone.toList := by
      intro hm
      rcases List.mem_append.mp hm with h1 | h1
      · exact haddr.2 h1
      · rcases List.mem_cons.mp h1 with h2 | h2
        · exact absurd h2 (by decide)
        · exact hzone.2 h2
    have hbase : (stringsSplit '%' (addr ++ "%" ++ zone ++ "/" ++ mask).toList).headD [] =
        addr.toList := by
      rw [hl, stringsSplit_append _ _ _ haddr.1]
      rfl
    have harr : stringsSplit '/' (addr ++ "%" ++ zone ++ "/" ++ mask).toList =
        [addr.toList ++ '%' :: zone.toList, mask.toList] := by
      rw [hl2, stringsSplit_append _ _ _ hno, stringsSplit_of_not_mem _ _ hmask.2]
    unfold RemoveZoneIndexFromIPAddress
    rw [if_pos (by rw [hl]; simp)]
    simp only [hbase, harr]
    apply String.ext
    simp [String.toList]
  · have hl : (addr ++ "%" ++ zone).toList = addr.toList ++ '%' :: zone.toList := by
      simp [String.toList]
    have hno : '/' ∉ addr.toList ++ '%' :: zone.toList := by
      intro hm
      rcases List.mem_append.mp hm with h1 | h1
      · exact haddr.2 h1
      · rcases List.mem_cons.mp h1 with h2 | h2
        · exact absurd h2 (by decide)
        · exact hzone.2 h2
    have hbase : (stringsSplit '%' (addr ++ "%" ++ zone).toList).headD [] = addr.toList := by
      rw [hl, stringsSplit_append _ _ _ haddr.1]
      rfl
    have harr : stringsSplit '/' (addr ++ "%" ++ zone).toList =
        [addr.toList ++ '%' :: zone.toList] := by
      rw [hl, stringsSplit_of_not_mem _ _ hno]
    unfold RemoveZoneIndexFromIPAddress
    rw [if_pos (by rw [hl]; simp)]
    simp only [hbase, harr]
    apply String.ext
    simp [String.toList]

/-- Witness for `RemoveZoneIndexFromIPAddress_drops_zone`: the link-local
address `fe80::1` with zone `eth0` and mask `64`. -/
theorem RemoveZoneIndexFromIPAddress_drops_zone_witness :
    RemoveZoneIndexFromIPAddress ("fe80::1" ++ "%" ++ "eth0" ++ "/" ++ "64") =
      "fe80::1" ++ "/" ++ "64" ∧
    RemoveZoneIndexFromIPAddress ("fe80::1" ++ "%" ++ "eth0") = "fe80::1" :=
  ⟨(RemoveZoneIndexFromIPAddress_drops_zone "fe80::1" "eth0" "64" (by decide) (by decide)
      (by decide)).1,
   (RemoveZoneIndexFromIPAddress_drops_zone "fe80::1" "eth0" "64" (by decide) (by decide)
      (by decide)).2.1⟩

theorem takeWhile_slash_of_no_percent (l : List Char) (h : '%' ∉ l) :
    l.takeWhile (fun c => c ≠ '/') = l.takeWhile fun c => c ≠ '%' ∧ c ≠ '/' := by
  induction l with
  | nil => rfl
  | cons c cs ih =>
    have hc : c ≠ '%' := fun hc => h (hc ▸ List.mem_cons_self _ _)
    have hcs : '%' ∉ cs := fun hm => h (List.mem_cons_of_mem _ hm)
    by_cases hs : c = '/'
    · simp [List.takeWhile, hs]
    · simpa [List.takeWhile, hs, hc] using ih hcs

theorem takeWhile_slash_of_percent (l : List Char) (h : '%' ∈ l) (mask : List Char)
    (hmask : mask = [] ∨ ∃ r, mask = '/' :: r) :
    (l.takeWhile (fun c => c ≠ '%') ++ mask).takeWhile (fun c => c ≠ '/') =
      l.takeWhile fun c => c ≠ '%' ∧ c ≠ '/' := by
  induction l with
  | nil => simp at h
  | cons c cs ih =>
    by_cases hp : c = '%'
    · subst hp
      rcases hmask with hm | ⟨r, hm⟩ <;> simp [List.takeWhile, hm]
    · by_cases hs : c = '/'
      · subst hs
        simp [List.takeWhile]
      · have hcs : '%' ∈ cs := by
          rcases List.mem_cons.mp h with h1 | h1
          · exact absurd h1.symm hp
          · exact h1
        simpa [List.takeWhile, hp, hs] using ih hcs

theorem address_of_RemoveZoneIndexFromIPAddress (a : String) :
    (stringsSplit '/' (RemoveZoneIndexFromIPAddress a).toList).headD [] =
      a.toList.takeWhile fun c => c ≠ '%' ∧ c ≠ '/' := by
  rw [stringsSplit_head]
  by_cases h : '%' ∈ a.toList
  · unfold RemoveZoneIndexFromIPAddress
    rw [if_pos (by simpa using h), stringsSplit_head]
    apply takeWhile_slash_of_percent _ h
    split
    · exact Or.inr ⟨_, rfl⟩
    · exact Or.inl rfl
  · rw [RemoveZoneIndexFromIPAddress_of_not_mem a h]
    exact takeWhile_slash_of_no_percent _ h

/-- C19: `SubnetContainsIPAddress(a, s)` is true if and only if `s` parses as
a CIDR, the part of `a` before its first `%` or `/` (the address without zone
index and mask) parses as an IP address, and the network of `s` contains that
address; it is a plain `false` otherwise.  In particular `172.31.4.129` lies
in `172.31.4.128/25`, and `172.31.4.1` does not lie in `10.0.0.0/8`. -/
theorem SubnetContainsIPAddress_iff (parseIPv6 : String → Option (List Nat)) (a s : String) :
    (SubnetContainsIPAddress parseIPv6 a s = true ↔
      ∃ ipnet ip, ParseCIDR parseIPv6 s = some ipnet ∧
        ParseIP parseIPv6 (String.mk (a.toList.takeWhile fun c => c ≠ '%' ∧ c ≠ '/')) = some ip ∧
        ipnet.Contains (some ip) = true) ∧
    (ParseCIDR parseIPv6 s = none → SubnetContainsIPAddress parseIPv6 a s = false) ∧
    (ParseIP parseIPv6 (String.mk (a.toList.takeWhile fun c => c ≠ '%' ∧ c ≠ '/')) = none →
      SubnetContainsIPAddress parseIPv6 a s = false) ∧
    SubnetContainsIPAddress noIPv6 "172.31.4.129" "172.31.4.128/25" = true ∧
    SubnetContainsIPAddress noIPv6 "172.31.4.1" "10.0.0.0/8" = false := by
  have hdef : SubnetContainsIPAddress parseIPv6 a s =
      match ParseIP parseIPv6 (String.mk (a.toList.takeWhile fun c => c ≠ '%' ∧ c ≠ '/')) with
      | none => false
      | some ip =>
        match ParseCIDR parseIPv6 s with
        | none => false
        | some ipnet => ipnet.Contains (some ip) := by
    simp only [SubnetContainsIPAddress]
    rw [address_of_RemoveZoneIndexFromIPAddress]
  refine ⟨?_, ?_, ?_, by decide, by decide⟩
  · rw [hdef]
    cases hip : ParseIP parseIPv6 (String.mk (a.toList.takeWhile fun c => c ≠ '%' ∧ c ≠ '/')) with
    | none => simp
    | some ip =>
      cases hnet : ParseCIDR parseIPv6 s with
      | none => simp
      | some ipnet => simp
  · intro hnet
    rw [hdef, hnet]
    cases ParseIP parseIPv6 (String.mk (a.toList.takeWhile fun c => c ≠ '%' ∧ c ≠ '/')) <;> rfl
  · intro hip
    rw [hdef, hip]

/-- Witness for `SubnetContainsIPAddress_iff`: an address with zone index and
mask inside its network, and a subnet that is no CIDR. -/
theorem SubnetContainsIPAddress_iff_witness :
    SubnetContainsIPAddress noIPv6 "172.31.4.129%eth0/25" "172.31.4.128/25" = true ∧
    SubnetContainsIPAddress noIPv6 "172.31.4.129" "bogus" = false :=
  ⟨(SubnetContainsIPAddress_iff noIPv6 "172.31.4.129%eth0/25" "172.31.4.128/25").1.mpr
      ⟨{ IP := some [172, 31, 4, 128], Mask := [255, 255, 255, 128] },
        v4InV6Prefix ++ [172, 31, 4, 129], by decide, by decide, by decide⟩,
   (SubnetContainsIPAddress_iff noIPv6 "172.31.4.129" "bogus").2.1 (by decide)⟩

/-! ## Properties of the DNAC adapter -/

theorem ifaceTypeGet_none_of_not_key (k : InterfaceSpeed)
    (m : List (InterfaceSpeed × InterfaceType)) (h : k ∉ m.map Prod.fst) :
    ifaceTypeGet k m = none := by
  induction m with
  | nil => rfl
  | cons e rest ih =>
    obtain ⟨k1, v1⟩ := e
    have h1 : k1 ≠ k := fun hk => h (by simp [hk])
    have h2 : k ∉ rest.map Prod.fst := fun hm => h (by simp at hm ⊢; exact Or.inr hm)
    simp [ifaceTypeGet, h1, ih h2]

theorem ifaceTypeGet_some_of_key (k : InterfaceSpeed) :
    ∀ m : List (InterfaceSpeed × InterfaceType), k ∈ m.map Prod.fst →
      ∃ t, ifaceTypeGet k m = some t := by
  intro m
  induction m with
  | nil => intro h; simp at h
  | cons e rest ih =>
    intro h
    obtain ⟨k1, v1⟩ := e
    by_cases h1 : k1 = k
    · exact ⟨v1, by simp [ifaceTypeGet, h1]⟩
    · have h2 : k ∈ rest.map Prod.fst := by
        simp at h ⊢
        rcases h with h | h
        · exact absurd h.symm h1
        · exact h
      obtain ⟨t, ht⟩ := ih h2
      exact ⟨t, by simp [ifaceTypeGet, h1, ht]⟩

/-- C15: for every speed `s`, `getInterfaceType("Physical", s)` returns without
error a type that is not `nil`: the type that `IfaceSpeed2IfaceType` assigns
to `s` when `s` is one of its twenty keys (1000000 gives `1000base-t`,
10000000 gives `10gbase-x-sfpp`), and the type `other` for every other `s`;
`getInterfaceType("Virtual", s)` returns the type `virtual`; every other type
name yields an error. -/
theorem getInterfaceType_by_speed_table (s : Int) :
    (∀ e ∈ IfaceSpeed2IfaceType, getInterfaceType "Physical" e.1 = .ok (some e.2)) ∧
    (s ∉ IfaceSpeed2IfaceType.map Prod.fst →
      getInterfaceType "Physical" s = .ok (some OtherInterfaceType)) ∧
    (∃ t, getInterfaceType "Physical" s = .ok (some t)) ∧
    (getInterfaceType "Physical" 1000000).map (Option.map fun t => t.Choice.Value) =
      .ok (some "1000base-t") ∧
    (getInterfaceType "Physical" 10000000).map (Option.map fun t => t.Choice.Value) =
      .ok (some "10gbase-x-sfpp") ∧
    OtherInterfaceType.Choice.Value = "other" ∧
    getInterfaceType "Virtual" s = .ok (some VirtualInterfaceType) ∧
    VirtualInterfaceType.Choice.Value = "virtual" ∧
    (∀ name : String, name ≠ "Physical" → name ≠ "Virtual" →
      getInterfaceType name s = .error ("unknown interface type: " ++ name)) := by
  refine ⟨by decide, ?_, ?_, by decide, by decide, rfl, ?_, rfl, ?_⟩
  · intro hs
    simp [getInterfaceType, ifaceTypeGet_none_of_not_key _ _ hs]
  · by_cases hs : s ∈ IfaceSpeed2IfaceType.map Prod.fst
    · obtain ⟨t, ht⟩ := ifaceTypeGet_some_of_key s _ hs
      exact ⟨t, by simp [getInterfaceType, ht]⟩
    · exact ⟨OtherInterfaceType, by simp [getInterfaceType, ifaceTypeGet_none_of_not_key _ _ hs]⟩
  · simp [getInterfaceType]
  · intro name h1 h2
    simp [getInterfaceType, h1, h2]

/-- Witness for `getInterfaceType_by_speed_table`: 1234 Kbps is no key of the
table, and `Wireless` is no known type name. -/
theorem getInterfaceType_by_speed_table_witness :
    getInterfaceType "Physical" 1234 = .ok (some OtherInterfaceType) ∧
    getInterfaceType "Wireless" 1234 = .error "unknown interface type: Wireless" :=
  ⟨(getInterfaceType_by_speed_table 1234).2.1 (by decide),
   (getInterfaceType_by_speed_table 1234).2.2.2.2.2.2.2.2 "Wireless" (by decide) (by decide)⟩

theorem utf8ByteSize_go_ge_length (l : List Char) : l.length ≤ String.utf8ByteSize.go l := by
  induction l with
  | nil => simp [String.utf8ByteSize.go]
  | cons c cs ih =>
    have hc : 0 < c.utf8Size := Char.utf8Size_pos c
    simp only [String.utf8ByteSize.go, List.length_cons]
    omega

theorem length_le_utf8ByteSize (s : String) : s.length ≤ s.utf8ByteSize := by
  cases s with
  | mk l => exact utf8ByteSize_go_ge_length l

theorem addRoleIfNil_calls {σ : Type} (env : DnacEnv σ) (nbi : σ) (device : DnacDevice)
    (deviceRole : Option DeviceRole) (calls : List DnacCall) (draft : Device)
    (h : DnacCall.AddDevice draft ∈ (addRoleIfNil env nbi device deviceRole calls).2.2) :
    DnacCall.AddDevice draft ∈ calls := by
  cases deviceRole with
  | some role => exact h
  | none => simpa [addRoleIfNil] using h

theorem syncDeviceSteps_AddDevice_draft {σ : Type} (env : DnacEnv σ) (ds : DnacSource) (nbi : σ)
    (deviceID : String) (device : DnacDevice) (description comments : String) (draft : Device)
    (h : DnacCall.AddDevice draft ∈
      (syncDeviceSteps env ds nbi deviceID device description comments).calls) :
    draft.NetboxObject.Description = description ∧ draft.Comments = comments := by
  rcases hman : env.AddManufacturer nbi { Name := "Cisco", Slug := env.Slugify "Cisco" } with
    ⟨r1, nbi1⟩
  cases r1 with
  | error e => simp [syncDeviceSteps, hman] at h
  | ok cisco =>
    cases herr : (matchDeviceRole env ds nbi1 device).err with
    | some e => simp [syncDeviceSteps, hman, herr] at h
    | none =>
      rcases hrole : addRoleIfNil env (matchDeviceRole env ds nbi1 device).nbi device
          (matchDeviceRole env ds nbi1 device).value
          ([DnacCall.AddManufacturer { Name := "Cisco", Slug := env.Slugify "Cisco" }] ++
            (matchDeviceRole env ds nbi1 device).calls.map DnacCall.viaMatcher) with
        ⟨r2, nbi2, calls2⟩
      have hno : DnacCall.AddDevice draft ∉ calls2 := by
        intro hm
        have hc := addRoleIfNil_calls env (matchDeviceRole env ds nbi1 device).nbi device
          (matchDeviceRole env ds nbi1 device).value _ draft (by rw [hrole]; exact hm)
        simp at hc
      cases r2 with
      | error e =>
        simp only [syncDeviceSteps, hman, herr, hrole] at h
        exact absurd h hno
      | ok deviceRole =>
        rcases hplat : env.AddPlatform nbi2
            { Name := devicePlatformName device, Slug := env.Slugify (devicePlatformName device),
              Manufacturer := cisco } with ⟨r3, nbi3⟩
        cases r3 with
        | error e =>
          simp only [syncDeviceSteps, hman, herr, hrole, hplat] at h
          simp [hno] at h
        | ok platform =>
          cases hsite : mapLoad ((mapLoad device.ID ds.Device2Site).getD "") ds.SiteID2nbSite with
          | none =>
            simp only [syncDeviceSteps, hman, herr, hrole, hplat, hsite] at h
            simp [hno] at h
          | some deviceSite =>
            by_cases htype : device.Type_ = ""
            · simp only [syncDeviceSteps, hman, herr, hrole, hplat, hsite, htype, if_true] at h
              simp [hno] at h
            · rcases hdt : env.AddDeviceType nbi3
                  { Manufacturer := cisco, Model := device.Type_, Slug := env.Slugify device.Type_ } with
                ⟨r4, nbi4⟩
              cases r4 with
              | error e =>
                simp only [syncDeviceSteps, hman, herr, hrole, hplat, hsite, htype, if_false, hdt] at h
                simp [hno] at h
              | ok deviceType =>
                cases hten : (MatchHostToTenant env.toMatchEnv nbi4 device.Hostname
                    ds.SourceConfig.HostTenantRelations).err with
                | some e =>
                  simp only [syncDeviceSteps, hman, herr, hrole, hplat, hsite, htype, if_false, hdt,
                    hten] at h
                  simp [hno] at h
                | none =>
                  simp only [syncDeviceSteps, hman, herr, hrole, hplat, hsite, htype, if_false, hdt,
                    hten] at h
                  split at h
                  all_goals (simp [hno, deviceDraft] at h; subst h; exact ⟨rfl, rfl⟩)

/-- C13 (counterexample): a description of 101 characters, each of two bytes,
is not longer than 200 characters, yet the draft that `syncDevice` hands to
`AddDevice` has the description `See comments` and the text as comments. -/
theorem syncDevice_description_counterexample :
    sampleAccentedDevice.Description.length = 101 ∧
    sampleAccentedDevice.Description.utf8ByteSize = 202 ∧
    addDeviceTexts
        (syncDevice sampleDnacEnv sampleDnacSource sampleInventory "dev-1" sampleAccentedDevice).calls =
      [("See comments", sampleAccentedDevice.Description)] := by
  decide

/-- C13 (amended): the draft that `syncDevice` hands to `AddDevice` for a
device with description `d` has the description `See comments` and the
comments `d` when the UTF-8 encoding of `d` is longer than 200 bytes
(`len(d) > objects.MaxDescriptionLength`), and the description `d` and empty
comments otherwise; so the description of the draft never exceeds 200 bytes,
nor 200 characters. -/
theorem syncDevice_description_limit {σ : Type} (env : DnacEnv σ) (ds : DnacSource) (nbi : σ)
    (deviceID : String) (device : DnacDevice) (draft : Device)
    (h : DnacCall.AddDevice draft ∈ (syncDevice env ds nbi deviceID device).calls) :
    MaxDescriptionLength = 200 ∧
    (MaxDescriptionLength < device.Description.utf8ByteSize →
      draft.NetboxObject.Description = "See comments" ∧ draft.Comments = device.Description) ∧
    (device.Description.utf8ByteSize ≤ MaxDescriptionLength →
      draft.NetboxObject.Description = device.Description ∧ draft.Comments = "") ∧
    draft.NetboxObject.Description.utf8ByteSize ≤ MaxDescriptionLength ∧
    draft.NetboxObject.Description.length ≤ MaxDescriptionLength := by
  have hd : (if device.Description ≠ "" then device.Description else "") = device.Description := by
    by_cases hne : device.Description = "" <;> simp [hne]
  simp only [syncDevice, hd] at h
  by_cases hlong : MaxDescriptionLength < device.Description.utf8ByteSize
  · rw [if_pos hlong] at h
    obtain ⟨h1, h2⟩ := syncDeviceSteps_AddDevice_draft env ds nbi deviceID device _ _ draft h
    have hsee : ("See comments" : String).utf8ByteSize ≤ MaxDescriptionLength := by decide
    refine ⟨rfl, fun _ => ⟨h1, h2⟩, fun hle => absurd hlong (not_lt.mpr hle), ?_, ?_⟩
    · rw [h1]
      exact hsee
    · rw [h1]
      exact le_trans (length_le_utf8ByteSize _) hsee
  · rw [if_neg hlong] at h
    obtain ⟨h1, h2⟩ := syncDeviceSteps_AddDevice_draft env ds nbi deviceID device _ _ draft h
    refine ⟨rfl, fun hl => absurd hl hlong, fun _ => ⟨h1, h2⟩, ?_, ?_⟩
    · rw [h1]
      exact not_lt.mp hlong
    · rw [h1]
      exact le_trans (length_le_utf8ByteSize _) (not_lt.mp hlong)

/-- Witness for `syncDevice_description_limit`: the sample device with a short
description. -/
theorem syncDevice_description_limit_witness :
    sampleDeviceDraft.NetboxObject.Description = "core switch" ∧ sampleDeviceDraft.Comments = "" :=
  (syncDevice_description_limit sampleDnacEnv sampleDnacSource sampleInventory "dev-1" sampleDevice
    sampleDeviceDraft (by decide)).2.2.1 (by decide)

/-- C14 (failing input): the sample site has a `Location` entry whose
longitude `14` and latitude `46` both parse, yet the draft that `syncSites`
hands to `AddSite` has longitude 0 and latitude 0; in general the draft takes
the number that `ParseFloat` returned when `ParseFloat` returned an error, and
keeps its value when the text parsed. -/
theorem syncSites_coordinates_inverted :
    sampleParseFloat "14" = (14, none) ∧
    sampleParseFloat "46" = (46, none) ∧
    addSiteCoordinates (syncSites sampleDnacEnv sampleDnacSource sampleInventory).calls = [(0, 0)] ∧
    (∀ (σ : Type) (env : DnacEnv σ) (dnacSite : Site) (attributes : DnacSiteAttributes),
      (applyAdditionalInfo env dnacSite
          [{ Namespace := "Location", Attributes := attributes }]).Longitude =
        (if (env.ParseFloat attributes.Longitude).2 = none then dnacSite.Longitude
          else (env.ParseFloat attributes.Longitude).1) ∧
      (applyAdditionalInfo env dnacSite
          [{ Namespace := "Location", Attributes := attributes }]).Latitude =
        (if (env.ParseFloat attributes.Latitude).2 = none then dnacSite.Latitude
          else (env.ParseFloat attributes.Latitude).1)) := by
  refine ⟨by decide, by decide, by decide, ?_⟩
  intro σ env dnacSite attributes
  simp only [applyAdditionalInfo, if_true]
  by_cases h1 : (env.ParseFloat attributes.Longitude).2 = none <;>
    by_cases h2 : (env.ParseFloat attributes.Latitude).2 = none <;> simp [h1, h2]

theorem syncVlansLoop_append {σ : Type} (env : DnacEnv σ) (l1 l2 : List (Int × DnacVlan)) :
    ∀ acc : SyncResult σ, (syncVlansLoop env acc l1).err = none →
      syncVlansLoop env acc (l1 ++ l2) = syncVlansLoop env (syncVlansLoop env acc l1) l2 := by
  induction l1 with
  | nil => intro acc _; rfl
  | cons e rest ih =>
    intro acc h
    obtain ⟨vid, vlan⟩ := e
    cases hs : (syncVlan env acc vid vlan).err with
    | some err =>
      simp only [syncVlansLoop, hs] at h
      cases h
    | none =>
      simp only [syncVlansLoop, hs, List.cons_append] at h ⊢
      exact ih _ h

theorem syncVlan_of_failed_AddVlan {σ : Type} (env : DnacEnv σ) (acc : SyncResult σ) (vid : Int)
    (vlan : DnacVlan) (vlanSite : Option Site) (vlanGroup : Option VlanGroup) (nbi1 nbi2 nbi3 : σ)
    (e : String)
    (hsite : env.MatchVlanToSite acc.nbi vlan.InterfaceName acc.ds.SourceConfig.VlanSiteRelations =
      (.ok vlanSite, nbi1))
    (hgroup : env.MatchVlanToGroupOfSite nbi1 vlan.InterfaceName vlanSite
      acc.ds.SourceConfig.VlanGroupRelations acc.ds.SourceConfig.VlanGroupSiteRelations =
      (.ok vlanGroup, nbi2))
    (htenant : (MatchVlanToTenant env.toMatchEnv nbi2 vlan.InterfaceName
      acc.ds.SourceConfig.VlanTenantRelations).err = none)
    (hadd : env.AddVlan
      (MatchVlanToTenant env.toMatchEnv nbi2 vlan.InterfaceName
        acc.ds.SourceConfig.VlanTenantRelations).nbi
      (vlanDraft env acc.ds vid vlan vlanGroup vlanSite
        (MatchVlanToTenant env.toMatchEnv nbi2 vlan.InterfaceName
          acc.ds.SourceConfig.VlanTenantRelations).value) = (.error e, nbi3)) :
    syncVlan env acc vid vlan =
      { acc with
        err := some ("adding vlan: " ++ e), nbi := nbi3,
        calls := acc.calls ++
          (MatchVlanToTenant env.toMatchEnv nbi2 vlan.InterfaceName
            acc.ds.SourceConfig.VlanTenantRelations).calls.map DnacCall.viaMatcher ++
          [.AddVlan (vlanDraft env acc.ds vid vlan vlanGroup vlanSite
            (MatchVlanToTenant env.toMatchEnv nbi2 vlan.InterfaceName
              acc.ds.SourceConfig.VlanTenantRelations).value)] } := by
  simp only [syncVlan, hsite, hgroup, htenant, hadd]

/-- C16 (counterexample): when the Remote rejects the second of the three
VLANs of the sample source, `syncVlans` returns the error of `AddVlan`, and
the third VLAN is never passed to `AddVlan`. -/
theorem syncVlans_aborts_counterexample :
    sampleDnacSource.Vlans.map Prod.fst = [10, 20, 30] ∧
    (syncVlans sampleDnacEnvRejectingVlan20 sampleDnacSource sampleInventory).err =
      some "adding vlan: 400 Bad Request" ∧
    addVlanVids (syncVlans sampleDnacEnvRejectingVlan20 sampleDnacSource sampleInventory).calls =
      [10, 20] := by
  decide

/-- C16 (amended): when `AddVlan` returns an error for a VLAN, the VLANs
visited before it having been synced without error, `syncVlans` returns at
once with the error `adding vlan: ...`: the call of `AddVlan` for that VLAN is
its last call on the inventory, so the VLANs that the loop has not visited yet
are not passed to `AddVlan`, and the VLAN is not stored in `VID2nbVlan`. -/
theorem syncVlans_returns_at_failed_AddVlan {σ : Type} (env : DnacEnv σ) (ds : DnacSource)
    (nbi : σ) (visited notVisited : List (Int × DnacVlan)) (vid : Int) (vlan : DnacVlan)
    (mid : SyncResult σ) (vlanSite : Option Site) (vlanGroup : Option VlanGroup)
    (nbi1 nbi2 nbi3 : σ) (e : String)
    (hvlans : ds.Vlans = visited ++ (vid, vlan) :: notVisited)
    (hmid : syncVlansLoop env { err := none, nbi := nbi, ds := ds, calls := [], log := [] } visited
      = mid)
    (hok : mid.err = none)
    (hsite : env.MatchVlanToSite mid.nbi vlan.InterfaceName mid.ds.SourceConfig.VlanSiteRelations =
      (.ok vlanSite, nbi1))
    (hgroup : env.MatchVlanToGroupOfSite nbi1 vlan.InterfaceName vlanSite
      mid.ds.SourceConfig.VlanGroupRelations mid.ds.SourceConfig.VlanGroupSiteRelations =
      (.ok vlanGroup, nbi2))
    (htenant : (MatchVlanToTenant env.toMatchEnv nbi2 vlan.InterfaceName
      mid.ds.SourceConfig.VlanTenantRelations).err = none)
    (hadd : env.AddVlan
      (MatchVlanToTenant env.toMatchEnv nbi2 vlan.InterfaceName
        mid.ds.SourceConfig.VlanTenantRelations).nbi
      (vlanDraft env mid.ds vid vlan vlanGroup vlanSite
        (MatchVlanToTenant env.toMatchEnv nbi2 vlan.InterfaceName
          mid.ds.SourceConfig.VlanTenantRelations).value) = (.error e, nbi3)) :
    (syncVlans env ds nbi).err = some ("adding vlan: " ++ e) ∧
    (syncVlans env ds nbi).calls =
      mid.calls ++
        (MatchVlanToTenant env.toMatchEnv nbi2 vlan.InterfaceName
          mid.ds.SourceConfig.VlanTenantRelations).calls.map DnacCall.viaMatcher ++
        [.AddVlan (vlanDraft env mid.ds vid vlan vlanGroup vlanSite
          (MatchVlanToTenant env.toMatchEnv nbi2 vlan.InterfaceName
            mid.ds.SourceConfig.VlanTenantRelations).value)] ∧
    (syncVlans env ds nbi).nbi = nbi3 ∧
    (syncVlans env ds nbi).ds = mid.ds := by
  have hbody := syncVlan_of_failed_AddVlan env mid vid vlan vlanSite vlanGroup nbi1 nbi2 nbi3 e
    hsite hgroup htenant hadd
  have hrun : syncVlans env ds nbi = syncVlan env mid vid vlan := by
    unfold syncVlans
    rw [hvlans, syncVlansLoop_append env visited _ _ (by rw [hmid]; exact hok), hmid]
    have herr : (syncVlan env mid vid vlan).err = some ("adding vlan: " ++ e) := by rw [hbody]
    simp only [syncVlansLoop, herr]
  rw [hrun, hbody]
  exact ⟨rfl, rfl, rfl, rfl⟩

/-- Witness for `syncVlans_returns_at_failed_AddVlan`: the sample source on a
Remote that rejects the VLAN with vid 20, the second of three. -/
theorem syncVlans_returns_at_failed_AddVlan_witness :
    (syncVlans sampleDnacEnvRejectingVlan20 sampleDnacSource sampleInventory).err =
      some ("adding vlan: " ++ "400 Bad Request") ∧
    (syncVlans sampleDnacEnvRejectingVlan20 sampleDnacSource sampleInventory).nbi =
      { sampleInventory with nextID := 5 } :=
  let h := syncVlans_returns_at_failed_AddVlan sampleDnacEnvRejectingVlan20 sampleDnacSource
    sampleInventory [(10, { InterfaceName := "Vlan10", VLANType := "Data" })]
    [(30, { InterfaceName := "Vlan30", VLANType := "Guest" })] 20
    { InterfaceName := "Vlan20", VLANType := "Voice" }
    (syncVlansLoop sampleDnacEnvRejectingVlan20
      { err := none, nbi := sampleInventory, ds := sampleDnacSource, calls := [], log := [] }
      [(10, { InterfaceName := "Vlan10", VLANType := "Data" })])
    none
    (some { NetboxObject := { NetboxObject.zero with ID := 3 }, Name := "DefaultVlanGroup",
            Slug := "defaultvlangroup", MinVid := 1, MaxVid := 4094 })
    { sampleInventory with nextID := 5 } { sampleInventory with nextID := 5 }
    { sampleInventory with nextID := 5 } "400 Bad Request"
    (by decide) rfl (by decide) (by decide) (by decide) (by decide) (by decide)
  ⟨h.1, h.2.2.1⟩

/-! ## Properties of `RemoveZoneIndexFromIPAddress` on every input, and of `IsPermittedIPAddress` -/

theorem stringsSplit_part_subset (sep : Char) (l : List Char) :
    ∀ x ∈ stringsSplit sep l, ∀ c ∈ x, c ∈ l := by
  induction l with
  | nil =>
    intro x hx c hc
    simp only [stringsSplit, List.mem_singleton] at hx
    subst hx
    exact hc
  | cons a cs ih =>
    intro x hx c hc
    by_cases h : a = sep
    · simp only [stringsSplit, h, if_true, List.mem_cons] at hx
      rcases hx with hx | hx
      · subst hx
        simp at hc
      · exact List.mem_cons_of_mem _ (ih x hx c hc)
    · simp only [stringsSplit, h, if_false] at hx
      rcases hsp : stringsSplit sep cs with _ | ⟨y, ys⟩
      · rw [hsp] at hx
        simp only [List.mem_singleton] at hx
        subst hx
        simp only [List.mem_singleton] at hc
        subst hc
        exact List.mem_cons_self _ _
      · rw [hsp] at hx ih
        simp only [List.mem_cons] at hx
        rcases hx with hx | hx
        · subst hx
          rcases List.mem_cons.mp hc with h1 | h1
          · subst h1
            exact List.mem_cons_self _ _
          · exact List.mem_cons_of_mem _ (ih y (List.mem_cons_self _ _) c h1)
        · exact List.mem_cons_of_mem _ (ih x (List.mem_cons_of_mem _ hx) c hc)

theorem stringsSplit_getD_subset (sep : Char) (l : List Char) (i : Nat) :
    ∀ c ∈ (stringsSplit sep l).getD i [], c ∈ l := by
  intro c hc
  by_cases hi : i < (stringsSplit sep l).length
  · rw [List.getD_eq_getElem _ _ hi] at hc
    exact stringsSplit_part_subset sep l _ (List.getElem_mem hi) c hc
  · rw [List.getD_eq_default _ _ (Nat.le_of_not_lt hi)] at hc
    simp at hc

theorem takeWhile_ne_not_mem (sep : Char) (l : List Char) :
    sep ∉ l.takeWhile fun c => c ≠ sep := by
  intro h
  have := List.mem_takeWhile_imp h
  simp at this

/-- C25 (counterexample): for the input `fe80::1/64%eth0`, whose `%` follows
the `/`, the result `fe80::1/64/64%eth0` still contains `%`, and a second
application gives a different string. -/
theorem RemoveZoneIndexFromIPAddress_keeps_percent_counterexample :
    RemoveZoneIndexFromIPAddress "fe80::1/64%eth0" = "fe80::1/64/64%eth0" ∧
    '%' ∈ (RemoveZoneIndexFromIPAddress "fe80::1/64%eth0").toList ∧
    RemoveZoneIndexFromIPAddress (RemoveZoneIndexFromIPAddress "fe80::1/64%eth0") ≠
      RemoveZoneIndexFromIPAddress "fe80::1/64%eth0" := by
  decide

/-- C25 (amended): for every string `s`, the result of
`RemoveZoneIndexFromIPAddress` contains `%` exactly when the text of `s`
between its first `/` and the next `/` (or the end), which the function takes
as the mask, contains `%`; when that text is free of `%` (in particular when
`s` has no `/`), the result contains no `%` and applying the function twice
gives the same as applying it once. -/
theorem RemoveZoneIndexFromIPAddress_percent_free_iff (s : String) :
    ('%' ∈ (RemoveZoneIndexFromIPAddress s).toList ↔
      '%' ∈ (stringsSplit '/' s.toList).getD 1 []) ∧
    ('%' ∉ (stringsSplit '/' s.toList).getD 1 [] →
      '%' ∉ (RemoveZoneIndexFromIPAddress s).toList ∧
      RemoveZoneIndexFromIPAddress (RemoveZoneIndexFromIPAddress s) =
        RemoveZoneIndexFromIPAddress s) := by
  have hiff : '%' ∈ (RemoveZoneIndexFromIPAddress s).toList ↔
      '%' ∈ (stringsSplit '/' s.toList).getD 1 [] := by
    by_cases h : '%' ∈ s.toList
    · unfold RemoveZoneIndexFromIPAddress
      rw [if_pos (by simpa using h), stringsSplit_head]
      have hbase := takeWhile_ne_not_mem '%' s.toList
      by_cases hlen : (stringsSplit '/' s.toList).length > 1
      · dsimp only
        rw [if_pos hlen]
        simp only [String.toList, List.mem_append, List.mem_cons]
        constructor
        · rintro (h1 | h1 | h1)
          · exact absurd h1 hbase
          · exact absurd h1 (by decide)
          · exact h1
        · intro h1
          exact Or.inr (Or.inr h1)
      · dsimp only
        rw [if_neg hlen, List.getD_eq_default _ _ (Nat.le_of_not_lt hlen)]
        simp only [String.toList, List.append_nil]
        constructor
        · intro h1
          exact absurd h1 hbase
        · intro h1
          simp at h1
    · rw [RemoveZoneIndexFromIPAddress_of_not_mem s h]
      constructor
      · intro h1
        exact absurd h1 h
      · intro h1
        exact absurd (stringsSplit_getD_subset '/' s.toList 1 '%' h1) h
  refine ⟨hiff, fun hseg => ?_⟩
  have hfree : '%' ∉ (RemoveZoneIndexFromIPAddress s).toList := fun h => hseg (hiff.mp h)
  exact ⟨hfree, RemoveZoneIndexFromIPAddress_of_not_mem _ hfree⟩

/-- Witness for `RemoveZoneIndexFromIPAddress_percent_free_iff`: the address
`fe80::1%eth0/64`, whose mask `64` is free of `%`. -/
theorem RemoveZoneIndexFromIPAddress_percent_free_iff_witness :
    '%' ∉ (RemoveZoneIndexFromIPAddress "fe80::1%eth0/64").toList ∧
    RemoveZoneIndexFromIPAddress (RemoveZoneIndexFromIPAddress "fe80::1%eth0/64") =
      RemoveZoneIndexFromIPAddress "fe80::1%eth0/64" :=
  (RemoveZoneIndexFromIPAddress_percent_free_iff "fe80::1%eth0/64").2 (by decide)

theorem subnetsContainIPAddress_iff (parseIPv6 : String → Option (List Nat)) (a : String)
    (subnets : List String) :
    subnetsContainIPAddress parseIPv6 a subnets = true ↔
      ∃ s ∈ subnets, SubnetContainsIPAddress parseIPv6 a s = true := by
  induction subnets with
  | nil => simp [subnetsContainIPAddress]
  | cons s rest ih =>
    cases hs : SubnetContainsIPAddress parseIPv6 a s with
    | true => simp [subnetsContainIPAddress, hs]
    | false => simp [subnetsContainIPAddress, hs, ih]

theorem SubnetContainsIPAddress_of_no_address (parseIPv6 : String → Option (List Nat))
    (a s : String)
    (h : ParseIP parseIPv6 (String.mk (a.toList.takeWhile fun c => c ≠ '%' ∧ c ≠ '/')) = none) :
    SubnetContainsIPAddress parseIPv6 a s = false := by
  simp only [SubnetContainsIPAddress]
  rw [address_of_RemoveZoneIndexFromIPAddress, h]

theorem takeWhile_of_no_mark (l : List Char) (hp : '%' ∉ l) (hs : '/' ∉ l) :
    (l.takeWhile fun c => c ≠ '%' ∧ c ≠ '/') = l := by
  rw [List.takeWhile_eq_self_iff]
  intro c hc
  have h1 : c ≠ '%' := fun h => hp (h ▸ hc)
  have h2 : c ≠ '/' := fun h => hs (h ▸ hc)
  simp [h1, h2]

/-- C27: `IsPermittedIPAddress(a, P, I)` is true if and only if no subnet of
`I` contains `a` and `P` is empty or some subnet of `P` contains `a`, where
"contains" is `SubnetContainsIPAddress`.  Hence an address inside an ignored
subnet is never permitted, whatever `P` is; and a string whose address part
(the text before its first `%` or `/`, which is the whole string when it has
neither) does not parse as an IP address is permitted exactly when `P` is
empty. -/
theorem IsPermittedIPAddress_iff (parseIPv6 : String → Option (List Nat)) (a : String)
    (P I : List String) :
    (IsPermittedIPAddress parseIPv6 a P I = true ↔
      (¬ ∃ s ∈ I, SubnetContainsIPAddress parseIPv6 a s = true) ∧
        (P = [] ∨ ∃ s ∈ P, SubnetContainsIPAddress parseIPv6 a s = true)) ∧
    ((∃ s ∈ I, SubnetContainsIPAddress parseIPv6 a s = true) →
      IsPermittedIPAddress parseIPv6 a P I = false) ∧
    (ParseIP parseIPv6 (String.mk (a.toList.takeWhile fun c => c ≠ '%' ∧ c ≠ '/')) = none →
      (IsPermittedIPAddress parseIPv6 a P I = true ↔ P = [])) ∧
    ('%' ∉ a.toList → '/' ∉ a.toList → ParseIP parseIPv6 a = none →
      (IsPermittedIPAddress parseIPv6 a P I = true ↔ P = [])) := by
  have hiff : IsPermittedIPAddress parseIPv6 a P I = true ↔
      (¬ ∃ s ∈ I, SubnetContainsIPAddress parseIPv6 a s = true) ∧
        (P = [] ∨ ∃ s ∈ P, SubnetContainsIPAddress parseIPv6 a s = true) := by
    rw [← subnetsContainIPAddress_iff, ← subnetsContainIPAddress_iff]
    unfold IsPermittedIPAddress
    cases hI : subnetsContainIPAddress parseIPv6 a I with
    | true => simp
    | false =>
      cases P with
      | nil => simp
      | cons p ps => simp
  have hinvalid : ParseIP parseIPv6
        (String.mk (a.toList.takeWhile fun c => c ≠ '%' ∧ c ≠ '/')) = none →
      (IsPermittedIPAddress parseIPv6 a P I = true ↔ P = []) := by
    intro hip
    have hno : ∀ s, SubnetContainsIPAddress parseIPv6 a s = false := fun s =>
      SubnetContainsIPAddress_of_no_address parseIPv6 a s hip
    rw [hiff]
    simp [hno]
  refine ⟨hiff, ?_, hinvalid, ?_⟩
  · intro hI
    cases h : IsPermittedIPAddress parseIPv6 a P I with
    | false => rfl
    | true => exact absurd hI (hiff.mp h).1
  · intro hp hs hip
    apply hinvalid
    rw [takeWhile_of_no_mark _ hp hs]
    exact hip

/-- Witness for `IsPermittedIPAddress_iff`: `172.31.4.129` lies in the ignored
subnet `172.31.4.128/25`, so it is not permitted although it lies in the
permitted subnet `172.31.0.0/16`; and `bogus`, which is no IP address, is
permitted when no subnet is named as permitted. -/
theorem IsPermittedIPAddress_iff_witness :
    IsPermittedIPAddress noIPv6 "172.31.4.129" ["172.31.0.0/16"] ["172.31.4.128/25"] = false ∧
    IsPermittedIPAddress noIPv6 "bogus" [] ["172.31.4.128/25"] = true :=
  ⟨(IsPermittedIPAddress_iff noIPv6 "172.31.4.129" ["172.31.0.0/16"] ["172.31.4.128/25"]).2.1
      ⟨"172.31.4.128/25", by decide, by decide⟩,
   ((IsPermittedIPAddress_iff noIPv6 "bogus" [] ["172.31.4.128/25"]).2.2.2
      (by decide) (by decide) (by decide)).mpr rfl⟩

/-! ## The frame of `DeleteOrphans` and a second soft run -/

theorem itemAfter_idem (hard : Bool) (tag : Tag) (e : Int × OrphanItem) :
    itemAfter hard tag (itemAfter hard tag e) = itemAfter hard tag e := by
  cases hard with
  | true => simp [itemAfter]
  | false =>
    have h := HasTag_AddTag e.2.obj tag
    simp only [itemAfter, Bool.false_eq_true, if_false]
    generalize e.2.obj.AddTag tag = o1 at h ⊢
    simp [NetboxObject.AddTag, h]

theorem itemAfter_key (hard : Bool) (tag : Tag) (e : Int × OrphanItem) :
    (itemAfter hard tag e).1 = e.1 ∧ (itemAfter hard tag e).2.kind = e.2.kind ∧
      (itemAfter hard tag e).2.obj.ID = e.2.obj.ID := by
  cases hard with
  | true => simp [itemAfter]
  | false => simp [itemAfter, AddTag_ID]

theorem deletePaths_items (remote : Remote) (nbi : OrphanInventory) (hard : Bool)
    (prio : List String) :
    ∀ eff items p, (deletePaths remote nbi hard eff items prio).2 p =
      if p ∈ prio then (items p).map (itemAfter hard nbi.OrphanManager.Tag) else items p := by
  induction prio with
  | nil => intro eff items p; simp [deletePaths]
  | cons path rest ih =>
    intro eff items p
    by_cases hlen : (items path).length = 0
    · have hnil : items path = [] := List.length_eq_zero.mp hlen
      simp only [deletePaths, hlen, if_true]
      rw [ih]
      by_cases hp : p = path
      · subst hp
        simp [hnil]
      · simp [hp]
    · simp only [deletePaths, hlen, if_false]
      rw [ih, (deleteItems_calls remote nbi hard path (items path) _).2]
      by_cases hp : p = path
      · subst hp
        simp only [Function.update_same, List.mem_cons, true_or, if_true, List.map_map]
        split
        · apply List.map_congr_left
          intro e _
          exact itemAfter_idem hard _ e
        · rfl
      · simp [hp, Function.update_noteq hp]

theorem DeleteOrphans_items (remote : Remote) (nbi : OrphanInventory) (hard : Bool) (p : String) :
    (DeleteOrphans remote nbi hard).Items p =
      if p ∈ nbi.OrphanManager.OrphanObjectPriority then
        (nbi.OrphanManager.Items p).map (itemAfter hard nbi.OrphanManager.Tag)
      else nbi.OrphanManager.Items p := by
  simp [DeleteOrphans, deletePaths_items]

theorem pathsCalls_origin (hard : Bool) (tag : Tag) (prio : List String) :
    ∀ items, ∀ c ∈ pathsCalls hard tag items prio, ∃ path ∈ prio, ∃ e ∈ items path,
      c = RemoteCall.Delete path e.1 ∨ ∃ tags, c = RemoteCall.Patch e.2.kind e.2.obj.ID tags := by
  induction prio with
  | nil => intro items c hc; simp [pathsCalls] at hc
  | cons q rest ih =>
    intro items c hc
    simp only [pathsCalls, List.mem_append] at hc
    rcases hc with hc | hc
    · obtain ⟨e, he, hce⟩ := List.mem_flatMap.mp hc
      refine ⟨q, List.mem_cons_self _ _, e, he, ?_⟩
      cases hard with
      | true =>
        simp only [itemCalls, if_true, List.mem_singleton] at hce
        exact Or.inl hce
      | false =>
        simp only [itemCalls, Bool.false_eq_true, if_false, softDeleteCalls] at hce
        split at hce
        · simp at hce
        · split at hce
          · exact Or.inr ⟨_, List.mem_singleton.mp hce⟩
          · simp at hce
    · obtain ⟨path, hp, e, he, hc2⟩ := ih _ c hc
      by_cases hq : path = q
      · subst hq
        rw [Function.update_same] at he
        obtain ⟨e0, he0, rfl⟩ := List.mem_map.mp he
        have hk := itemAfter_key hard tag e0
        refine ⟨path, List.mem_cons_self _ _, e0, he0, ?_⟩
        rw [hk.1, hk.2.1, hk.2.2] at hc2
        exact hc2
      · rw [Function.update_noteq hq] at he
        exact ⟨path, List.mem_cons_of_mem _ hp, e, he, hc2⟩

/-- C29: in hard and in soft mode, every `Delete` that `DeleteOrphans` issues
names a path of `OrphanObjectPriority` and an id stored under it, and every
`Patch` is for an item stored under a listed path.  So an orphan stored under
a path that the list does not name gets no `Delete`, gets no `Patch` (none
carries its type and id, unless an item under a listed path has the same
type and id), and is left as it was.  No entry is removed from the orphan
set: after the call every path holds the entries it held, each with its key,
type and id. -/
theorem DeleteOrphans_touches_only_listed_paths (remote : Remote) (nbi : OrphanInventory)
    (hard : Bool) :
    (∀ path id, RemoteCall.Delete path id ∈ (DeleteOrphans remote nbi hard).calls →
      path ∈ nbi.OrphanManager.OrphanObjectPriority ∧
        id ∈ (nbi.OrphanManager.Items path).map Prod.fst) ∧
    (∀ kind id tags, RemoteCall.Patch kind id tags ∈ (DeleteOrphans remote nbi hard).calls →
      ∃ path ∈ nbi.OrphanManager.OrphanObjectPriority, ∃ e ∈ nbi.OrphanManager.Items path,
        e.2.kind = kind ∧ e.2.obj.ID = id) ∧
    (∀ path, path ∉ nbi.OrphanManager.OrphanObjectPriority →
      ∀ e ∈ nbi.OrphanManager.Items path,
        RemoteCall.Delete path e.1 ∉ (DeleteOrphans remote nbi hard).calls ∧
        ((∀ q ∈ nbi.OrphanManager.OrphanObjectPriority, ∀ e1 ∈ nbi.OrphanManager.Items q,
            ¬ (e1.2.kind = e.2.kind ∧ e1.2.obj.ID = e.2.obj.ID)) →
          ∀ tags, RemoteCall.Patch e.2.kind e.2.obj.ID tags ∉
            (DeleteOrphans remote nbi hard).calls) ∧
        (DeleteOrphans remote nbi hard).Items path = nbi.OrphanManager.Items path) ∧
    (∀ path, ((DeleteOrphans remote nbi hard).Items path).map
        (fun e => (e.1, e.2.kind, e.2.obj.ID)) =
      (nbi.OrphanManager.Items path).map fun e => (e.1, e.2.kind, e.2.obj.ID)) := by
  have hdel : ∀ path id, RemoteCall.Delete path id ∈ (DeleteOrphans remote nbi hard).calls →
      path ∈ nbi.OrphanManager.OrphanObjectPriority ∧
        id ∈ (nbi.OrphanManager.Items path).map Prod.fst := by
    intro path id h
    rw [DeleteOrphans_calls] at h
    obtain ⟨q, hq, e, he, hc | ⟨tags, hc⟩⟩ := pathsCalls_origin _ _ _ _ _ h
    · injection hc with h1 h2
      subst h1
      exact ⟨hq, List.mem_map.mpr ⟨e, he, h2.symm⟩⟩
    · cases hc
  have hpatch : ∀ kind id tags,
      RemoteCall.Patch kind id tags ∈ (DeleteOrphans remote nbi hard).calls →
      ∃ path ∈ nbi.OrphanManager.OrphanObjectPriority, ∃ e ∈ nbi.OrphanManager.Items path,
        e.2.kind = kind ∧ e.2.obj.ID = id := by
    intro kind id tags h
    rw [DeleteOrphans_calls] at h
    obtain ⟨q, hq, e, he, hc | ⟨tags1, hc⟩⟩ := pathsCalls_origin _ _ _ _ _ h
    · cases hc
    · injection hc with h1 h2 _
      exact ⟨q, hq, e, he, h1.symm, h2.symm⟩
  refine ⟨hdel, hpatch, ?_, ?_⟩
  · intro path hpath e _
    refine ⟨fun h => hpath (hdel _ _ h).1, ?_, ?_⟩
    · intro hother tags h
      obtain ⟨q, hq, e1, he1, hk⟩ := hpatch _ _ _ h
      exact hother q hq e1 he1 hk
    · rw [DeleteOrphans_items, if_neg hpath]
  · intro path
    rw [DeleteOrphans_items]
    split
    · rw [List.map_map]
      apply List.map_congr_left
      intro e _
      have hk := itemAfter_key hard nbi.OrphanManager.Tag e
      simp [hk.1, hk.2.1, hk.2.2]
    · rfl

/-- Witness for `DeleteOrphans_touches_only_listed_paths`: the tenant stored
under the unlisted path `/api/tenancy/tenants/` gets no `Delete` in hard mode
and no `Patch` in soft mode, and stays as it was. -/
theorem DeleteOrphans_touches_only_listed_paths_witness :
    RemoteCall.Delete "/api/tenancy/tenants/" 3 ∉ (DeleteOrphans okRemote sampleUnlisted true).calls ∧
    (∀ tags, RemoteCall.Patch .Tenant 3 tags ∉ (DeleteOrphans okRemote sampleUnlisted false).calls) ∧
    (DeleteOrphans okRemote sampleUnlisted false).Items "/api/tenancy/tenants/" =
      [(3, ⟨.Tenant, { ID := 3, Tags := [sampleSsotTag], Description := "", CustomFields := [] }⟩)] :=
  ⟨((DeleteOrphans_touches_only_listed_paths okRemote sampleUnlisted true).2.2.1
      "/api/tenancy/tenants/" (by decide)
      (3, ⟨.Tenant, { ID := 3, Tags := [sampleSsotTag], Description := "", CustomFields := [] }⟩)
      (by decide)).1,
   ((DeleteOrphans_touches_only_listed_paths okRemote sampleUnlisted false).2.2.1
      "/api/tenancy/tenants/" (by decide)
      (3, ⟨.Tenant, { ID := 3, Tags := [sampleSsotTag], Description := "", CustomFields := [] }⟩)
      (by decide)).2.1 (by decide),
   ((DeleteOrphans_touches_only_listed_paths okRemote sampleUnlisted false).2.2.1
      "/api/tenancy/tenants/" (by decide)
      (3, ⟨.Tenant, { ID := 3, Tags := [sampleSsotTag], Description := "", CustomFields := [] }⟩)
      (by decide)).2.2⟩

/-- C30: `softDelete` on an item that carries the orphan tag already returns
the item as it is and adds no Remote call.  Hence, after a soft
`DeleteOrphans` on any Remote (also one on which every `Patch` failed), a
second soft `DeleteOrphans` over the orphan set left in memory issues no
Remote call at all, on any Remote. -/
theorem softDelete_skips_tagged_item (remote remote2 : Remote) (nbi : OrphanInventory) :
    (∀ eff item, item.obj.HasTag nbi.OrphanManager.Tag = true →
      (softDelete remote nbi eff item).2 = item ∧
        (softDelete remote nbi eff item).1.calls = eff.calls) ∧
    (DeleteOrphans remote2 (afterDeleteOrphans nbi (DeleteOrphans remote nbi false)) false).calls
      = [] := by
  constructor
  · intro eff item htag
    constructor
    · rw [softDelete_item]
      simp [NetboxObject.AddTag, htag]
    · rw [softDelete_calls]
      simp [softDeleteCalls, htag]
  · rw [DeleteOrphans_calls]
    apply pathsCalls_soft_all_tagged
    intro path hpath e he
    simp only [afterDeleteOrphans] at hpath he
    rw [DeleteOrphans_items, if_pos hpath] at he
    obtain ⟨e0, _, rfl⟩ := List.mem_map.mp he
    simp only [afterDeleteOrphans, itemAfter, Bool.false_eq_true, if_false]
    exact HasTag_AddTag _ _

/-- Witness for `softDelete_skips_tagged_item`: the tagged device of the sample
is left alone by `softDelete`, and a second soft run over the sample orphan
set, after a first run in which every `Patch` failed, makes no call. -/
theorem softDelete_skips_tagged_item_witness :
    (softDelete failingRemote sampleTagged { calls := [], log := [] }
        ⟨.Device, { ID := 7, Tags := [sampleSsotTag, sampleOrphanTag], Description := "",
                    CustomFields := [("last_seen", "2001-01-01")] }⟩).1.calls = [] ∧
    (DeleteOrphans failingRemote
      (afterDeleteOrphans sampleUntagged (DeleteOrphans failingRemote sampleUntagged false))
      false).calls = [] :=
  ⟨((softDelete_skips_tagged_item failingRemote failingRemote sampleTagged).1
      { calls := [], log := [] }
      ⟨.Device, { ID := 7, Tags := [sampleSsotTag, sampleOrphanTag], Description := "",
                  CustomFields := [("last_seen", "2001-01-01")] }⟩ (by decide)).2,
   (softDelete_skips_tagged_item failingRemote failingRemote sampleUntagged).2⟩

/-! ## Properties of `NewSource` -/

theorem NewSource_of_tags {σ : Type} (env : NewSourceEnv σ) (nbi : σ) (config : SourceConfig)
    (t1 t2 : Option Tag) (nbi1 nbi2 : σ)
    (h1 : env.AddTag nbi (sourceNameTagDraft env config) = (.ok t1, nbi1))
    (h2 : env.AddTag nbi1 (sourceTypeTagDraft env config) = (.ok t2, nbi2)) :
    NewSource env nbi config =
      match variantOf config.Type_
          { SourceConfig := config, SourceNameTag := t1, SourceTypeTag := t2,
            CAFile := config.CAFile } with
      | some s =>
        { source := some s, err := none, nbi := nbi2,
          calls := [sourceNameTagDraft env config, sourceTypeTagDraft env config] }
      | none =>
        { source := none, err := some ("unsupported source type: " ++ config.Type_), nbi := nbi2,
          calls := [sourceNameTagDraft env config, sourceTypeTagDraft env config] } := by
  unfold NewSource
  rw [h1]
  dsimp only
  rw [h2]
  dsimp only [Ovirt, Vmware, Dnac, Proxmox, PaloAlto, Fortigate, FMC, IOSXE, variantOf]
  split_ifs <;> rfl

theorem variantOf_isSome_iff (type : String) (c : CommonConfig) :
    variantOf type c ≠ none ↔
      type ∈ ["ovirt", "vmware", "dnac", "proxmox", "paloalto", "fortigate", "fmc", "iosxe"] := by
  unfold variantOf
  simp only [List.mem_cons, List.mem_singleton, List.not_mem_nil, or_false]
  split_ifs <;> simp_all

/-- C26 (counterexample): on the sample inventory that rejects the tag `dnac`,
`NewSource` for a DNAC source returns no adapter and the error of the
source-type tag, and the inventory then holds the source-name tag only: the
source-type tag has not been added. -/
theorem NewSource_type_tag_not_added_counterexample :
    (NewSource (sampleTagEnv ["dnac"]) [] sampleSourceConfig).source = none ∧
    (NewSource (sampleTagEnv ["dnac"]) [] sampleSourceConfig).err =
      some "error creating sourceTypeTag: 400 Bad Request" ∧
    (NewSource (sampleTagEnv ["dnac"]) [] sampleSourceConfig).nbi =
      [{ ID := 1, Name := "Source: lab", Slug := "source-lab", Color := "aa1409",
         Description := "Automatically created tag by netbox-ssot for source lab" }] ∧
    (∀ t ∈ (NewSource (sampleTagEnv ["dnac"]) [] sampleSourceConfig).nbi, t.Name ≠ "dnac") := by
  decide

/-- C26 (amended): when `AddTag` succeeds for the source-name tag and then for
the source-type tag, `NewSource` returns, for each of the eight types `ovirt`,
`vmware`, `dnac`, `proxmox`, `paloalto`, `fortigate`, `fmc` and `iosxe`, the
adapter of the matching variant, whose configuration carries the two tags
that `AddTag` returned, and no error; for every other type it returns no
adapter and the error `unsupported source type: <type>`, after both tags have
been added.  When `AddTag` fails for the source-name tag it returns no
adapter and an error, having made that one call; when `AddTag` fails for the
source-type tag it returns no adapter and an error, after the source-name tag
has been added and the source-type tag has only been handed to `AddTag`.  The
source-name tag is the draft with name `config.Tag`, slug
`Slugify("source-" + config.Name)`, colour `config.TagColor` and the
description naming the source; the source-type tag is the draft with name
`config.Type`, slug `Slugify("type-" + config.Type)`, the colour of the type
and the description naming the type. -/
theorem NewSource_by_type {σ : Type} (env : NewSourceEnv σ) (nbi : σ) (config : SourceConfig) :
    (∀ t1 nbi1 t2 nbi2,
      env.AddTag nbi (sourceNameTagDraft env config) = (.ok t1, nbi1) →
      env.AddTag nbi1 (sourceTypeTagDraft env config) = (.ok t2, nbi2) →
      (NewSource env nbi config).calls =
        [sourceNameTagDraft env config, sourceTypeTagDraft env config] ∧
      (NewSource env nbi config).nbi = nbi2 ∧
      (NewSource env nbi config).source =
        variantOf config.Type_
          { SourceConfig := config, SourceNameTag := t1, SourceTypeTag := t2,
            CAFile := config.CAFile } ∧
      (config.Type_ ∈ ["ovirt", "vmware", "dnac", "proxmox", "paloalto", "fortigate", "fmc",
          "iosxe"] →
        (NewSource env nbi config).source ≠ none ∧ (NewSource env nbi config).err = none) ∧
      (config.Type_ ∉ ["ovirt", "vmware", "dnac", "proxmox", "paloalto", "fortigate", "fmc",
          "iosxe"] →
        (NewSource env nbi config).source = none ∧
        (NewSource env nbi config).err = some ("unsupported source type: " ++ config.Type_))) ∧
    (∀ e nbi1, env.AddTag nbi (sourceNameTagDraft env config) = (.error e, nbi1) →
      (NewSource env nbi config).source = none ∧
      (NewSource env nbi config).err = some ("error creating sourceTag: " ++ e) ∧
      (NewSource env nbi config).calls = [sourceNameTagDraft env config] ∧
      (NewSource env nbi config).nbi = nbi1) ∧
    (∀ t1 nbi1 e nbi2,
      env.AddTag nbi (sourceNameTagDraft env config) = (.ok t1, nbi1) →
      env.AddTag nbi1 (sourceTypeTagDraft env config) = (.error e, nbi2) →
      (NewSource env nbi config).source = none ∧
      (NewSource env nbi config).err = some ("error creating sourceTypeTag: " ++ e) ∧
      (NewSource env nbi config).calls =
        [sourceNameTagDraft env config, sourceTypeTagDraft env config] ∧
      (NewSource env nbi config).nbi = nbi2) ∧
    sourceNameTagDraft env config =
      { ID := 0, Name := config.Tag, Slug := env.Slugify ("source-" ++ config.Name),
        Color := config.TagColor,
        Description := "Automatically created tag by netbox-ssot for source " ++ config.Name } ∧
    sourceTypeTagDraft env config =
      { ID := 0, Name := config.Type_, Slug := env.Slugify ("type-" ++ config.Type_),
        Color := env.SourceTypeTagColorMap config.Type_,
        Description :=
          "Automatically created tag by netbox-ssot for source type " ++ config.Type_ } ∧
    (∀ c : CommonConfig,
      variantOf "ovirt" c = some (.OVirtSource c) ∧
      variantOf "vmware" c = some (.VmwareSource c) ∧
      variantOf "dnac" c = some (.DnacSource c) ∧
      variantOf "proxmox" c = some (.ProxmoxSource c) ∧
      variantOf "paloalto" c = some (.PaloAltoSource c) ∧
      variantOf "fortigate" c = some (.FortigateSource c) ∧
      variantOf "fmc" c = some (.FMCSource c) ∧
      variantOf "iosxe" c = some (.IOSXESource c)) := by
  refine ⟨?_, ?_, ?_, rfl, rfl, fun c => ⟨rfl, rfl, rfl, rfl, rfl, rfl, rfl, rfl⟩⟩
  · intro t1 nbi1 t2 nbi2 h1 h2
    rw [NewSource_of_tags env nbi config t1 t2 nbi1 nbi2 h1 h2]
    have hv := variantOf_isSome_iff config.Type_
      { SourceConfig := config, SourceNameTag := t1, SourceTypeTag := t2,
        CAFile := config.CAFile }
    cases hvar : variantOf config.Type_
        { SourceConfig := config, SourceNameTag := t1, SourceTypeTag := t2,
          CAFile := config.CAFile } with
    | none =>
      rw [hvar] at hv
      refine ⟨rfl, rfl, rfl, ?_, ?_⟩
      · intro hmem
        exact absurd rfl (hv.mpr hmem)
      · intro _
        exact ⟨rfl, rfl⟩
    | some s =>
      rw [hvar] at hv
      refine ⟨rfl, rfl, rfl, ?_, ?_⟩
      · intro _
        exact ⟨by simp, rfl⟩
      · intro hmem
        exact absurd (hv.mp (by simp)) hmem
  · intro e nbi1 h1
    unfold NewSource
    rw [h1]
    exact ⟨rfl, rfl, rfl, rfl⟩
  · intro t1 nbi1 e nbi2 h1 h2
    unfold NewSource
    rw [h1]
    dsimp only
    rw [h2]
    exact ⟨rfl, rfl, rfl, rfl⟩

/-- Witness for `NewSource_by_type`: a DNAC source on the sample inventory
gives the DNAC adapter with the tags of ids 1 and 2; when the inventory
rejects the source-type tag, no adapter is returned. -/
theorem NewSource_by_type_witness :
    (NewSource (sampleTagEnv []) [] sampleSourceConfig).source =
      some (.DnacSource
        { SourceConfig := sampleSourceConfig,
          SourceNameTag := some { sourceNameTagDraft (sampleTagEnv []) sampleSourceConfig with ID := 1 },
          SourceTypeTag := some { sourceTypeTagDraft (sampleTagEnv []) sampleSourceConfig with ID := 2 },
          CAFile := "" }) ∧
    (NewSource (sampleTagEnv ["dnac"]) [] sampleSourceConfig).source = none :=
  ⟨((NewSource_by_type (sampleTagEnv []) [] sampleSourceConfig).1 _ _ _ _ rfl rfl).2.2.1,
   ((NewSource_by_type (sampleTagEnv ["dnac"]) [] sampleSourceConfig).2.2.1 _ _ _ _ rfl rfl).1⟩

/-! ## Properties of `Slugify` -/

theorem hyphenate_slug (c : Char) : isSlugAlnum (hyphenate c) = true ∨ hyphenate c = '-' := by
  unfold hyphenate
  cases h : isSlugAlnum c with
  | true => simp [h]
  | false => simp

theorem toLower_of_slug (c : Char) (h : isSlugAlnum c = true ∨ c = '-') : c.toLower = c := by
  rcases h with h | h
  · simp only [isSlugAlnum, decide_eq_true_eq] at h
    simp only [Char.toLower]
    rw [if_neg]
    omega
  · subst h
    decide

theorem hyphenate_of_slug (c : Char) (h : isSlugAlnum c = true ∨ c = '-') : hyphenate c = c := by
  rcases h with h | h
  · simp [hyphenate, h]
  · subst h
    decide

theorem collapseHyphens_sublist (l : List Char) : (collapseHyphens l).Sublist l := by
  induction l with
  | nil => exact List.Sublist.refl _
  | cons c rest ih =>
    simp only [collapseHyphens]
    split
    · exact List.Sublist.cons _ ih
    · exact List.Sublist.cons₂ _ ih

theorem collapseHyphens_head (l : List Char) : (collapseHyphens l).head? = l.head? := by
  induction l with
  | nil => rfl
  | cons c rest ih =>
    simp only [collapseHyphens]
    split
    · rename_i h
      rw [ih, h.2, h.1]
      rfl
    · rfl

theorem collapseHyphens_chain (l : List Char) :
    (collapseHyphens l).Chain' fun a b => ¬ (a = '-' ∧ b = '-') := by
  induction l with
  | nil => exact List.chain'_nil
  | cons c rest ih =>
    simp only [collapseHyphens]
    split
    · exact ih
    · rename_i h
      rw [List.chain'_cons']
      refine ⟨?_, ih⟩
      intro y hy
      rw [collapseHyphens_head] at hy
      intro hcy
      apply h
      refine ⟨hcy.1, ?_⟩
      rw [Option.mem_def] at hy
      rw [hy, hcy.2]

theorem collapseHyphens_of_chain (l : List Char)
    (h : l.Chain' fun a b => ¬ (a = '-' ∧ b = '-')) : collapseHyphens l = l := by
  induction l with
  | nil => rfl
  | cons c rest ih =>
    rw [List.chain'_cons'] at h
    simp only [collapseHyphens]
    rw [if_neg, ih h.2]
    intro hc
    exact h.1 '-' (by rw [hc.2]; rfl) ⟨hc.1, rfl⟩

theorem mem_collapseHyphens (l : List Char) : ∀ c ∈ l, c ∈ collapseHyphens l := by
  induction l with
  | nil => intro c hc; exact hc
  | cons a rest ih =>
    intro c hc
    simp only [collapseHyphens]
    split
    · rename_i h
      rcases List.mem_cons.mp hc with h1 | h1
      · apply ih
        rw [h1, h.1]
        exact List.mem_of_mem_head? h.2
      · exact ih c h1
    · rcases List.mem_cons.mp hc with h1 | h1
      · rw [h1]
        exact List.mem_cons_self _ _
      · exact List.mem_cons_of_mem _ (ih c h1)

theorem trimHyphens_within (l : List Char) : trimHyphens l <:+: l := by
  have h1 : trimHyphens l <+: l.dropWhile (fun c => decide (c = '-')) :=
    List.rdropWhile_prefix _ _
  have h2 : l.dropWhile (fun c => decide (c = '-')) <:+ l := List.dropWhile_suffix _
  exact h1.isInfix.trans h2.isInfix

theorem dropWhile_of_head_not (p : Char → Bool) (l : List Char)
    (h : ∀ c ∈ l.head?, p c = false) : l.dropWhile p = l := by
  cases l with
  | nil => rfl
  | cons a rest =>
    have ha : p a = false := h a rfl
    simp [List.dropWhile, ha]

theorem head_of_prefix (l1 l2 : List Char) (h : l1 <+: l2) : ∀ c ∈ l1.head?, c ∈ l2.head? := by
  obtain ⟨t, rfl⟩ := h
  intro c hc
  cases l1 with
  | nil => simp at hc
  | cons a rest => simpa using hc

theorem trimHyphens_head (l : List Char) : ∀ c ∈ (trimHyphens l).head?, (c = '-') = False := by
  intro c hc
  have hpre : trimHyphens l <+: l.dropWhile (fun c => decide (c = '-')) :=
    List.rdropWhile_prefix _ _
  have h1 := head_of_prefix _ _ hpre c hc
  have h2 := List.head?_dropWhile_not (fun c => decide (c = '-')) l
  rw [Option.mem_def] at h1
  rw [h1] at h2
  simpa using h2

theorem trimHyphens_idem (l : List Char) : trimHyphens (trimHyphens l) = trimHyphens l := by
  have hd : (trimHyphens l).dropWhile (fun c => decide (c = '-')) = trimHyphens l := by
    apply dropWhile_of_head_not
    intro c hc
    have := trimHyphens_head l c hc
    simpa using this
  have e : trimHyphens (trimHyphens l) =
      ((trimHyphens l).dropWhile fun c => decide (c = '-')).rdropWhile fun c => c = '-' := rfl
  rw [e, hd]
  unfold trimHyphens
  exact List.rdropWhile_idempotent _ _

theorem trimHyphens_eq_nil_iff (l : List Char) : trimHyphens l = [] ↔ ∀ c ∈ l, c = '-' := by
  unfold trimHyphens
  rw [List.rdropWhile_eq_nil_iff]
  constructor
  · intro h
    have hnil : l.dropWhile (fun c => decide (c = '-')) = [] := by
      by_contra hne
      obtain ⟨a, rest, hcons⟩ := List.exists_cons_of_ne_nil hne
      have h2 := List.head?_dropWhile_not (fun c => decide (c = '-')) l
      rw [hcons] at h2 h
      have := h a (List.mem_cons_self _ _)
      simp only [List.head?_cons] at h2
      simp_all
    intro c hc
    have := List.dropWhile_eq_nil_iff.mp hnil c hc
    simpa using this
  · intro h c hc
    have := h c ((List.dropWhile_suffix _).subset hc)
    simpa using this

theorem Slugify_chars (s : String) :
    ∀ c ∈ (Slugify s).toList, isSlugAlnum c = true ∨ c = '-' := by
  intro c hc
  have h1 : c ∈ collapseHyphens ((s.toList.map Char.toLower).map hyphenate) :=
    (trimHyphens_within _).subset hc
  have h2 := (collapseHyphens_sublist _).subset h1
  obtain ⟨b, _, rfl⟩ := List.mem_map.mp h2
  exact hyphenate_slug b

/-- C21 (counterexample): for the empty string, for a string of spaces and for
a string of punctuation, `Slugify` gives the empty string, which does not
match `[a-z0-9-]+`. -/
theorem Slugify_empty_counterexample :
    Slugify "" = "" ∧ Slugify "   " = "" ∧ Slugify "!?" = "" ∧ (Slugify "").toList = [] := by
  decide

/-- C21 (amended): for every string `s`, `Slugify(Slugify(s)) = Slugify(s)`,
and `Slugify(s)` consists only of lowercase ASCII letters, digits and hyphens;
it is non-empty exactly when `s` contains an ASCII letter or a digit.
`Slugify("    Te st    ") = "te-st"` and `Slugify("Test String") =
"test-string"`. -/
theorem Slugify_idempotent (s : String) :
    Slugify (Slugify s) = Slugify s ∧
    (∀ c ∈ (Slugify s).toList, isSlugAlnum c = true ∨ c = '-') ∧
    ((Slugify s).toList ≠ [] ↔ ∃ c ∈ s.toList, isSlugAlnum c.toLower = true) ∧
    Slugify "    Te st    " = "te-st" ∧
    Slugify "Test String" = "test-string" := by
  refine ⟨?_, Slugify_chars s, ?_, by decide, by decide⟩
  · have hchars := Slugify_chars s
    have hmap : ((Slugify s).toList.map Char.toLower).map hyphenate = (Slugify s).toList := by
      rw [List.map_map]
      conv_rhs => rw [← List.map_id (Slugify s).toList]
      apply List.map_congr_left
      intro c hc
      simp only [Function.comp, id]
      rw [toLower_of_slug c (hchars c hc), hyphenate_of_slug c (hchars c hc)]
    have hchain : ((Slugify s).toList).Chain' fun a b => ¬ (a = '-' ∧ b = '-') :=
      List.Chain'.infix (collapseHyphens_chain _) (trimHyphens_within _)
    have hcol : collapseHyphens (Slugify s).toList = (Slugify s).toList :=
      collapseHyphens_of_chain _ hchain
    have htrim : trimHyphens (Slugify s).toList = (Slugify s).toList := trimHyphens_idem _
    have e : Slugify (Slugify s) = String.mk (trimHyphens (collapseHyphens
        (((Slugify s).toList.map Char.toLower).map hyphenate))) := rfl
    rw [e, hmap, hcol, htrim]
    rfl
  · have hne : (Slugify s).toList ≠ [] ↔
        ¬ ∀ c ∈ collapseHyphens ((s.toList.map Char.toLower).map hyphenate), c = '-' := by
      rw [← trimHyphens_eq_nil_iff]
      rfl
    rw [hne]
    constructor
    · intro h
      by_contra hall
      apply h
      intro c hc
      have h2 := (collapseHyphens_sublist _).subset hc
      obtain ⟨b, hb, rfl⟩ := List.mem_map.mp h2
      obtain ⟨a, ha, rfl⟩ := List.mem_map.mp hb
      have hnot : isSlugAlnum a.toLower ≠ true := fun hh => hall ⟨a, ha, hh⟩
      simp [hyphenate, hnot]
    · rintro ⟨a, ha, halnum⟩ hall
      have hmem : hyphenate a.toLower ∈
          collapseHyphens ((s.toList.map Char.toLower).map hyphenate) :=
        mem_collapseHyphens _ _ (List.mem_map.mpr ⟨_, List.mem_map.mpr ⟨a, ha, rfl⟩, rfl⟩)
      have h1 := hall _ hmem
      simp only [hyphenate, halnum, if_true] at h1
      rw [h1] at halnum
      exact absurd halnum (by decide)

/-- Witness for `Slugify_idempotent`: the name `  Core Switch #1 ` gives the
slug `core-switch-1`, which `Slugify` leaves as it is. -/
theorem Slugify_idempotent_witness :
    Slugify (Slugify "  Core Switch #1 ") = Slugify "  Core Switch #1 " ∧
    Slugify "  Core Switch #1 " = "core-switch-1" :=
  ⟨(Slugify_idempotent "  Core Switch #1 ").1, by decide⟩

/-! ## Properties of `JsonDiffMapExceptId` -/

theorem diffFields_self (l : List (String × FieldValue)) : diffFields l l = .ok [] := by
  induction l with
  | nil => rfl
  | cons x rest ih =>
    obtain ⟨name, v⟩ := x
    simp [diffFields, ih]

theorem diffFields_one_field (name : String) (d s : FieldValue)
    (hne : canonical d ≠ canonical s) (post : List (String × FieldValue)) :
    ∀ pre : List (String × FieldValue),
      diffFields (pre ++ (name, d) :: post) (pre ++ (name, s) :: post) =
        .ok [(name, patchValue d s)] := by
  intro pre
  induction pre with
  | nil => simp [diffFields, diffFields_self, hne]
  | cons x rest ih =>
    obtain ⟨k, v⟩ := x
    simp [diffFields, ih]

theorem ascendingIDs_mem (ids : List Int) (i : Int) : i ∈ ascendingIDs ids ↔ i ∈ ids :=
  (List.perm_insertionSort _ ids).mem_iff

/-- C22: for two entities of one family whose attributes other than the id
are the same, `JsonDiffMapExceptId(desired, stored)` returns the empty patch
and no error, whatever the two ids are; so it does for the tag `Test` as a
draft with id 0 against the same tag stored with id 1. -/
theorem JsonDiffMapExceptId_same_fields_empty (desired stored : Entity)
    (h : desired.Fields = stored.Fields) :
    JsonDiffMapExceptId desired stored = .ok [] ∧
    JsonDiffMapExceptId (tagEntity (testTag 0 "Test" "test" "Test tag"))
      (tagEntity (testTag 1 "Test" "test" "Test tag")) = .ok [] := by
  refine ⟨?_, by decide⟩
  unfold JsonDiffMapExceptId
  rw [h]
  exact diffFields_self _

/-- Witness for `JsonDiffMapExceptId_same_fields_empty`: a cluster group as a
draft with id 0 against the same cluster group stored with id 12. -/
theorem JsonDiffMapExceptId_same_fields_empty_witness :
    JsonDiffMapExceptId
      (clusterGroupEntity { ID := 0, Tags := testTags12, Description := "New group",
                            CustomFields := [("source_name", "lab")] } "New Group" "new-group")
      (clusterGroupEntity { ID := 12, Tags := testTags12, Description := "New group",
                            CustomFields := [("source_name", "lab")] } "New Group" "new-group") =
      .ok [] :=
  (JsonDiffMapExceptId_same_fields_empty _ _ rfl).1

/-- C23: for two entities of one family that are the same except for their
tag lists, whose sets of tag ids differ, `JsonDiffMapExceptId(desired, stored)`
returns the patch with the single key `tags`, whose value is the list of
`{id}` objects of all desired tags in ascending id: a list that is sorted and
holds exactly the ids of the desired tags, not only those added or removed.
Desired tags 1, 2, 3 against stored tags 1, 2 give `tags: [1, 2, 3]`. -/
theorem JsonDiffMapExceptId_tags_replaced (desired stored : Entity)
    (pre post : List (String × FieldValue)) (td ts : List Tag)
    (hd : desired.Fields = pre ++ ("tags", .tags td) :: post)
    (hs : stored.Fields = pre ++ ("tags", .tags ts) :: post)
    (hsets : ¬ ∀ i, i ∈ td.map (fun t => t.ID) ↔ i ∈ ts.map (fun t => t.ID)) :
    JsonDiffMapExceptId desired stored =
      .ok [("tags", .idObjects (ascendingIDs (td.map fun t => t.ID)))] ∧
    (ascendingIDs (td.map fun t => t.ID)).Sorted (fun a b => a ≤ b) ∧
    (∀ i, i ∈ ascendingIDs (td.map fun t => t.ID) ↔ ∃ t ∈ td, t.ID = i) ∧
    (ascendingIDs (td.map fun t => t.ID)).length = td.length ∧
    JsonDiffMapExceptId
      (clusterGroupEntity { ID := 0, Tags := testTags123, Description := "New group",
                            CustomFields := [] } "New Group" "new-group")
      (clusterGroupEntity { ID := 0, Tags := testTags12, Description := "New group",
                            CustomFields := [] } "New Group" "new-group") =
      .ok [("tags", .idObjects [1, 2, 3])] := by
  have hne : canonical (.tags td) ≠ canonical (.tags ts) := by
    intro heq
    simp only [canonical, WireValue.idObjects.injEq] at heq
    apply hsets
    intro i
    rw [← ascendingIDs_mem (td.map fun t => t.ID), heq, ascendingIDs_mem]
  refine ⟨?_, List.sorted_insertionSort _ _, ?_, ?_, by decide⟩
  · unfold JsonDiffMapExceptId
    rw [hd, hs, diffFields_one_field "tags" _ _ hne]
    rfl
  · intro i
    rw [ascendingIDs_mem, List.mem_map]
  · unfold ascendingIDs
    rw [List.length_insertionSort, List.length_map]

/-- Witness for `JsonDiffMapExceptId_tags_replaced`: a cluster group whose
desired tags 3, 1 replace the stored tags 1, 2; the patch lists 1, 3. -/
theorem JsonDiffMapExceptId_tags_replaced_witness :
    JsonDiffMapExceptId
      (clusterGroupEntity
        { ID := 0, Tags := [testTag 3 "Test3" "test3" "Test tag 3", testTag 1 "Test" "test" "Test tag"],
          Description := "New group", CustomFields := [] } "New Group" "new-group")
      (clusterGroupEntity { ID := 5, Tags := testTags12, Description := "New group",
                            CustomFields := [] } "New Group" "new-group") =
      .ok [("tags", .idObjects [1, 3])] :=
  (JsonDiffMapExceptId_tags_replaced _ _ []
    [("description", .text "New group"), ("custom_fields", .customFields []),
     ("name", .text "New Group"), ("slug", .text "new-group")]
    [testTag 3 "Test3" "test3" "Test tag 3", testTag 1 "Test" "test" "Test tag"] testTags12
    rfl rfl (by
      intro h
      exact absurd ((h 3).mp (by decide)) (by decide))).1.trans (by decide)

/-- The patch that `TestJsonDiffMapComplex` expects: the description, the
group as `{id: 4}`, `null` for site and tenant, and all desired tags. -/
theorem JsonDiffMapExceptId_complex :
    JsonDiffMapExceptId testClusterNew testClusterExisting =
      .ok [("tags", .idObjects [1, 3, 4]), ("description", .text "New Description"),
           ("group", .idObject 4), ("site", .null), ("tenant", .null)] := by
  decide

/-! ## Properties of `syncDeviceInterface` and `addIPAddressToInterface` -/

theorem getInterfaceType_ok_ne_none (interfaceType : String) (speed : Int)
    (typeI : Option InterfaceType) (h : getInterfaceType interfaceType speed = .ok typeI) :
    typeI ≠ none := by
  unfold getInterfaceType at h
  split at h
  · dsimp only at h
    split at h
    · injection h with h
      subst h
      simp
    · injection h with h
      subst h
      assumption
  · split at h
    · injection h with h
      subst h
      simp
    · cases h

theorem interfaceSpeedAndType_type (iface : DnacInterface) (speed : InterfaceSpeed)
    (typeI : Option InterfaceType) (h : (interfaceSpeedAndType iface).1 = some (speed, typeI)) :
    ((∃ e, Atoi iface.Speed = .error e) → typeI = none) ∧
    ((∃ v, Atoi iface.Speed = .ok v) → typeI ≠ none) := by
  unfold interfaceSpeedAndType at h
  rcases hat : Atoi iface.Speed with e | v
  · rw [hat] at h
    simp only [Option.some.injEq, Prod.mk.injEq] at h
    refine ⟨fun _ => h.2.symm, ?_⟩
    rintro ⟨v, hv⟩
    cases hv
  · rw [hat] at h
    simp only at h
    refine ⟨?_, fun _ => ?_⟩
    · rintro ⟨e, he⟩
      cases he
    · rcases hty : getInterfaceType iface.InterfaceType v with e | t
      · rw [hty] at h
        cases h
      · rw [hty] at h
        simp only [Option.some.injEq, Prod.mk.injEq] at h
        rw [← h.2]
        exact getInterfaceType_ok_ne_none _ _ _ hty

theorem addMACAddress_no_AddInterface {σ μ : Type} (env : DnacIfaceEnv σ μ) (nbi : σ)
    (mac : String) (nbIface : Option Interface) (d : Interface) :
    DnacIfaceCall.AddInterface d ∉ (addMACAddress env nbi mac nbIface).2.2 := by
  unfold addMACAddress
  split
  · split
    · simp
    · split <;> simp
  · simp

theorem addPrefixOfIPAddress_no_AddInterface {σ μ : Type} (env : DnacIfaceEnv σ μ)
    (ds : DnacSource) (nbi : σ) (tenant : Option Tenant) (address : String) (d : Interface) :
    DnacIfaceCall.AddInterface d ∉ (addPrefixOfIPAddress env ds nbi tenant address).2.1 := by
  unfold addPrefixOfIPAddress
  split
  · simp
  · split
    · dsimp only
      split <;> simp
    · simp

theorem addIPAddressToInterface_no_AddInterface {σ μ : Type} (env : DnacIfaceEnv σ μ)
    (ds : DnacSource) (nbi : σ) (iface : Option Interface) (ifaceDetails : DnacInterface)
    (ifaceDevice : Option Device) (d : Interface) :
    DnacIfaceCall.AddInterface d ∉
      (addIPAddressToInterface env ds nbi iface ifaceDetails ifaceDevice).calls := by
  unfold addIPAddressToInterface
  dsimp only
  split
  · simp
  · split
    · simp
    · split
      · simp
      · split
        · simp
        · simp
        · have hp := addPrefixOfIPAddress_no_AddInterface env ds
          split
          · split <;> simp [hp]
          · simp [hp]

theorem syncDeviceInterface_AddInterface_draft {σ μ : Type} (env : DnacIfaceEnv σ μ)
    (ds : DnacSource) (nbi : σ) (ifaceID : String) (iface : DnacInterface) (d : Interface)
    (h : DnacIfaceCall.AddInterface d ∈ (syncDeviceInterface env ds nbi ifaceID iface).calls) :
    ∃ speed typeI, (interfaceSpeedAndType iface).1 = some (speed, typeI) ∧ d.Type_ = typeI ∧
      d.Speed = speed := by
  unfold syncDeviceInterface at h
  dsimp only at h
  rcases hdev : getDevice ds iface.DeviceID with e | ifaceDevice
  · rw [hdev] at h
    simp at h
  · rw [hdev] at h
    dsimp only at h
    rcases hst : getInterfaceStatus iface.Status with e | ifaceStatus
    · rw [hst] at h
      simp at h
    · rw [hst] at h
      dsimp only at h
      rcases hsp : (interfaceSpeedAndType iface).1 with _ | ⟨speed, typeI⟩
      · rw [hsp] at h
        simp at h
      · rw [hsp] at h
        dsimp only at h
        refine ⟨speed, typeI, rfl, ?_⟩
        rcases hval : validateInterfaceName env ds iface.PortName ifaceID with _ | e
        · rw [hval] at h
          dsimp only at h
          rcases hvm : (getVlanModeAndAccessVlan ds iface.PortMode iface.VLANID).1 with e | ⟨m, v⟩
          · rw [hvm] at h
            simp at h
          · rw [hvm] at h
            dsimp only at h
            have hhead : ∀ rest : List DnacIfaceCall,
                (∀ x, DnacIfaceCall.AddInterface x ∉ rest) →
                DnacIfaceCall.AddInterface d ∈
                  DnacIfaceCall.AddInterface
                    (interfaceDraft env ds iface.Description iface.PortName speed ifaceStatus
                      (getInterfaceDuplex iface.Duplex).1 ifaceDevice typeI m v) :: rest →
                d.Type_ = typeI ∧ d.Speed = speed := by
              intro rest hrest hmem
              rcases List.mem_cons.mp hmem with h1 | h1
              · injection h1 with h1
                rw [h1]
                exact ⟨rfl, rfl⟩
              · exact absurd h1 (hrest d)
            rcases hadd : env.AddInterface nbi
                (interfaceDraft env ds iface.Description iface.PortName speed ifaceStatus
                  (getInterfaceDuplex iface.Duplex).1 ifaceDevice typeI m v) with ⟨res, nbi1⟩
            rw [hadd] at h
            rcases res with e | nbIface
            · dsimp only at h
              exact hhead [] (by simp) h
            · dsimp only at h
              have hmac := addMACAddress_no_AddInterface env nbi1 iface.MacAddress nbIface
              have hip := addIPAddressToInterface_no_AddInterface env ds
                (addMACAddress env nbi1 iface.MacAddress nbIface).2.1 nbIface iface ifaceDevice
              rcases hm : (addMACAddress env nbi1 iface.MacAddress nbIface).1 with _ | e
              · rw [hm] at h
                dsimp only at h
                split at h
                · exact hhead _ (by
                    intro x hx
                    rcases List.mem_append.mp hx with h1 | h1
                    · exact hmac x h1
                    · exact hip x h1) h
                · exact hhead _ (by
                    intro x hx
                    rcases List.mem_append.mp hx with h1 | h1
                    · exact hmac x h1
                    · exact hip x h1) h
              · rw [hm] at h
                dsimp only at h
                exact hhead _ (hmac) h
        · rw [hval] at h
          simp at h

/-- C24 (the code at a failing input): for the sample interface record, a
physical port that is up and in access mode, whose speed is the empty string
and so no decimal integer, `syncDeviceInterface` does not skip the record: it
hands one draft to `AddInterface`, returns no error and stores the interface,
but the `Type` of the draft is nil.  In general, every draft that
`syncDeviceInterface` hands to `AddInterface` has a nil `Type` when
`strconv.Atoi` rejects the speed, and a non-nil `Type` when it accepts it. -/
theorem syncDeviceInterface_type_nil_for_bad_speed :
    Atoi sampleIfaceNoSpeed.Speed = .error "invalid syntax" ∧
    addInterfaceTypes
      (syncDeviceInterface sampleIfaceEnv sampleIfaceSource sampleInventory "if-1"
        sampleIfaceNoSpeed).calls = [none] ∧
    (syncDeviceInterface sampleIfaceEnv sampleIfaceSource sampleInventory "if-1"
      sampleIfaceNoSpeed).err = none ∧
    ((syncDeviceInterface sampleIfaceEnv sampleIfaceSource sampleInventory "if-1"
      sampleIfaceNoSpeed).ds.InterfaceID2nbInterface.map Prod.fst) = ["if-1"] ∧
    addInterfaceTypes
      (syncDeviceInterface sampleIfaceEnv sampleIfaceSource sampleInventory "if-1"
        { sampleIfaceNoSpeed with Speed := "1000000" }).calls = [some GE1FixedInterfaceType] ∧
    (∀ (σ μ : Type) (env : DnacIfaceEnv σ μ) (ds : DnacSource) (nbi : σ) (ifaceID : String)
      (iface : DnacInterface) (draft : Interface),
      DnacIfaceCall.AddInterface draft ∈ (syncDeviceInterface env ds nbi ifaceID iface).calls →
        ((∃ e, Atoi iface.Speed = .error e) → draft.Type_ = none) ∧
        ((∃ v, Atoi iface.Speed = .ok v) → draft.Type_ ≠ none)) := by
  refine ⟨by decide, by decide, by decide, by decide, by decide, ?_⟩
  intro σ μ env ds nbi ifaceID iface draft h
  obtain ⟨speed, typeI, hst, hty, _⟩ :=
    syncDeviceInterface_AddInterface_draft env ds nbi ifaceID iface draft h
  rw [hty]
  exact interfaceSpeedAndType_type iface speed typeI hst

/-- C28: `addIPAddressToInterface` returns nil, without any call on the
inventory (no `AddIPAddress`, no `AddPrefix`, no
`SetPrimaryIPAddressForObject`) and without touching the inventory, whenever
the IPv4 address of the interface is empty or
`IsPermittedIPAddress(address, permittedSubnets, ignoredSubnets)` is true.  A
draft reaches `AddIPAddress` only for an address that is non-empty and for
which `IsPermittedIPAddress` is false; and for such an address without a mask,
on an interface with a device, `AddIPAddress` is the first call, with the
address followed by `/32`. -/
theorem addIPAddressToInterface_skips_permitted {σ μ : Type} (env : DnacIfaceEnv σ μ)
    (ds : DnacSource) (nbi : σ) (iface : Option Interface) (ifaceDetails : DnacInterface)
    (ifaceDevice : Option Device) :
    ((ifaceDetails.IPv4Address = "" ∨
        IsPermittedIPAddress env.parseIPv6 ifaceDetails.IPv4Address
          ds.SourceConfig.PermittedSubnets ds.SourceConfig.IgnoredSubnets = true) →
      (addIPAddressToInterface env ds nbi iface ifaceDetails ifaceDevice).err = none ∧
      (addIPAddressToInterface env ds nbi iface ifaceDetails ifaceDevice).panicked = false ∧
      (addIPAddressToInterface env ds nbi iface ifaceDetails ifaceDevice).calls = [] ∧
      (addIPAddressToInterface env ds nbi iface ifaceDetails ifaceDevice).nbi = nbi) ∧
    (∀ draft, DnacIfaceCall.AddIPAddress draft ∈
        (addIPAddressToInterface env ds nbi iface ifaceDetails ifaceDevice).calls →
      ifaceDetails.IPv4Address ≠ "" ∧
      IsPermittedIPAddress env.parseIPv6 ifaceDetails.IPv4Address
        ds.SourceConfig.PermittedSubnets ds.SourceConfig.IgnoredSubnets = false) ∧
    (ifaceDetails.IPv4Address ≠ "" →
      IsPermittedIPAddress env.parseIPv6 ifaceDetails.IPv4Address
        ds.SourceConfig.PermittedSubnets ds.SourceConfig.IgnoredSubnets = false →
      ifaceDetails.IPv4Mask = "" →
      ∀ i d, iface = some i → i.Device = some d →
        ∃ draft, (addIPAddressToInterface env ds nbi iface ifaceDetails ifaceDevice).calls.head? =
            some (.AddIPAddress draft) ∧
          draft.Address = ifaceDetails.IPv4Address ++ "/" ++ "32") := by
  have hguard : (ifaceDetails.IPv4Address = "" ∨
        IsPermittedIPAddress env.parseIPv6 ifaceDetails.IPv4Address
          ds.SourceConfig.PermittedSubnets ds.SourceConfig.IgnoredSubnets = true) →
      addIPAddressToInterface env ds nbi iface ifaceDetails ifaceDevice =
        { err := none, panicked := false, nbi := nbi, ds := ds, calls := [], log := [] } := by
    intro hg
    unfold addIPAddressToInterface
    dsimp only
    rw [if_pos hg]
  refine ⟨?_, ?_, ?_⟩
  · intro hg
    rw [hguard hg]
    exact ⟨rfl, rfl, rfl, rfl⟩
  · intro draft hmem
    by_cases hg : ifaceDetails.IPv4Address = "" ∨
        IsPermittedIPAddress env.parseIPv6 ifaceDetails.IPv4Address
          ds.SourceConfig.PermittedSubnets ds.SourceConfig.IgnoredSubnets = true
    · rw [hguard hg] at hmem
      simp at hmem
    · rw [not_or] at hg
      exact ⟨hg.1, by simpa using hg.2⟩
  · intro haddr hperm hmask i d hi hd
    have hg : ¬ (ifaceDetails.IPv4Address = "" ∨
        IsPermittedIPAddress env.parseIPv6 ifaceDetails.IPv4Address
          ds.SourceConfig.PermittedSubnets ds.SourceConfig.IgnoredSubnets = true) := by
      rw [not_or]
      exact ⟨haddr, by simp [hperm]⟩
    have h32 : toString (32 : Int) = "32" := by decide
    unfold addIPAddressToInterface
    dsimp only
    rw [if_neg hg, if_neg (by simp [hmask]), hi]
    simp only [Option.bind, hd, Option.map, h32]
    split
    · exact ⟨_, rfl, rfl⟩
    · exact ⟨_, rfl, rfl⟩
    · split
      · split <;> exact ⟨_, rfl, rfl⟩
      · exact ⟨_, rfl, rfl⟩

/-- Witness for `addIPAddressToInterface_skips_permitted`: with `10.0.0.0/8`
named as permitted, the address `10.1.2.3` of the sample interface makes no
call on the inventory, while `192.168.1.7`, which lies outside, is handed to
`AddIPAddress`. -/
theorem addIPAddressToInterface_skips_permitted_witness :
    (addIPAddressToInterface sampleIfaceEnv sampleIfaceSource sampleInventory
      (some { Device := some {} })
      { sampleIfaceNoSpeed with IPv4Address := "10.1.2.3", IPv4Mask := "255.255.255.0" }
      none).calls = [] ∧
    addIPAddressTexts
      (addIPAddressToInterface sampleIfaceEnv sampleIfaceSource sampleInventory
        (some { Device := some {} })
        { sampleIfaceNoSpeed with IPv4Address := "192.168.1.7", IPv4Mask := "255.255.255.0" }
        none).calls = ["192.168.1.7/24"] :=
  ⟨((addIPAddressToInterface_skips_permitted sampleIfaceEnv sampleIfaceSource sampleInventory
      (some { Device := some {} })
      { sampleIfaceNoSpeed with IPv4Address := "10.1.2.3", IPv4Mask := "255.255.255.0" }
      none).1 (Or.inr (by decide))).2.2.1,
   by decide⟩

end NetboxSsot
